import Mathlib

/-!
# PCL point cloud handlers over `pcl::PCLPointCloud2`

A shallow embedding of `visualization/src/point_cloud_handlers.cpp`: the schema lookups of
the handler constructors, the geometry extractor `getGeometry` and the `getColor` member of
every colour handler, followed by theorems about them.

Conventions of the embedding.

* A `float` is kept as its IEEE-754 binary32 bit pattern (a natural number below `2^32`),
  assembled little-endian from four bytes of the data vector, so that `std::isfinite`, the
  comparison with zero and the narrowing casts are decidable functions of the bits. A `double`
  is kept as its binary64 bit pattern in the same way.
* The counters the source declares as `int`, `std::size_t` or `vtkIdType`, and the product
  `width * height`, are natural numbers. The `int` ones (`point_offset` of `getGeometry`;
  `point_offset`, `x_point_offset`, `j` and `idx` of the RGBA, HSV, generic and label loops)
  would wrap beyond `INT_MAX`: the theorems that describe the output of these loops, or the
  positions they write to, are stated for the clouds that satisfy `fitsInt`, and they include
  the fact `noOverflow` that on such a cloud none of these variables exceeds `INT_MAX` at any
  iteration, so that the natural numbers are the values the source computes.
* Reading a byte beyond the end of the data vector is undefined in the source; here it reads 0.
  Heap memory returned by `new[]` that has not been written yet reads 0, and so does a local
  variable the source leaves uninitialised.
* Allocation is assumed to succeed (the `std::bad_alloc` path of `getGeometry` is not modelled).
-/

set_option linter.dupNamespace false

namespace pcl

/-! ## Data model -/

/-- Modelled from the spec: the declaration of `pcl::PCLPointField` is in a header that is not
part of the sources at hand; the spec's FieldDescriptor is
`{name, byteOffset, datatype, elementCount}`. -/
structure PCLPointField where
  name : String
  offset : Nat
  datatype : Nat
  count : Nat
deriving DecidableEq, Inhabited

/-- Modelled from the spec: the declaration of `pcl::PCLPointCloud2` is in a header that is not
part of the sources at hand; the spec's RecordBuffer is
`{width, height, recordStride, fields, raw, isDense}`. -/
structure PCLPointCloud2 where
  height : Nat
  width : Nat
  fields : List PCLPointField
  point_step : Nat
  data : List UInt8
  is_dense : Bool
deriving DecidableEq, Inhabited

/-- Modelled from the spec: the `PCLPointField` datatype codes and `pcl::getFieldSize`
(spec: `datatypeByteSize(datatype)`), with the widths of PCL's
INT8, UINT8, INT16, UINT16, INT32, UINT32, FLOAT32, FLOAT64 (codes 1 to 8); an unknown code
has size 0. -/
def getFieldSize (datatype : Nat) : Nat :=
  match datatype with
  | 1 => 1
  | 2 => 1
  | 3 => 2
  | 4 => 2
  | 5 => 4
  | 6 => 4
  | 7 => 4
  | 8 => 8
  | _ => 0

/-- The linear scan behind `getFieldIndex`: position of the first field called `field_name`,
counted from `i`, or -1. -/
def getFieldIndex.scan (field_name : String) : List PCLPointField → Nat → Int
  | [], _ => -1
  | f :: fs, i => if f.name = field_name then (i : Int) else getFieldIndex.scan field_name fs (i + 1)

/-- Modelled from the spec: `pcl::getFieldIndex` lives in `pcl/common/io.h`, which is not part
of the sources at hand. Spec 4.1: a linear scan over the buffer's field descriptors matching by
name, case-sensitive exact match; absence is reported (as -1, the value every caller in
`point_cloud_handlers.cpp` compares with). -/
def getFieldIndex (cloud : PCLPointCloud2) (field_name : String) : Int :=
  getFieldIndex.scan field_name cloud.fields 0

/-- A field called `name` exists in the schema of `cloud`. -/
def hasField (cloud : PCLPointCloud2) (name : String) : Prop :=
  ∃ f ∈ cloud.fields, f.name = name

/-- Whether a field called `name` exists can be computed. -/
instance (cloud : PCLPointCloud2) (name : String) : Decidable (hasField cloud name) := by
  unfold hasField; infer_instance

/-- The value `UNAVAILABLE` the geometry constructors compare a field index with. -/
def UNAVAILABLE : Int := -1

/-- The expression `cloud_->fields[idx]`. -/
def fieldAt (cloud : PCLPointCloud2) (idx : Int) : PCLPointField :=
  cloud.fields.getD idx.toNat default

/-! ## Bytes and floats -/

/-- The expression `cloud_->data[i]`, as a number. -/
def byteAt (data : List UInt8) (i : Nat) : Nat := (data.getD i 0).toNat

/-- The call `memcpy (&dst, &data[off], n)` for a four byte landing variable `dst`
(little-endian): the low `n` bytes of `dst` are replaced, the others stay. Only the first four
bytes are taken when `n` exceeds the size of the landing variable. -/
def memcpy (dst : Nat) (data : List UInt8) (off n : Nat) : Nat :=
  (if 0 < n then byteAt data off else dst % 256)
  + 256 * (if 1 < n then byteAt data (off + 1) else dst / 256 % 256)
  + 65536 * (if 2 < n then byteAt data (off + 2) else dst / 65536 % 256)
  + 16777216 * (if 3 < n then byteAt data (off + 3) else dst / 16777216 % 256)

/-- A single precision value, as its binary32 bit pattern. -/
abbrev F32 := Nat

/-- The float stored at byte `off`:
`memcpy (&x, &data[off], sizeof (float))`, also `*reinterpret_cast<const float*>(&data[off])`. -/
def readFloat (data : List UInt8) (off : Nat) : F32 := memcpy 0 data off 4

namespace F32

/-- The sign bit. -/
def sign (x : F32) : Bool := x / 2147483648 % 2 = 1

/-- The biased exponent field. -/
def expField (x : F32) : Nat := x / 8388608 % 256

/-- The fraction field. -/
def frac (x : F32) : Nat := x % 8388608

/-- Value of `std::isfinite (x)`: the exponent field is not all ones. -/
def isfinite (x : F32) : Bool := expField x != 255

/-- Value of `x == 0` for a float `x`: plus or minus zero. -/
def isZero (x : F32) : Bool := x % 2147483648 == 0

/-- Integer significand of a finite value: the value is `(-1)^sign * mant * 2^exp2`. -/
def mant (x : F32) : Nat := if expField x = 0 then frac x else 8388608 + frac x

/-- Binary exponent of the integer significand of a finite value. -/
def exp2 (x : F32) : Int := if expField x = 0 then -149 else (expField x : Int) - 150

/-- The quiet NaN produced by an invalid operation. -/
def qNaN : F32 := 2143289344

/-- Plus or minus infinity. -/
def infinity (neg : Bool) : F32 := (if neg then 2147483648 else 0) + 2139095040

/-- Plus or minus zero. -/
def zero (neg : Bool) : F32 := if neg then 2147483648 else 0

/-- Numerator of the magnitude of a finite value, over the denominator `den`. -/
def num (x : F32) : Nat := mant x * 2 ^ (exp2 x).toNat

/-- Denominator (a power of two) of the magnitude of a finite value. -/
def den (x : F32) : Nat := 2 ^ (-(exp2 x)).toNat

/-- Number of binary digits of `n`, by halving at most `fuel` times. -/
def bitLength.go : Nat → Nat → Nat
  | 0, _ => 0
  | fuel + 1, n => if n = 0 then 0 else bitLength.go fuel (n / 2) + 1

/-- Number of binary digits of `n`. -/
def bitLength (n : Nat) : Nat := bitLength.go n n

/-- Round to nearest, ties to even: the binary32 pattern of the rational `(-1)^neg * n / d`
(`d` positive), with overflow to infinity and gradual underflow. -/
def round (neg : Bool) (n d : Nat) : F32 :=
  if n = 0 then zero neg else
  let k : Int := (bitLength n : Int) - (bitLength d : Int)
  let above : Bool := if 0 ≤ k then d * 2 ^ k.toNat ≤ n else d ≤ n * 2 ^ (-k).toNat
  let e : Int := if above then k else k - 1
  let qe : Int := max (e - 23) (-149)
  let N : Nat := if 0 ≤ qe then n else n * 2 ^ (-qe).toNat
  let D : Nat := if 0 ≤ qe then d * 2 ^ qe.toNat else d
  let q := N / D
  let r := N % D
  let m := if 2 * r < D then q else if D < 2 * r then q + 1 else q + q % 2
  let qe : Int := if m = 16777216 then qe + 1 else qe
  let m := if m = 16777216 then 8388608 else m
  if m < 8388608 then zero neg + m
  else if 255 ≤ qe + 150 then infinity neg
  else zero neg + (qe + 150).toNat * 8388608 + (m - 8388608)

/-- Single precision product `x * y`. -/
def mul (x y : F32) : F32 :=
  let neg := sign x != sign y
  if expField x = 255 ∧ frac x ≠ 0 then qNaN
  else if expField y = 255 ∧ frac y ≠ 0 then qNaN
  else if expField x = 255 then (if isZero y then qNaN else infinity neg)
  else if expField y = 255 then (if isZero x then qNaN else infinity neg)
  else round neg (num x * num y) (den x * den y)

/-- Single precision difference `x - y`. -/
def sub (x y : F32) : F32 :=
  if expField x = 255 ∧ frac x ≠ 0 then qNaN
  else if expField y = 255 ∧ frac y ≠ 0 then qNaN
  else if expField x = 255 then
    (if expField y = 255 ∧ sign x = sign y then qNaN else x)
  else if expField y = 255 then infinity (!sign y)
  else
    let a : Int := (if sign x then -1 else 1) * ((num x * den y : Nat) : Int)
    let b : Int := (if sign y then -1 else 1) * ((num y * den x : Nat) : Int)
    let c := a - b
    if c = 0 then zero (sign x && !sign y)
    else round (decide (c < 0)) c.natAbs (den x * den y)

/-- Single precision quotient `x / y`. -/
def div (x y : F32) : F32 :=
  let neg := sign x != sign y
  if expField x = 255 ∧ frac x ≠ 0 then qNaN
  else if expField y = 255 ∧ frac y ≠ 0 then qNaN
  else if expField x = 255 then (if expField y = 255 then qNaN else infinity neg)
  else if expField y = 255 then zero neg
  else if isZero y then (if isZero x then qNaN else infinity neg)
  else round neg (num x * den y) (den x * num y)

/-- Value of `std::floor (x)`. -/
def floor (x : F32) : F32 :=
  if !isfinite x then x
  else if num x % den x = 0 then x
  else if sign x then round true (num x / den x + 1) 1
  else round false (num x / den x) 1

/-- Value of `static_cast<float> (i)` for an `int` i. -/
def ofInt (i : Int) : F32 := round (decide (i < 0)) i.natAbs 1

/-- Value of `static_cast<int> (x)`: truncation toward zero. For NaN, an infinity or a value
outside the range of `int` the conversion is undefined in C++; the result is then `-2^31`, the
value the x86 conversion instruction delivers. -/
def toInt (x : F32) : Int :=
  if !isfinite x then -2147483648 else
  let t : Int := ((num x / den x : Nat) : Int)
  let v : Int := if sign x then -t else t
  if -2147483648 ≤ v ∧ v ≤ 2147483647 then v else -2147483648

/-- Value of `static_cast<unsigned char> (x)`: truncation toward zero, kept to the low 8 bits
(the conversion is undefined in C++ when the truncated value is outside 0..255). -/
def toUChar (x : F32) : UInt8 := (toInt x % 256).toNat.toUInt8

end F32

/-- A double precision value, as its binary64 bit pattern. -/
abbrev F64 := Nat

namespace F64

/-- The sign bit. -/
def sign (x : F64) : Bool := x / 9223372036854775808 % 2 = 1

/-- The biased exponent field. -/
def expField (x : F64) : Nat := x / 4503599627370496 % 2048

/-- The fraction field. -/
def frac (x : F64) : Nat := x % 4503599627370496

/-- Value of `std::isfinite (x)`: the exponent field is not all ones. -/
def isfinite (x : F64) : Bool := expField x != 2047

/-- Value of `x == 0` for a double `x`: plus or minus zero. -/
def isZero (x : F64) : Bool := x % 9223372036854775808 == 0

/-- Integer significand of a finite value: the value is `(-1)^sign * mant * 2^exp2`. -/
def mant (x : F64) : Nat := if expField x = 0 then frac x else 4503599627370496 + frac x

/-- Binary exponent of the integer significand of a finite value. -/
def exp2 (x : F64) : Int := if expField x = 0 then -1074 else (expField x : Int) - 1075

/-- The quiet NaN produced by an invalid operation. -/
def qNaN : F64 := 9221120237041090560

/-- Plus or minus infinity. -/
def infinity (neg : Bool) : F64 := (if neg then 9223372036854775808 else 0) + 9218868437227405312

/-- Plus or minus zero. -/
def zero (neg : Bool) : F64 := if neg then 9223372036854775808 else 0

/-- Numerator of the magnitude of a finite value, over the denominator `den`. -/
def num (x : F64) : Nat := mant x * 2 ^ (exp2 x).toNat

/-- Denominator (a power of two) of the magnitude of a finite value. -/
def den (x : F64) : Nat := 2 ^ (-(exp2 x)).toNat

/-- Round to nearest, ties to even: the binary64 pattern of the rational `(-1)^neg * n / d`
(`d` positive), with overflow to infinity and gradual underflow. -/
def round (neg : Bool) (n d : Nat) : F64 :=
  if n = 0 then zero neg else
  let k : Int := (F32.bitLength n : Int) - (F32.bitLength d : Int)
  let above : Bool := if 0 ≤ k then d * 2 ^ k.toNat ≤ n else d ≤ n * 2 ^ (-k).toNat
  let e : Int := if above then k else k - 1
  let qe : Int := max (e - 52) (-1074)
  let N : Nat := if 0 ≤ qe then n else n * 2 ^ (-qe).toNat
  let D : Nat := if 0 ≤ qe then d * 2 ^ qe.toNat else d
  let q := N / D
  let r := N % D
  let m := if 2 * r < D then q else if D < 2 * r then q + 1 else q + q % 2
  let qe : Int := if m = 9007199254740992 then qe + 1 else qe
  let m := if m = 9007199254740992 then 4503599627370496 else m
  if m < 4503599627370496 then zero neg + m
  else if 2047 ≤ qe + 1075 then infinity neg
  else zero neg + (qe + 1075).toNat * 4503599627370496 + (m - 4503599627370496)

/-- Double precision product `x * y`. -/
def mul (x y : F64) : F64 :=
  let neg := sign x != sign y
  if expField x = 2047 ∧ frac x ≠ 0 then qNaN
  else if expField y = 2047 ∧ frac y ≠ 0 then qNaN
  else if expField x = 2047 then (if isZero y then qNaN else infinity neg)
  else if expField y = 2047 then (if isZero x then qNaN else infinity neg)
  else round neg (num x * num y) (den x * den y)

/-- The double with the value of the integer `i` (the literal `255.0` is `ofInt 255`). -/
def ofInt (i : Int) : F64 := round (decide (i < 0)) i.natAbs 1

/-- Value of `lrint (x)` as a `long`: the nearest integer, ties to even. For NaN, an infinity
or a value outside the range of a 64-bit `long` the result is unspecified in C; it is then
`-2^63`, the value the x86 conversion instruction delivers. -/
def lrint (x : F64) : Int :=
  if !isfinite x then -9223372036854775808 else
  let q := num x / den x
  let r := num x % den x
  let m : Int := ((if 2 * r < den x then q else if den x < 2 * r then q + 1 else q + q % 2 : Nat) : Int)
  let v : Int := if sign x then -m else m
  if -9223372036854775808 ≤ v ∧ v ≤ 9223372036854775807 then v else -9223372036854775808

/-- Value of `static_cast<int> (x)`: truncation toward zero. For NaN, an infinity or a value
outside the range of `int` the conversion is undefined in C++; the result is then `-2^31`, the
value the x86 conversion instruction delivers. -/
def toInt (x : F64) : Int :=
  if !isfinite x then -2147483648 else
  let t : Int := ((num x / den x : Nat) : Int)
  let v : Int := if sign x then -t else t
  if -2147483648 ≤ v ∧ v ≤ 2147483647 then v else -2147483648

/-- Value of `static_cast<unsigned char> (x)` for a double: truncation toward zero, kept to
the low 8 bits (the conversion is undefined in C++ when the truncated value is outside
0..255). -/
def toUChar (x : F64) : UInt8 := (toInt x % 256).toNat.toUInt8

end F64

/-- Value of `static_cast<unsigned char> (n)` for a `long` n: the low 8 bits. -/
def longToUChar (n : Int) : UInt8 := (n % 256).toNat.toUInt8

/-- Modelled from the spec: the macro `pcl_lrint` is defined in `pcl/pcl_macros.h`, which is not
part of the sources at hand; spec 4.4 has the random colour scaled to 0-255 per channel, the
macro rounds its argument to the nearest integer. -/
def pcl_lrint (x : F64) : Int := F64.lrint x

/-! ## VTK arrays -/

/-- The part of a `vtkFloatArray` the handlers set: component count and the values. -/
structure vtkFloatArray where
  NumberOfComponents : Nat
  values : List F32
deriving DecidableEq

/-- The part of a `vtkUnsignedCharArray` the handlers set: component count and the values. -/
structure vtkUnsignedCharArray where
  NumberOfComponents : Nat
  values : List UInt8
deriving DecidableEq

/-- The part of `vtkPoints` that `getGeometry` sets: the float data array. -/
structure vtkPoints where
  Data : vtkFloatArray
deriving DecidableEq

namespace vtkUnsignedCharArray

/-- A fresh array, as returned by `vtkSmartPointer<vtkUnsignedCharArray>::New ()`. -/
def New : vtkUnsignedCharArray := { NumberOfComponents := 1, values := [] }

/-- The call `SetNumberOfComponents (c)`. -/
def SetNumberOfComponents (a : vtkUnsignedCharArray) (c : Nat) : vtkUnsignedCharArray :=
  { a with NumberOfComponents := c }

/-- The call `SetNumberOfTuples (n)`: the array holds `n` tuples afterwards. -/
def SetNumberOfTuples (a : vtkUnsignedCharArray) (n : Nat) : vtkUnsignedCharArray :=
  { a with values :=
      List.take (n * a.NumberOfComponents) (a.values ++ List.replicate (n * a.NumberOfComponents) 0) }

/-- The call `SetArray (array, size, 0, VTK_DATA_ARRAY_DELETE)`: the array takes over the first
`size` values of the block `array`. -/
def SetArray (a : vtkUnsignedCharArray) (array : List UInt8) (size : Nat) : vtkUnsignedCharArray :=
  { a with values := array.take size }

end vtkUnsignedCharArray

namespace vtkFloatArray

/-- A fresh array, as returned by `vtkSmartPointer<vtkFloatArray>::New ()`. -/
def New : vtkFloatArray := { NumberOfComponents := 1, values := [] }

/-- The call `SetNumberOfComponents (c)`. -/
def SetNumberOfComponents (a : vtkFloatArray) (c : Nat) : vtkFloatArray :=
  { a with NumberOfComponents := c }

/-- The call `SetNumberOfTuples (n)`: the array holds `n` tuples afterwards. -/
def SetNumberOfTuples (a : vtkFloatArray) (n : Nat) : vtkFloatArray :=
  { a with values :=
      List.take (n * a.NumberOfComponents) (a.values ++ List.replicate (n * a.NumberOfComponents) 0) }

/-- The call `SetArray (array, size, 0, VTK_DATA_ARRAY_DELETE)`: the array takes over the first
`size` values of the block `array`. -/
def SetArray (a : vtkFloatArray) (array : List F32) (size : Nat) : vtkFloatArray :=
  { a with values := array.take size }

/-- The call `InsertNextValue (v)`: one more value at the end. -/
def InsertNextValue (a : vtkFloatArray) (v : F32) : vtkFloatArray :=
  { a with values := a.values ++ [v] }

end vtkFloatArray

/-! ## Colours -/

/-- Modelled from the spec: the declaration of `pcl::RGB` is in a header that is not part of the
sources at hand. Spec 4.4: the 4 packed bytes at the field's offset are reinterpreted as 8-bit
channels directly; the members lie in memory in the order b, g, r, a, as in PCL's point types. -/
structure RGB where
  b : UInt8
  g : UInt8
  r : UInt8
  a : UInt8
deriving DecidableEq

/-- The default constructed `pcl::RGB`: black, opaque. -/
instance : Inhabited RGB := ⟨{ b := 0, g := 0, r := 0, a := 255 }⟩

/-- The call `memcpy (&rgb_data, &data[off], sizeof (float))` for a `pcl::RGB rgb_data`. -/
def readRGB (data : List UInt8) (off : Nat) : RGB :=
  { b := data.getD off 0, g := data.getD (off + 1) 0, r := data.getD (off + 2) 0,
    a := data.getD (off + 3) 0 }

/-- The Glasbey lookup table: its 256 entries are in `pcl/common/colors.cpp`, which is not part
of the sources at hand, so the table is a parameter of the label handler. -/
abbrev GlasbeyLUT := List RGB

/-- The call `GlasbeyLUT::size ()`. -/
def GlasbeyLUT.size (lut : GlasbeyLUT) : Nat := lut.length

/-- The call `GlasbeyLUT::at (color_id)`. -/
def GlasbeyLUT.at (lut : GlasbeyLUT) (color_id : Nat) : RGB := lut.getD color_id default

/-! ## Geometry handlers -/

namespace visualization

/-- The state of `PointCloudGeometryHandler<pcl::PCLPointCloud2>`. -/
structure PointCloudGeometryHandler where
  cloud_ : PCLPointCloud2
  capable_ : Bool
  field_x_idx_ : Int
  field_y_idx_ : Int
  field_z_idx_ : Int
deriving DecidableEq

namespace PointCloudGeometryHandler

/-- Modelled from the spec: the base class constructor is in a header that is not part of the
sources at hand; it stores the cloud and starts in the incapable state with no field
resolved. -/
def base (cloud : PCLPointCloud2) : PointCloudGeometryHandler :=
  { cloud_ := cloud, capable_ := false,
    field_x_idx_ := UNAVAILABLE, field_y_idx_ := UNAVAILABLE, field_z_idx_ := UNAVAILABLE }

/-- One iteration of the loop of the dense branch of `getGeometry`; the state is
`(point_offset, data)`. The source declares `int point_offset`; see `fitsInt` and
`getGeometry.noOverflow` for the clouds on which it does not wrap. -/
def getGeometry.denseStep (h : PointCloudGeometryHandler) (st : Nat × vtkFloatArray) (_i : Nat) :
    Nat × vtkFloatArray :=
  let point_offset := st.1
  let data := st.2
  let data := data.InsertNextValue
    (readFloat h.cloud_.data (point_offset + (fieldAt h.cloud_ h.field_x_idx_).offset))
  let data := data.InsertNextValue
    (readFloat h.cloud_.data (point_offset + (fieldAt h.cloud_ h.field_y_idx_).offset))
  let data := data.InsertNextValue
    (readFloat h.cloud_.data (point_offset + (fieldAt h.cloud_ h.field_z_idx_).offset))
  (point_offset + h.cloud_.point_step, data)

/-- One iteration of the loop of the non-dense branch of `getGeometry`; the state is
`(point_offset, data)`. Every `continue` still runs the increment of `point_offset`, an `int`
in the source (see `fitsInt` and `getGeometry.noOverflow`). -/
def getGeometry.sparseStep (h : PointCloudGeometryHandler) (st : Nat × vtkFloatArray) (_i : Nat) :
    Nat × vtkFloatArray :=
  let point_offset := st.1
  let data := st.2
  let x := readFloat h.cloud_.data (point_offset + (fieldAt h.cloud_ h.field_x_idx_).offset)
  if !F32.isfinite x then (point_offset + h.cloud_.point_step, data) else
  let data := data.InsertNextValue x
  let y := readFloat h.cloud_.data (point_offset + (fieldAt h.cloud_ h.field_y_idx_).offset)
  if !F32.isfinite y then (point_offset + h.cloud_.point_step, data) else
  let data := data.InsertNextValue y
  let z := readFloat h.cloud_.data (point_offset + (fieldAt h.cloud_ h.field_z_idx_).offset)
  if !F32.isfinite z then (point_offset + h.cloud_.point_step, data) else
  let data := data.InsertNextValue z
  (point_offset + h.cloud_.point_step, data)

/-- The member `getGeometry (points)`: the result is the value of `points` after the call
(`none` is the null pointer). `SetData` replaces the data array of the points object. -/
def getGeometry (h : PointCloudGeometryHandler) (points : Option vtkPoints) : Option vtkPoints :=
  if !h.capable_ then points
  else
    let data := vtkFloatArray.New.SetNumberOfComponents 3
    let nr_points := h.cloud_.width * h.cloud_.height
    let point_offset := 0
    if h.cloud_.is_dense then
      let st := (List.range nr_points).foldl (getGeometry.denseStep h) (point_offset, data)
      some { Data := st.2 }
    else
      let st := (List.range nr_points).foldl (getGeometry.sparseStep h) (point_offset, data)
      some { Data := st.2 }

end PointCloudGeometryHandler

/-- The constructor of `PointCloudGeometryHandlerXYZ<pcl::PCLPointCloud2>`. -/
def PointCloudGeometryHandlerXYZ.PointCloudGeometryHandlerXYZ (cloud : PCLPointCloud2) : PointCloudGeometryHandler :=
  let h := PointCloudGeometryHandler.base cloud
  let h := { h with field_x_idx_ := getFieldIndex cloud "x" }
  if h.field_x_idx_ = UNAVAILABLE then h else
  let h := { h with field_y_idx_ := getFieldIndex cloud "y" }
  if h.field_y_idx_ = UNAVAILABLE then h else
  let h := { h with field_z_idx_ := getFieldIndex cloud "z" }
  if h.field_z_idx_ = UNAVAILABLE then h else
  { h with capable_ := true }

/-- The constructor of `PointCloudGeometryHandlerSurfaceNormal<pcl::PCLPointCloud2>`. -/
def PointCloudGeometryHandlerSurfaceNormal.PointCloudGeometryHandlerSurfaceNormal (cloud : PCLPointCloud2) : PointCloudGeometryHandler :=
  let h := PointCloudGeometryHandler.base cloud
  let h := { h with field_x_idx_ := getFieldIndex cloud "normal_x" }
  if h.field_x_idx_ = UNAVAILABLE then h else
  let h := { h with field_y_idx_ := getFieldIndex cloud "normal_y" }
  if h.field_y_idx_ = UNAVAILABLE then h else
  let h := { h with field_z_idx_ := getFieldIndex cloud "normal_z" }
  if h.field_z_idx_ = UNAVAILABLE then h else
  { h with capable_ := true }

/-- The constructor of `PointCloudGeometryHandlerCustom<pcl::PCLPointCloud2>` (the handler's
`field_name_`, a display name, is not kept). -/
def PointCloudGeometryHandlerCustom.PointCloudGeometryHandlerCustom (cloud : PCLPointCloud2)
    (x_field_name y_field_name z_field_name : String) : PointCloudGeometryHandler :=
  let h := PointCloudGeometryHandler.base cloud
  let h := { h with field_x_idx_ := getFieldIndex cloud x_field_name }
  if h.field_x_idx_ = UNAVAILABLE then h else
  let h := { h with field_y_idx_ := getFieldIndex cloud y_field_name }
  if h.field_y_idx_ = UNAVAILABLE then h else
  let h := { h with field_z_idx_ := getFieldIndex cloud z_field_name }
  if h.field_z_idx_ = UNAVAILABLE then h else
  { h with capable_ := true }

/-! ## Colour handlers -/

/-- The state of `PointCloudColorHandler<pcl::PCLPointCloud2>`; `cloud_` is `none` for a null
pointer. -/
structure PointCloudColorHandler where
  cloud_ : Option PCLPointCloud2
  capable_ : Bool
  field_idx_ : Int
deriving DecidableEq

/-- Modelled from the spec: the base class constructor is in a header that is not part of the
sources at hand; it stores the cloud and starts incapable with no field resolved. -/
def PointCloudColorHandler.PointCloudColorHandler (cloud : PCLPointCloud2) :
    PointCloudColorHandler :=
  { cloud_ := some cloud, capable_ := false, field_idx_ := -1 }

/-- The variables of a colour loop that writes 8-bit channels: the two running byte offsets,
the write position `j` and the block `colors`. The RGB loops declare the offsets and `j` as
`std::size_t`, the RGBA and HSV loops as `int` (see `fitsInt` and `getColor.noOverflow` for the
clouds on which an `int` does not wrap). -/
structure ColorLoop where
  point_offset : Nat
  x_point_offset : Nat
  j : Nat
  colors : List UInt8
deriving DecidableEq

/-- Whether the three floats at `x_point_offset`, `+ sizeof (float)` and `+ 2 * sizeof (float)`
are all finite: the negation of the condition of the position `continue`. -/
def positionFinite (cloud : PCLPointCloud2) (x_point_offset : Nat) : Bool :=
  let x_data := readFloat cloud.data x_point_offset
  let y_data := readFloat cloud.data (x_point_offset + 4)
  let z_data := readFloat cloud.data (x_point_offset + 2 * 4)
  !(!F32.isfinite x_data || !F32.isfinite y_data || !F32.isfinite z_data)

/-! ### RGB field -/

namespace PointCloudColorHandlerRGBField

/-- The constructor of `PointCloudColorHandlerRGBField<pcl::PCLPointCloud2>`. -/
def PointCloudColorHandlerRGBField (cloud : PCLPointCloud2) : PointCloudColorHandler :=
  let h := PointCloudColorHandler.PointCloudColorHandler cloud
  let h := { h with field_idx_ := getFieldIndex cloud "rgb" }
  if h.field_idx_ ≠ -1 then { h with capable_ := true } else
  let h := { h with field_idx_ := getFieldIndex cloud "rgba" }
  { h with capable_ := decide (h.field_idx_ ≠ -1) }

/-- One iteration of the loop taken when an "x" field exists. -/
def getColor.gatedStep (cloud : PCLPointCloud2) (st : ColorLoop) (_cp : Nat) : ColorLoop :=
  let rgb_data := readRGB cloud.data st.point_offset
  if !positionFinite cloud st.x_point_offset then
    { st with point_offset := st.point_offset + cloud.point_step,
              x_point_offset := st.x_point_offset + cloud.point_step }
  else
    let colors := st.colors.set (st.j + 0) rgb_data.r
    let colors := colors.set (st.j + 1) rgb_data.g
    let colors := colors.set (st.j + 2) rgb_data.b
    { point_offset := st.point_offset + cloud.point_step,
      x_point_offset := st.x_point_offset + cloud.point_step,
      j := st.j + 3, colors := colors }

/-- One iteration of the loop taken when there is no "x" field. -/
def getColor.plainStep (cloud : PCLPointCloud2) (st : ColorLoop) (_cp : Nat) : ColorLoop :=
  let rgb_data := readRGB cloud.data st.point_offset
  let colors := st.colors.set (st.j + 0) rgb_data.r
  let colors := colors.set (st.j + 1) rgb_data.g
  let colors := colors.set (st.j + 2) rgb_data.b
  { st with point_offset := st.point_offset + cloud.point_step, j := st.j + 3, colors := colors }

/-- The member `getColor ()`; `none` is the null pointer. -/
def getColor (h : PointCloudColorHandler) : Option vtkUnsignedCharArray :=
  if !h.capable_ then none else
  match h.cloud_ with
  | none => none
  | some cloud =>
    let scalars := vtkUnsignedCharArray.New.SetNumberOfComponents 3
    let nr_points := cloud.width * cloud.height
    let scalars := scalars.SetNumberOfTuples nr_points
    let colors : List UInt8 := List.replicate (nr_points * 3) 0
    let point_offset := (fieldAt cloud h.field_idx_).offset
    let j := 0
    let x_idx := getFieldIndex cloud "x"
    let st : ColorLoop :=
      if x_idx ≠ -1 then
        let x_point_offset := (fieldAt cloud x_idx).offset
        (List.range nr_points).foldl (getColor.gatedStep cloud)
          { point_offset := point_offset, x_point_offset := x_point_offset, j := j, colors := colors }
      else
        (List.range nr_points).foldl (getColor.plainStep cloud)
          { point_offset := point_offset, x_point_offset := 0, j := j, colors := colors }
    if st.j ≠ 0 then some (scalars.SetArray st.colors st.j)
    else some (scalars.SetNumberOfTuples 0)

end PointCloudColorHandlerRGBField

/-! ### RGBA field -/

namespace PointCloudColorHandlerRGBAField

/-- The constructor of `PointCloudColorHandlerRGBAField<pcl::PCLPointCloud2>`. -/
def PointCloudColorHandlerRGBAField (cloud : PCLPointCloud2) : PointCloudColorHandler :=
  let h := PointCloudColorHandler.PointCloudColorHandler cloud
  let h := { h with field_idx_ := getFieldIndex cloud "rgba" }
  if h.field_idx_ ≠ -1 then { h with capable_ := true } else { h with capable_ := false }

/-- One iteration of the loop taken when an "x" field exists. -/
def getColor.gatedStep (cloud : PCLPointCloud2) (st : ColorLoop) (_cp : Nat) : ColorLoop :=
  let rgba_data := readRGB cloud.data st.point_offset
  if !positionFinite cloud st.x_point_offset then
    { st with point_offset := st.point_offset + cloud.point_step,
              x_point_offset := st.x_point_offset + cloud.point_step }
  else
    let colors := st.colors.set (st.j + 0) rgba_data.r
    let colors := colors.set (st.j + 1) rgba_data.g
    let colors := colors.set (st.j + 2) rgba_data.b
    let colors := colors.set (st.j + 3) rgba_data.a
    { point_offset := st.point_offset + cloud.point_step,
      x_point_offset := st.x_point_offset + cloud.point_step,
      j := st.j + 4, colors := colors }

/-- One iteration of the loop taken when there is no "x" field. -/
def getColor.plainStep (cloud : PCLPointCloud2) (st : ColorLoop) (_cp : Nat) : ColorLoop :=
  let rgba_data := readRGB cloud.data st.point_offset
  let colors := st.colors.set (st.j + 0) rgba_data.r
  let colors := colors.set (st.j + 1) rgba_data.g
  let colors := colors.set (st.j + 2) rgba_data.b
  let colors := colors.set (st.j + 3) rgba_data.a
  { st with point_offset := st.point_offset + cloud.point_step, j := st.j + 4, colors := colors }

/-- The member `getColor ()`; `none` is the null pointer. -/
def getColor (h : PointCloudColorHandler) : Option vtkUnsignedCharArray :=
  if !h.capable_ then none else
  match h.cloud_ with
  | none => none
  | some cloud =>
    let scalars := vtkUnsignedCharArray.New.SetNumberOfComponents 4
    let nr_points := cloud.width * cloud.height
    let scalars := scalars.SetNumberOfTuples nr_points
    let colors : List UInt8 := List.replicate (nr_points * 4) 0
    let point_offset := (fieldAt cloud h.field_idx_).offset
    let j := 0
    let x_idx := getFieldIndex cloud "x"
    let st : ColorLoop :=
      if x_idx ≠ -1 then
        let x_point_offset := (fieldAt cloud x_idx).offset
        (List.range nr_points).foldl (getColor.gatedStep cloud)
          { point_offset := point_offset, x_point_offset := x_point_offset, j := j, colors := colors }
      else
        (List.range nr_points).foldl (getColor.plainStep cloud)
          { point_offset := point_offset, x_point_offset := 0, j := j, colors := colors }
    if st.j ≠ 0 then some (scalars.SetArray st.colors st.j)
    else some (scalars.SetNumberOfTuples 0)

end PointCloudColorHandlerRGBAField

/-! ### HSV field -/

/-- The state of `PointCloudColorHandlerHSVField<pcl::PCLPointCloud2>`. -/
structure PointCloudColorHandlerHSVField extends PointCloudColorHandler where
  s_field_idx_ : Int
  v_field_idx_ : Int
deriving DecidableEq

namespace PointCloudColorHandlerHSVField

/-- The constructor of `PointCloudColorHandlerHSVField<pcl::PCLPointCloud2>`. -/
def PointCloudColorHandlerHSVField (cloud : PCLPointCloud2) :
    visualization.PointCloudColorHandlerHSVField :=
  let h : visualization.PointCloudColorHandlerHSVField :=
    { toPointCloudColorHandler := PointCloudColorHandler.PointCloudColorHandler cloud,
      s_field_idx_ := -1, v_field_idx_ := -1 }
  let h := { h with field_idx_ := getFieldIndex cloud "h" }
  if h.field_idx_ = -1 then { h with capable_ := false } else
  let h := { h with s_field_idx_ := getFieldIndex cloud "s" }
  if h.s_field_idx_ = -1 then { h with capable_ := false } else
  let h := { h with v_field_idx_ := getFieldIndex cloud "v" }
  if h.v_field_idx_ = -1 then { h with capable_ := false } else
  { h with capable_ := true }

/-- The body of both loops from `int idx = j * 3;` to `j++;` (the two copies in the source are
identical): the new values of `j` and `colors`. With saturation zero the gray triple is stored
and the `continue` leaves `j` as it was. `j` and `idx` are `int` in the source (see `fitsInt`
and `getColor.noOverflow`). -/
def getColor.fill (h_data s_data v_data : F32) (j : Nat) (colors : List UInt8) :
    Nat × List UInt8 :=
  let idx := j * 3
  if F32.isZero s_data then
    let c := F32.toUChar v_data
    (j, ((colors.set (idx + 2) c).set (idx + 1) c).set idx c)
  else
    let a := F32.div h_data (F32.ofInt 60)
    let i := F32.toInt (F32.floor a)
    let f := F32.sub a (F32.ofInt i)
    let p := F32.mul v_data (F32.sub (F32.ofInt 1) s_data)
    let q := F32.mul v_data (F32.sub (F32.ofInt 1) (F32.mul s_data f))
    let t := F32.mul v_data (F32.sub (F32.ofInt 1) (F32.mul s_data (F32.sub (F32.ofInt 1) f)))
    let colors :=
      if i = 0 then
        ((colors.set idx (F32.toUChar v_data)).set (idx + 1) (F32.toUChar t)).set (idx + 2)
          (F32.toUChar p)
      else if i = 1 then
        ((colors.set idx (F32.toUChar q)).set (idx + 1) (F32.toUChar v_data)).set (idx + 2)
          (F32.toUChar p)
      else if i = 2 then
        ((colors.set idx (F32.toUChar p)).set (idx + 1) (F32.toUChar v_data)).set (idx + 2)
          (F32.toUChar t)
      else if i = 3 then
        ((colors.set idx (F32.toUChar p)).set (idx + 1) (F32.toUChar q)).set (idx + 2)
          (F32.toUChar v_data)
      else if i = 4 then
        ((colors.set idx (F32.toUChar t)).set (idx + 1) (F32.toUChar p)).set (idx + 2)
          (F32.toUChar v_data)
      else
        ((colors.set idx (F32.toUChar v_data)).set (idx + 1) (F32.toUChar p)).set (idx + 2)
          (F32.toUChar q)
    (j + 1, colors)

/-- Whether the floats at `point_offset`, `+ sizeof (float)` and `+ 2 * sizeof (float)` (read as
h, s and v) are all finite: the negation of the condition of the first `continue`. -/
def getColor.hsvFinite (cloud : PCLPointCloud2) (point_offset : Nat) : Bool :=
  let h_data := readFloat cloud.data point_offset
  let s_data := readFloat cloud.data (point_offset + 4)
  let v_data := readFloat cloud.data (point_offset + 2 * 4)
  !(!F32.isfinite h_data || !F32.isfinite s_data || !F32.isfinite v_data)

/-- One iteration of the loop taken when an "x" field exists. -/
def getColor.gatedStep (cloud : PCLPointCloud2) (st : ColorLoop) (_cp : Nat) : ColorLoop :=
  let h_data := readFloat cloud.data st.point_offset
  let s_data := readFloat cloud.data (st.point_offset + 4)
  let v_data := readFloat cloud.data (st.point_offset + 2 * 4)
  if !getColor.hsvFinite cloud st.point_offset then
    { st with point_offset := st.point_offset + cloud.point_step,
              x_point_offset := st.x_point_offset + cloud.point_step }
  else if !positionFinite cloud st.x_point_offset then
    { st with point_offset := st.point_offset + cloud.point_step,
              x_point_offset := st.x_point_offset + cloud.point_step }
  else
    let r := getColor.fill h_data s_data v_data st.j st.colors
    { point_offset := st.point_offset + cloud.point_step,
      x_point_offset := st.x_point_offset + cloud.point_step,
      j := r.1, colors := r.2 }

/-- One iteration of the loop taken when there is no "x" field. -/
def getColor.plainStep (cloud : PCLPointCloud2) (st : ColorLoop) (_cp : Nat) : ColorLoop :=
  let h_data := readFloat cloud.data st.point_offset
  let s_data := readFloat cloud.data (st.point_offset + 4)
  let v_data := readFloat cloud.data (st.point_offset + 2 * 4)
  if !getColor.hsvFinite cloud st.point_offset then
    { st with point_offset := st.point_offset + cloud.point_step }
  else
    let r := getColor.fill h_data s_data v_data st.j st.colors
    { st with point_offset := st.point_offset + cloud.point_step, j := r.1, colors := r.2 }

/-- The member `getColor ()`; `none` is the null pointer. -/
def getColor (h : visualization.PointCloudColorHandlerHSVField) : Option vtkUnsignedCharArray :=
  if !h.capable_ then none else
  match h.cloud_ with
  | none => none
  | some cloud =>
    let scalars := vtkUnsignedCharArray.New.SetNumberOfComponents 3
    let nr_points := cloud.width * cloud.height
    let scalars := scalars.SetNumberOfTuples nr_points
    let colors : List UInt8 := List.replicate (nr_points * 3) 0
    let point_offset := (fieldAt cloud h.field_idx_).offset
    let j := 0
    let x_idx := getFieldIndex cloud "x"
    let st : ColorLoop :=
      if x_idx ≠ -1 then
        let x_point_offset := (fieldAt cloud x_idx).offset
        (List.range nr_points).foldl (getColor.gatedStep cloud)
          { point_offset := point_offset, x_point_offset := x_point_offset, j := j, colors := colors }
      else
        (List.range nr_points).foldl (getColor.plainStep cloud)
          { point_offset := point_offset, x_point_offset := 0, j := j, colors := colors }
    some (scalars.SetArray st.colors (3 * st.j))

end PointCloudColorHandlerHSVField

/-! ### Generic scalar field -/

/-- The state of `PointCloudColorHandlerGenericField<pcl::PCLPointCloud2>`. -/
structure PointCloudColorHandlerGenericField extends PointCloudColorHandler where
  field_name_ : String
deriving DecidableEq

/-- The variables of the loops of the generic handler: the running byte offsets, the write
position `j` (all three `int` in the source, see `fitsInt` and `getColor.noOverflow`), the
block `colors` and the landing variable `field_data`, which is declared outside the loops and
keeps its bytes from one iteration to the next. -/
structure FieldLoop where
  point_offset : Nat
  x_point_offset : Nat
  j : Nat
  colors : List F32
  field_data : F32
deriving DecidableEq

namespace PointCloudColorHandlerGenericField

/-- The constructor of `PointCloudColorHandlerGenericField<pcl::PCLPointCloud2>`. -/
def PointCloudColorHandlerGenericField (cloud : PCLPointCloud2) (field_name : String) :
    visualization.PointCloudColorHandlerGenericField :=
  let h : visualization.PointCloudColorHandlerGenericField :=
    { toPointCloudColorHandler := PointCloudColorHandler.PointCloudColorHandler cloud,
      field_name_ := field_name }
  let h := { h with field_idx_ := getFieldIndex cloud field_name }
  if h.field_idx_ ≠ -1 then { h with capable_ := true } else { h with capable_ := false }

/-- One iteration of the loop taken when an "x" field exists. -/
def getColor.gatedStep (cloud : PCLPointCloud2) (field_idx_ : Int) (st : FieldLoop) (_cp : Nat) :
    FieldLoop :=
  if !positionFinite cloud st.x_point_offset then
    { st with point_offset := st.point_offset + cloud.point_step,
              x_point_offset := st.x_point_offset + cloud.point_step }
  else
    let field_data := memcpy st.field_data cloud.data st.point_offset
      (getFieldSize (fieldAt cloud field_idx_).datatype)
    { point_offset := st.point_offset + cloud.point_step,
      x_point_offset := st.x_point_offset + cloud.point_step,
      j := st.j + 1, colors := st.colors.set st.j field_data, field_data := field_data }

/-- One iteration of the loop taken when there is no "x" field. -/
def getColor.plainStep (cloud : PCLPointCloud2) (field_idx_ : Int) (st : FieldLoop) (_cp : Nat) :
    FieldLoop :=
  let field_data := memcpy st.field_data cloud.data st.point_offset
    (getFieldSize (fieldAt cloud field_idx_).datatype)
  if !F32.isfinite field_data then
    { st with point_offset := st.point_offset + cloud.point_step, field_data := field_data }
  else
    { st with point_offset := st.point_offset + cloud.point_step,
              j := st.j + 1, colors := st.colors.set st.j field_data, field_data := field_data }

/-- The member `getColor ()`; `none` is the null pointer. The landing variable `field_data`,
uninitialised in the source, starts at 0. -/
def getColor (h : visualization.PointCloudColorHandlerGenericField) : Option vtkFloatArray :=
  if !h.capable_ then none else
  match h.cloud_ with
  | none => none
  | some cloud =>
    let scalars := vtkFloatArray.New.SetNumberOfComponents 1
    let nr_points := cloud.width * cloud.height
    let scalars := scalars.SetNumberOfTuples nr_points
    let colors : List F32 := List.replicate nr_points 0
    let j := 0
    let point_offset := (fieldAt cloud h.field_idx_).offset
    let x_idx := getFieldIndex cloud "x"
    let st : FieldLoop :=
      if x_idx ≠ -1 then
        let x_point_offset := (fieldAt cloud x_idx).offset
        (List.range nr_points).foldl (getColor.gatedStep cloud h.field_idx_)
          { point_offset := point_offset, x_point_offset := x_point_offset, j := j,
            colors := colors, field_data := 0 }
      else
        (List.range nr_points).foldl (getColor.plainStep cloud h.field_idx_)
          { point_offset := point_offset, x_point_offset := 0, j := j,
            colors := colors, field_data := 0 }
    some (scalars.SetArray st.colors st.j)

end PointCloudColorHandlerGenericField

/-! ### Label field -/

/-- The call `labels.insert (label)` on a `std::set<std::uint32_t>`, kept as the list of its
elements in ascending order (the order in which the set is iterated). -/
def std_set_insert (label : Nat) : List Nat → List Nat
  | [] => [label]
  | y :: ys =>
    if label < y then label :: y :: ys
    else if label = y then y :: ys
    else y :: std_set_insert label ys

/-- A `std::map<std::uint32_t, pcl::RGB>`, kept as the list of its entries in ascending key
order. -/
abbrev ColorMap := List (Nat × RGB)

namespace ColorMap

/-- The entry stored under `key`, if there is one (`colormap.find (key)`). -/
def find (key : Nat) : ColorMap → Option RGB
  | [] => none
  | kv :: m => if kv.1 = key then some kv.2 else find key m

/-- The assignment `colormap[key] = value`: a new entry, or a new value for the entry that is
there. -/
def assign (key : Nat) (value : RGB) : ColorMap → ColorMap
  | [] => [(key, value)]
  | kv :: m =>
    if key < kv.1 then (key, value) :: kv :: m
    else if key = kv.1 then (key, value) :: m
    else kv :: assign key value m

/-- The expression `colormap[key]` read as a value: the colour stored under `key` and the map
afterwards, which has gained a default constructed entry when the key was not there. -/
def index (colormap : ColorMap) (key : Nat) : RGB × ColorMap :=
  match find key colormap with
  | some value => (value, colormap)
  | none => (default, assign key default colormap)

end ColorMap

/-- The state of `PointCloudColorHandlerLabelField<pcl::PCLPointCloud2>`. -/
structure PointCloudColorHandlerLabelField extends PointCloudColorHandler where
  static_mapping_ : Bool
deriving DecidableEq

/-- The variables of the colouring loops of the label handler: those of `ColorLoop` (the
offsets and `j` are `int` in the source, see `fitsInt` and `getColor.noOverflow`) and the
colormap, which `colormap[label]` may extend. -/
structure LabelLoop where
  point_offset : Nat
  x_point_offset : Nat
  j : Nat
  colors : List UInt8
  colormap : ColorMap
deriving DecidableEq

namespace PointCloudColorHandlerLabelField

/-- The constructor of `PointCloudColorHandlerLabelField<pcl::PCLPointCloud2>`. -/
def PointCloudColorHandlerLabelField (cloud : PCLPointCloud2) (static_mapping : Bool) :
    visualization.PointCloudColorHandlerLabelField :=
  let h : visualization.PointCloudColorHandlerLabelField :=
    { toPointCloudColorHandler := PointCloudColorHandler.PointCloudColorHandler cloud,
      static_mapping_ := false }
  let h := { h with field_idx_ := getFieldIndex cloud "label" }
  let h := if h.field_idx_ ≠ -1 then { h with capable_ := true } else { h with capable_ := false }
  { h with static_mapping_ := static_mapping }

/-- The label read at `point_offset`:
`std::uint32_t label; memcpy (&label, &cloud_->data[point_offset], field_size);`
(the bytes of `label` that a narrower field leaves unwritten are 0). -/
def getColor.readLabel (cloud : PCLPointCloud2) (field_size point_offset : Nat) : Nat :=
  memcpy 0 cloud.data point_offset field_size

/-- One iteration of the first pass; the state is `(point_offset, labels)`. -/
def getColor.collectStep (cloud : PCLPointCloud2) (field_size : Nat) (st : Nat × List Nat)
    (_i : Nat) : Nat × List Nat :=
  let label := getColor.readLabel cloud field_size st.1
  (st.1 + cloud.point_step, std_set_insert label st.2)

/-- One iteration of `for (const auto& label : labels)`; the state is `(color, colormap)`. -/
def getColor.assignStep (lut : GlasbeyLUT) (st : Nat × ColorMap) (label : Nat) : Nat × ColorMap :=
  (st.1 + 1, ColorMap.assign label (lut.at (st.1 % lut.size)) st.2)

/-- The colormap before the colouring loop: empty under static mapping, else built by the
first pass over all records and the assignment in ascending order of labels. -/
def getColor.colormap (lut : GlasbeyLUT) (cloud : PCLPointCloud2) (field_idx_ : Int)
    (static_mapping_ : Bool) : ColorMap :=
  let nr_points := cloud.width * cloud.height
  let point_offset := (fieldAt cloud field_idx_).offset
  let field_size := getFieldSize (fieldAt cloud field_idx_).datatype
  let colormap : ColorMap := []
  if !static_mapping_ then
    let labels : List Nat := []
    let labels := ((List.range nr_points).foldl (getColor.collectStep cloud field_size)
      (point_offset, labels)).2
    (labels.foldl (getColor.assignStep lut) (0, colormap)).2
  else colormap

/-- The initialisation
`const pcl::RGB& color = static_mapping_ ? GlasbeyLUT::at (label % GlasbeyLUT::size ()) : colormap[label];`
giving the colour and the colormap afterwards. -/
def getColor.pick (lut : GlasbeyLUT) (static_mapping_ : Bool) (colormap : ColorMap) (label : Nat) :
    RGB × ColorMap :=
  if static_mapping_ then (lut.at (label % lut.size), colormap) else colormap.index label

/-- One iteration of the colouring loop taken when an "x" field exists. -/
def getColor.gatedStep (lut : GlasbeyLUT) (cloud : PCLPointCloud2) (field_size : Nat)
    (static_mapping_ : Bool) (st : LabelLoop) (_cp : Nat) : LabelLoop :=
  let label := getColor.readLabel cloud field_size st.point_offset
  if !positionFinite cloud st.x_point_offset then
    { st with point_offset := st.point_offset + cloud.point_step,
              x_point_offset := st.x_point_offset + cloud.point_step }
  else
    let color := getColor.pick lut static_mapping_ st.colormap label
    let colors := st.colors.set st.j color.1.r
    let colors := colors.set (st.j + 1) color.1.g
    let colors := colors.set (st.j + 2) color.1.b
    { point_offset := st.point_offset + cloud.point_step,
      x_point_offset := st.x_point_offset + cloud.point_step,
      j := st.j + 3, colors := colors, colormap := color.2 }

/-- One iteration of the colouring loop taken when there is no "x" field. -/
def getColor.plainStep (lut : GlasbeyLUT) (cloud : PCLPointCloud2) (field_size : Nat)
    (static_mapping_ : Bool) (st : LabelLoop) (_cp : Nat) : LabelLoop :=
  let label := getColor.readLabel cloud field_size st.point_offset
  let color := getColor.pick lut static_mapping_ st.colormap label
  let colors := st.colors.set st.j color.1.r
  let colors := colors.set (st.j + 1) color.1.g
  let colors := colors.set (st.j + 2) color.1.b
  { st with point_offset := st.point_offset + cloud.point_step,
            j := st.j + 3, colors := colors, colormap := color.2 }

/-- The variables at the end of the colouring loop of `getColor ()`. -/
def getColor.loop (lut : GlasbeyLUT) (cloud : PCLPointCloud2) (field_idx_ : Int)
    (static_mapping_ : Bool) : LabelLoop :=
  let nr_points := cloud.width * cloud.height
  let colors : List UInt8 := List.replicate (nr_points * 3) 0
  let j := 0
  let field_size := getFieldSize (fieldAt cloud field_idx_).datatype
  let colormap := getColor.colormap lut cloud field_idx_ static_mapping_
  let x_idx := getFieldIndex cloud "x"
  let point_offset := (fieldAt cloud field_idx_).offset
  if x_idx ≠ -1 then
    let x_point_offset := (fieldAt cloud x_idx).offset
    (List.range nr_points).foldl (getColor.gatedStep lut cloud field_size static_mapping_)
      { point_offset := point_offset, x_point_offset := x_point_offset, j := j,
        colors := colors, colormap := colormap }
  else
    (List.range nr_points).foldl (getColor.plainStep lut cloud field_size static_mapping_)
      { point_offset := point_offset, x_point_offset := 0, j := j,
        colors := colors, colormap := colormap }

/-- The member `getColor ()`, for the lookup table `lut`; `none` is the null pointer. -/
def getColor (lut : GlasbeyLUT) (h : visualization.PointCloudColorHandlerLabelField) :
    Option vtkUnsignedCharArray :=
  if !h.capable_ then none else
  match h.cloud_ with
  | none => none
  | some cloud =>
    let scalars := vtkUnsignedCharArray.New.SetNumberOfComponents 3
    let nr_points := cloud.width * cloud.height
    let scalars := scalars.SetNumberOfTuples nr_points
    let st := getColor.loop lut cloud h.field_idx_ h.static_mapping_
    if st.j ≠ 0 then some (scalars.SetArray st.colors st.j)
    else some (scalars.SetNumberOfTuples 0)

end PointCloudColorHandlerLabelField

/-! ### Fixed colour -/

/-- The state of `PointCloudColorHandlerCustom<pcl::PCLPointCloud2>`: the base state and the
colour given at construction. -/
structure PointCloudColorHandlerCustom extends PointCloudColorHandler where
  r_ : F64
  g_ : F64
  b_ : F64
deriving DecidableEq

namespace PointCloudColorHandlerCustom

/-- Modelled from the spec: the constructor is in a header that is not part of the sources at
hand. Spec 4.4: the fixed strategy holds the RGB triple supplied by the caller and is always
capable. -/
def PointCloudColorHandlerCustom (cloud : PCLPointCloud2) (r g b : F64) :
    visualization.PointCloudColorHandlerCustom :=
  { toPointCloudColorHandler :=
      { PointCloudColorHandler.PointCloudColorHandler cloud with capable_ := true },
    r_ := r, g_ := g, b_ := b }

/-- One iteration of the loop `// Color every point`; the state is the block `colors`. -/
def getColor.step (r_ g_ b_ : F64) (colors : List UInt8) (cp : Nat) : List UInt8 :=
  let colors := colors.set (cp * 3 + 0) (F64.toUChar r_)
  let colors := colors.set (cp * 3 + 1) (F64.toUChar g_)
  colors.set (cp * 3 + 2) (F64.toUChar b_)

/-- The member `getColor ()`; `none` is the null pointer. -/
def getColor (h : visualization.PointCloudColorHandlerCustom) : Option vtkUnsignedCharArray :=
  if !h.capable_ then none else
  match h.cloud_ with
  | none => none
  | some cloud =>
    let scalars := vtkUnsignedCharArray.New.SetNumberOfComponents 3
    let nr_points := cloud.width * cloud.height
    let scalars := scalars.SetNumberOfTuples nr_points
    let colors : List UInt8 := List.replicate (nr_points * 3) 0
    let colors := (List.range nr_points).foldl (getColor.step h.r_ h.g_ h.b_) colors
    some (scalars.SetArray colors (3 * nr_points))

end PointCloudColorHandlerCustom

/-! ### Random colour -/

namespace PointCloudColorHandlerRandom

/-- Modelled from the spec: the constructor is in a header that is not part of the sources at
hand. Spec 4.4: the random strategy is always capable. -/
def PointCloudColorHandlerRandom (cloud : PCLPointCloud2) : PointCloudColorHandler :=
  { PointCloudColorHandler.PointCloudColorHandler cloud with capable_ := true }

/-- One iteration of the loop `// Color every point`; the state is the block `colors`, and
`r_`, `g_`, `b_` are the `long` values computed before the loop. -/
def getColor.step (r_ g_ b_ : Int) (colors : List UInt8) (cp : Nat) : List UInt8 :=
  let colors := colors.set (cp * 3 + 0) (longToUChar r_)
  let colors := colors.set (cp * 3 + 1) (longToUChar g_)
  colors.set (cp * 3 + 2) (longToUChar b_)

/-- The member `getColor ()`; `none` is the null pointer. The generator
`pcl::visualization::getRandomColors` is outside the sources at hand: `rgb` is the triple of
doubles `(r, g, b)` it delivers in this call. -/
def getColor (rgb : F64 × F64 × F64) (h : PointCloudColorHandler) :
    Option vtkUnsignedCharArray :=
  if !h.capable_ then none else
  match h.cloud_ with
  | none => none
  | some cloud =>
    let scalars := vtkUnsignedCharArray.New.SetNumberOfComponents 3
    let nr_points := cloud.width * cloud.height
    let scalars := scalars.SetNumberOfTuples nr_points
    let colors : List UInt8 := List.replicate (nr_points * 3) 0
    let r := rgb.1
    let g := rgb.2.1
    let b := rgb.2.2
    let r_ := pcl_lrint (F64.mul r (F64.ofInt 255))
    let g_ := pcl_lrint (F64.mul g (F64.ofInt 255))
    let b_ := pcl_lrint (F64.mul b (F64.ofInt 255))
    let colors := (List.range nr_points).foldl (getColor.step r_ g_ b_) colors
    some (scalars.SetArray colors (3 * nr_points))

end PointCloudColorHandlerRandom

/-! ## Reference quantities used in the statements -/

namespace PointCloudGeometryHandler

/-- The float at byte `i * point_step + offset (x field)`: the x value of record `i`. -/
def xAt (h : PointCloudGeometryHandler) (i : Nat) : F32 :=
  readFloat h.cloud_.data (i * h.cloud_.point_step + (fieldAt h.cloud_ h.field_x_idx_).offset)

/-- The float at byte `i * point_step + offset (y field)`: the y value of record `i`. -/
def yAt (h : PointCloudGeometryHandler) (i : Nat) : F32 :=
  readFloat h.cloud_.data (i * h.cloud_.point_step + (fieldAt h.cloud_ h.field_y_idx_).offset)

/-- The float at byte `i * point_step + offset (z field)`: the z value of record `i`. -/
def zAt (h : PointCloudGeometryHandler) (i : Nat) : F32 :=
  readFloat h.cloud_.data (i * h.cloud_.point_step + (fieldAt h.cloud_ h.field_z_idx_).offset)

/-- The number of records, `width * height`. -/
def recordCount (h : PointCloudGeometryHandler) : Nat := h.cloud_.width * h.cloud_.height

/-- Record-granular filtering in the words of spec 4.2 and 4.3: in record order, the (x, y, z)
triples of exactly those records whose three axis values are all finite. -/
def finiteTriples (h : PointCloudGeometryHandler) : List F32 :=
  ((List.range h.recordCount).filter fun i =>
    F32.isfinite (h.xAt i) && F32.isfinite (h.yAt i) && F32.isfinite (h.zAt i)).flatMap
    fun i => [h.xAt i, h.yAt i, h.zAt i]

/-- The longest prefix of `[x, y, z]` of record `i` that consists of finite values. -/
def finitePrefix (h : PointCloudGeometryHandler) (i : Nat) : List F32 :=
  [h.xAt i, h.yAt i, h.zAt i].takeWhile F32.isfinite

/-- The handler over the same cloud with the data bytes replaced by `d`. -/
def withData (h : PointCloudGeometryHandler) (d : List UInt8) : PointCloudGeometryHandler :=
  { h with cloud_ := { h.cloud_ with data := d } }

end PointCloudGeometryHandler

/-- The handler over the same cloud with the data bytes replaced by `d`. -/
def PointCloudColorHandler.withData (h : visualization.PointCloudColorHandler)
    (d : List UInt8) : visualization.PointCloudColorHandler :=
  { h with cloud_ := h.cloud_.map fun c => { c with data := d } }

/-- The position gate of spec 4.4 for record `cp`: every record passes when the schema has no
"x" field, else the record passes when the three floats at `offset (x) + cp * point_step`,
`+ 4` and `+ 8` are all finite. -/
def positionGate (cloud : PCLPointCloud2) (cp : Nat) : Bool :=
  if hasField cloud "x" then
    F32.isfinite (readFloat cloud.data
      ((fieldAt cloud (getFieldIndex cloud "x")).offset + cp * cloud.point_step)) &&
    F32.isfinite (readFloat cloud.data
      ((fieldAt cloud (getFieldIndex cloud "x")).offset + cp * cloud.point_step + 4)) &&
    F32.isfinite (readFloat cloud.data
      ((fieldAt cloud (getFieldIndex cloud "x")).offset + cp * cloud.point_step + 8))
  else true

/-- The records that pass the position gate, in record order. -/
def passing (cloud : PCLPointCloud2) : List Nat :=
  (List.range (cloud.width * cloud.height)).filter (positionGate cloud)

/-- The 4 packed bytes at `offset (field) + cp * point_step`, as a `pcl::RGB`. -/
def packedAt (cloud : PCLPointCloud2) (field_idx_ : Int) (cp : Nat) : RGB :=
  readRGB cloud.data ((fieldAt cloud field_idx_).offset + cp * cloud.point_step)

/-- The label of record `cp`: the value read at `offset (field) + cp * point_step` with the
width of the field's datatype. -/
def labelAt (cloud : PCLPointCloud2) (field_idx_ : Int) (cp : Nat) : Nat :=
  memcpy 0 cloud.data ((fieldAt cloud field_idx_).offset + cp * cloud.point_step)
    (getFieldSize (fieldAt cloud field_idx_).datatype)

/-- The set of distinct label values carried by the records of the cloud (all records,
whatever their position). -/
def distinctLabels (cloud : PCLPointCloud2) (field_idx_ : Int) : Finset Nat :=
  ((List.range (cloud.width * cloud.height)).map (labelAt cloud field_idx_)).toFinset

/-- The rank of `label` among the distinct labels of the cloud: how many of them are
numerically smaller. -/
def labelRank (cloud : PCLPointCloud2) (field_idx_ : Int) (label : Nat) : Nat :=
  ((distinctLabels cloud field_idx_).filter fun l => l < label).card

/-- The hue of record `cp`: the float at `offset (h) + cp * point_step`. -/
def hueAt (cloud : PCLPointCloud2) (field_idx_ : Int) (cp : Nat) : F32 :=
  readFloat cloud.data ((fieldAt cloud field_idx_).offset + cp * cloud.point_step)

/-- The saturation of record `cp` as the handler reads it: the float 4 bytes after the hue. -/
def saturationAt (cloud : PCLPointCloud2) (field_idx_ : Int) (cp : Nat) : F32 :=
  readFloat cloud.data ((fieldAt cloud field_idx_).offset + cp * cloud.point_step + 4)

/-- The value of record `cp` as the handler reads it: the float 8 bytes after the hue. -/
def valueAt (cloud : PCLPointCloud2) (field_idx_ : Int) (cp : Nat) : F32 :=
  readFloat cloud.data ((fieldAt cloud field_idx_).offset + cp * cloud.point_step + 8)

/-- The gates of the HSV strategy for record `cp`: h, s and v finite and the position gate. -/
def hsvGate (cloud : PCLPointCloud2) (field_idx_ : Int) (cp : Nat) : Bool :=
  F32.isfinite (hueAt cloud field_idx_ cp) && F32.isfinite (saturationAt cloud field_idx_ cp) &&
    F32.isfinite (valueAt cloud field_idx_ cp) && positionGate cloud cp

/-- The sector table of spec 4.4 for a saturation other than zero: with `a = h / 60`,
`i = floor (a)`, `f = a - i`, `p = v (1 - s)`, `q = v (1 - s f)`, `t = v (1 - s (1 - f))` in
single precision, the triple is (v, t, p) for i = 0, (q, v, p) for i = 1, (p, v, t) for i = 2,
(p, q, v) for i = 3, (t, p, v) for i = 4 and (v, p, q) for every other i, each channel
narrowed to 8 bits by truncation. -/
def sectorTriple (h s v : F32) : List UInt8 :=
  let a := F32.div h (F32.ofInt 60)
  let i := F32.toInt (F32.floor a)
  let f := F32.sub a (F32.ofInt i)
  let p := F32.mul v (F32.sub (F32.ofInt 1) s)
  let q := F32.mul v (F32.sub (F32.ofInt 1) (F32.mul s f))
  let t := F32.mul v (F32.sub (F32.ofInt 1) (F32.mul s (F32.sub (F32.ofInt 1) f)))
  if i = 0 then [F32.toUChar v, F32.toUChar t, F32.toUChar p]
  else if i = 1 then [F32.toUChar q, F32.toUChar v, F32.toUChar p]
  else if i = 2 then [F32.toUChar p, F32.toUChar v, F32.toUChar t]
  else if i = 3 then [F32.toUChar p, F32.toUChar q, F32.toUChar v]
  else if i = 4 then [F32.toUChar t, F32.toUChar p, F32.toUChar v]
  else [F32.toUChar v, F32.toUChar p, F32.toUChar q]

/-- The records for which the HSV strategy emits a sector triple: those that pass the gates
and have a saturation other than zero, in record order. -/
def hsvEmitting (cloud : PCLPointCloud2) (field_idx_ : Int) : List Nat :=
  (List.range (cloud.width * cloud.height)).filter fun cp =>
    hsvGate cloud field_idx_ cp && !F32.isZero (saturationAt cloud field_idx_ cp)

/-- The Fixed handler over the same cloud with the data bytes replaced by `d`. -/
def PointCloudColorHandlerCustom.withData (h : visualization.PointCloudColorHandlerCustom)
    (d : List UInt8) : visualization.PointCloudColorHandlerCustom :=
  { h with toPointCloudColorHandler := h.toPointCloudColorHandler.withData d }

/-- The landing variable `field_data` of the generic handler after the iterations for the
records below `n`: it starts at 0 and takes the bytes of the field of each record that reaches
the `memcpy`, that is each record that passes the position gate. -/
def fieldDataAfter (cloud : PCLPointCloud2) (field_idx_ : Int) : Nat → F32
  | 0 => 0
  | n + 1 =>
    if positionGate cloud n then
      memcpy (fieldDataAfter cloud field_idx_ n) cloud.data
        ((fieldAt cloud field_idx_).offset + n * cloud.point_step)
        (getFieldSize (fieldAt cloud field_idx_).datatype)
    else fieldDataAfter cloud field_idx_ n

/-- The records for which the generic handler emits a value: with an "x" field those that pass
the position gate, without one those whose field value is finite. -/
def genericEmitting (cloud : PCLPointCloud2) (field_idx_ : Int) : List Nat :=
  (List.range (cloud.width * cloud.height)).filter fun cp =>
    positionGate cloud cp &&
      (decide (hasField cloud "x") || F32.isfinite (fieldDataAfter cloud field_idx_ (cp + 1)))

/-- The cloud with every field descriptor `f` of the schema replaced by `g f` (same records,
same data bytes). -/
def withFields (cloud : PCLPointCloud2) (g : PCLPointField → PCLPointField) : PCLPointCloud2 :=
  { cloud with fields := cloud.fields.map g }

/-- A change of schema that gives the fields "s" and "v" the byte offsets `os` and `ov` and
leaves every other field as it is. -/
def moveSV (os ov : Nat) (f : PCLPointField) : PCLPointField :=
  if f.name = "s" then { f with offset := os }
  else if f.name = "v" then { f with offset := ov }
  else f

/-! ### The range of `int` -/

/-- The largest value of the type `int` (32 bits, two's complement). -/
def INT_MAX : Nat := 2147483647

/-- The clouds within the reach of the `int` variables of the handlers. With
`n = width * height`: four times `n` (the largest write position, that of the RGBA block), the
byte count `n * point_step` (the value of a running offset that starts at 0, after the last
increment) and that byte count added to the offset of any field of the schema are at most
`INT_MAX`. On such a cloud no `int` of `getGeometry` or of a `getColor` loop overflows, and the
natural numbers of this embedding are the values the source computes. -/
def fitsInt (cloud : PCLPointCloud2) : Prop :=
  4 * (cloud.width * cloud.height) ≤ INT_MAX ∧
  cloud.width * cloud.height * cloud.point_step ≤ INT_MAX ∧
  ∀ f ∈ cloud.fields, f.offset + cloud.width * cloud.height * cloud.point_step ≤ INT_MAX

/-- Whether a cloud is within the reach of the `int` variables can be computed. -/
instance (cloud : PCLPointCloud2) : Decidable (fitsInt cloud) := by
  unfold fitsInt; infer_instance

/-- No `int` of `getGeometry` leaves the range of `int`: after any number
`i ≤ width * height` of iterations of either loop, started at `point_offset = 0`, the three
indices `point_offset + offset` of the x, y and z fields (hence `point_offset` itself) are at
most `INT_MAX`. -/
def PointCloudGeometryHandler.getGeometry.noOverflow (h : PointCloudGeometryHandler) : Prop :=
  ∀ (i : Nat) (data : vtkFloatArray), i ≤ h.cloud_.width * h.cloud_.height →
    ∀ st : Nat × vtkFloatArray,
      (st = (List.range i).foldl (PointCloudGeometryHandler.getGeometry.denseStep h) (0, data) ∨
       st = (List.range i).foldl (PointCloudGeometryHandler.getGeometry.sparseStep h) (0, data)) →
      st.1 + (fieldAt h.cloud_ h.field_x_idx_).offset ≤ INT_MAX ∧
      st.1 + (fieldAt h.cloud_ h.field_y_idx_).offset ≤ INT_MAX ∧
      st.1 + (fieldAt h.cloud_ h.field_z_idx_).offset ≤ INT_MAX

/-- No `int` of the loops of the RGBA `getColor` leaves the range of `int`: after any number
`cp ≤ width * height` of iterations of either loop, started as `getColor` starts it,
`point_offset`, `x_point_offset` and the last write position `j + 3` are at most `INT_MAX`. -/
def PointCloudColorHandlerRGBAField.getColor.noOverflow (cloud : PCLPointCloud2)
    (field_idx_ : Int) : Prop :=
  ∀ (cp : Nat) (colors : List UInt8), cp ≤ cloud.width * cloud.height →
    ∀ st : ColorLoop,
      (st = (List.range cp).foldl (PointCloudColorHandlerRGBAField.getColor.gatedStep cloud)
          { point_offset := (fieldAt cloud field_idx_).offset,
            x_point_offset := (fieldAt cloud (getFieldIndex cloud "x")).offset,
            j := 0, colors := colors } ∨
       st = (List.range cp).foldl (PointCloudColorHandlerRGBAField.getColor.plainStep cloud)
          { point_offset := (fieldAt cloud field_idx_).offset, x_point_offset := 0,
            j := 0, colors := colors }) →
      st.point_offset ≤ INT_MAX ∧ st.x_point_offset ≤ INT_MAX ∧ st.j + 3 ≤ INT_MAX

/-- No `int` of the loops of the HSV `getColor` leaves the range of `int`: after any number
`cp ≤ width * height` of iterations of either loop, started as `getColor` starts it,
`point_offset`, `x_point_offset`, the tuple count `j`, the product `3 * j` and the last write
position `idx + 2` with `idx = j * 3` are at most `INT_MAX`. -/
def PointCloudColorHandlerHSVField.getColor.noOverflow (cloud : PCLPointCloud2)
    (field_idx_ : Int) : Prop :=
  ∀ (cp : Nat) (colors : List UInt8), cp ≤ cloud.width * cloud.height →
    ∀ st : ColorLoop,
      (st = (List.range cp).foldl (PointCloudColorHandlerHSVField.getColor.gatedStep cloud)
          { point_offset := (fieldAt cloud field_idx_).offset,
            x_point_offset := (fieldAt cloud (getFieldIndex cloud "x")).offset,
            j := 0, colors := colors } ∨
       st = (List.range cp).foldl (PointCloudColorHandlerHSVField.getColor.plainStep cloud)
          { point_offset := (fieldAt cloud field_idx_).offset, x_point_offset := 0,
            j := 0, colors := colors }) →
      st.point_offset ≤ INT_MAX ∧ st.x_point_offset ≤ INT_MAX ∧ st.j * 3 + 2 ≤ INT_MAX

/-- No `int` of the loops of the generic `getColor` leaves the range of `int`: after any number
`cp ≤ width * height` of iterations of either loop, started as `getColor` starts it,
`point_offset`, `x_point_offset` and the write position `j` are at most `INT_MAX`. -/
def PointCloudColorHandlerGenericField.getColor.noOverflow (cloud : PCLPointCloud2)
    (field_idx_ : Int) : Prop :=
  ∀ (cp : Nat) (colors : List F32), cp ≤ cloud.width * cloud.height →
    ∀ st : FieldLoop,
      (st = (List.range cp).foldl
          (PointCloudColorHandlerGenericField.getColor.gatedStep cloud field_idx_)
          { point_offset := (fieldAt cloud field_idx_).offset,
            x_point_offset := (fieldAt cloud (getFieldIndex cloud "x")).offset,
            j := 0, colors := colors, field_data := 0 } ∨
       st = (List.range cp).foldl
          (PointCloudColorHandlerGenericField.getColor.plainStep cloud field_idx_)
          { point_offset := (fieldAt cloud field_idx_).offset, x_point_offset := 0,
            j := 0, colors := colors, field_data := 0 }) →
      st.point_offset ≤ INT_MAX ∧ st.x_point_offset ≤ INT_MAX ∧ st.j ≤ INT_MAX

/-- No `int` of the loops of the label `getColor` leaves the range of `int`: after any number
`cp ≤ width * height` of iterations, `point_offset` of the first pass and, in either colouring
loop started as `getColor` starts it (whatever the colormap), `point_offset`, `x_point_offset`
and the last write position `j + 2` are at most `INT_MAX`. -/
def PointCloudColorHandlerLabelField.getColor.noOverflow (lut : GlasbeyLUT)
    (cloud : PCLPointCloud2) (field_idx_ : Int) (static_mapping_ : Bool) : Prop :=
  ∀ (cp : Nat) (colors : List UInt8) (colormap : ColorMap) (labels : List Nat),
    cp ≤ cloud.width * cloud.height →
    ((List.range cp).foldl (PointCloudColorHandlerLabelField.getColor.collectStep cloud
        (getFieldSize (fieldAt cloud field_idx_).datatype))
      ((fieldAt cloud field_idx_).offset, labels)).1 ≤ INT_MAX ∧
    ∀ st : LabelLoop,
      (st = (List.range cp).foldl (PointCloudColorHandlerLabelField.getColor.gatedStep lut cloud
            (getFieldSize (fieldAt cloud field_idx_).datatype) static_mapping_)
          { point_offset := (fieldAt cloud field_idx_).offset,
            x_point_offset := (fieldAt cloud (getFieldIndex cloud "x")).offset,
            j := 0, colors := colors, colormap := colormap } ∨
       st = (List.range cp).foldl (PointCloudColorHandlerLabelField.getColor.plainStep lut cloud
            (getFieldSize (fieldAt cloud field_idx_).datatype) static_mapping_)
          { point_offset := (fieldAt cloud field_idx_).offset, x_point_offset := 0,
            j := 0, colors := colors, colormap := colormap }) →
      st.point_offset ≤ INT_MAX ∧ st.x_point_offset ≤ INT_MAX ∧ st.j + 2 ≤ INT_MAX

end visualization

/-! ## The value of a float -/

/-- The value of a finite float as a rational number: `(-1)^sign * num / den`, that is
`(-1)^sign * mant * 2^exp2`. -/
def F32.toRat (x : F32) : ℚ :=
  (if F32.sign x then -1 else 1) * (F32.num x : ℚ) / (F32.den x : ℚ)

/-! ## Example clouds -/

namespace Example

/-- The bytes of the float 1.0. -/
def one : List UInt8 := [0, 0, 128, 63]

/-- The bytes of the float 2.0. -/
def two : List UInt8 := [0, 0, 0, 64]

/-- The bytes of a quiet NaN. -/
def nan : List UInt8 := [0, 0, 192, 127]

/-- The schema x, y, z: three floats at offsets 0, 4, 8. -/
def xyz : List PCLPointField :=
  [{ name := "x", offset := 0, datatype := 7, count := 1 },
   { name := "y", offset := 4, datatype := 7, count := 1 },
   { name := "z", offset := 8, datatype := 7, count := 1 }]

/-- A cloud of two records (1, 2, 1) and (1, NaN, 2) over the schema x, y, z, with the given
dense flag. -/
def xyzCloud (is_dense : Bool) : PCLPointCloud2 :=
  { height := 1, width := 2, fields := xyz, point_step := 12, is_dense := is_dense,
    data := one ++ two ++ one ++ one ++ nan ++ two }


/-- A schema with an "rgba" field placed before an "rgb" field, after x, y, z. -/
def xyzBoth : List PCLPointField :=
  xyz ++ [{ name := "rgba", offset := 12, datatype := 6, count := 1 },
          { name := "rgb", offset := 16, datatype := 7, count := 1 }]

/-- A cloud without records over the schema `xyzBoth`. -/
def bothCloud : PCLPointCloud2 :=
  { height := 1, width := 0, fields := xyzBoth, point_step := 20, is_dense := true, data := [] }


/-- The schema x, y, z, rgb: three floats and a packed colour at offset 12. -/
def xyzrgb : List PCLPointField :=
  xyz ++ [{ name := "rgb", offset := 12, datatype := 7, count := 1 }]

/-- A cloud of three records over the schema x, y, z, rgb; the second record has a NaN x. -/
def rgbCloud : PCLPointCloud2 :=
  { height := 1, width := 3, fields := xyzrgb, point_step := 16, is_dense := false,
    data := one ++ two ++ one ++ [10, 20, 30, 40]
         ++ nan ++ one ++ one ++ [50, 60, 70, 80]
         ++ two ++ two ++ two ++ [90, 100, 110, 120] }


/-- The schema x, y, z, label: three floats and a 32-bit unsigned label at offset 12. -/
def xyzlabel : List PCLPointField :=
  xyz ++ [{ name := "label", offset := 12, datatype := 6, count := 1 }]

/-- The cloud of the round-trip scenario of the spec: four records over x, y, z, label with
labels 5, 1, 5, 2, the record of index 2 having a NaN x. -/
def labelCloud : PCLPointCloud2 :=
  { height := 1, width := 4, fields := xyzlabel, point_step := 16, is_dense := false,
    data := one ++ two ++ one ++ [5, 0, 0, 0]
         ++ two ++ one ++ one ++ [1, 0, 0, 0]
         ++ nan ++ one ++ two ++ [5, 0, 0, 0]
         ++ two ++ two ++ two ++ [2, 0, 0, 0] }

/-- A lookup table of four colours, standing for the Glasbey table. -/
def palette : GlasbeyLUT :=
  [{ b := 1, g := 2, r := 3, a := 255 }, { b := 4, g := 5, r := 6, a := 255 },
   { b := 7, g := 8, r := 9, a := 255 }, { b := 10, g := 11, r := 12, a := 255 }]


/-- The schema h, s, v: three floats at offsets 0, 4, 8. -/
def hsv : List PCLPointField :=
  [{ name := "h", offset := 0, datatype := 7, count := 1 },
   { name := "s", offset := 4, datatype := 7, count := 1 },
   { name := "v", offset := 8, datatype := 7, count := 1 }]

/-- A cloud of one record over the schema h, s, v with h = 0, s = 0, v = 200. -/
def grayCloud : PCLPointCloud2 :=
  { height := 1, width := 1, fields := hsv, point_step := 12, is_dense := true,
    data := [0, 0, 0, 0] ++ [0, 0, 0, 0] ++ [0, 0, 72, 67] }


/-- A schema that has "x" and "z" but no "y". -/
def xzOnly : List PCLPointField :=
  [{ name := "x", offset := 0, datatype := 7, count := 1 },
   { name := "z", offset := 4, datatype := 7, count := 1 }]

/-- A cloud of one record over the schema `xzOnly`. -/
def xzCloud : PCLPointCloud2 :=
  { height := 1, width := 1, fields := xzOnly, point_step := 8, is_dense := true,
    data := one ++ two }


/-- A cloud of two records over the schema h, s, v: (0, 1, 255) and (120, 1, 255). -/
def sectorCloud : PCLPointCloud2 :=
  { height := 1, width := 2, fields := hsv, point_step := 12, is_dense := true,
    data := [0, 0, 0, 0] ++ one ++ [0, 0, 127, 67]
         ++ [0, 0, 240, 66] ++ one ++ [0, 0, 127, 67] }


/-- The schema x, y, z, intensity: four floats at offsets 0, 4, 8, 12. -/
def xyzi : List PCLPointField :=
  xyz ++ [{ name := "intensity", offset := 12, datatype := 7, count := 1 }]

/-- A cloud of two records over x, y, z, intensity: (1, 2, 1) with intensity NaN and
(1, 1, 1) with intensity 2. -/
def intensityCloud : PCLPointCloud2 :=
  { height := 1, width := 2, fields := xyzi, point_step := 16, is_dense := false,
    data := one ++ two ++ one ++ nan ++ one ++ one ++ one ++ two }

/-- A cloud of two records holding only an intensity: NaN and 2. -/
def intensityOnlyCloud : PCLPointCloud2 :=
  { height := 1, width := 2,
    fields := [{ name := "intensity", offset := 0, datatype := 7, count := 1 }],
    point_step := 4, is_dense := false, data := nan ++ two }


/-- The bits of the double 255.0. -/
def d255 : F64 := 4643176031446892544

/-- The bits of the double 200.7. -/
def d200_7 : F64 := 4641265520042468966

/-- The bits of the double 1.0. -/
def dOne : F64 := 4607182418800017408

/-- The bits of the double 0.5. -/
def dHalf : F64 := 4602678819172646912


/-- The bits of the double 0.25. -/
def dQuarter : F64 := 4598175219545276416


/-- A non-dense cloud of three records over x, y, z, rgb: (1, NaN, 1), (1, 2, NaN) and
(2, 2, 2). -/
def misalignedCloud : PCLPointCloud2 :=
  { height := 1, width := 3, fields := xyzrgb, point_step := 16, is_dense := false,
    data := one ++ nan ++ one ++ [10, 20, 30, 40]
         ++ one ++ two ++ nan ++ [50, 60, 70, 80]
         ++ two ++ two ++ two ++ [90, 100, 110, 120] }


/-- A cloud of three records over the schema h, s, v: the gray record (0, 0, 200), the record
(0, 1, 255) and the gray record (0, 0, 100). -/
def grayFirstCloud : PCLPointCloud2 :=
  { height := 1, width := 3, fields := hsv, point_step := 12, is_dense := true,
    data := [0, 0, 0, 0] ++ [0, 0, 0, 0] ++ [0, 0, 72, 67]
         ++ [0, 0, 0, 0] ++ one ++ [0, 0, 127, 67]
         ++ [0, 0, 0, 0] ++ [0, 0, 0, 0] ++ [0, 0, 200, 66] }


/-- A cloud of eleven records over the schema h, s, v with s = 1, v = 255 unless stated:
h = 0 and h = 120 (sectors 0 and 2 met exactly), (30, 0.5, 200) (inside sector 0), h = -30
(sector -1), h = 90, 210, 270, 330, 390 (inside sectors 1, 3, 4, 5, 6), (100, 0.3, 200) and
(359.9, 0.9, 250) (quotients and products that are not exact in single precision). -/
def hueCloud : PCLPointCloud2 :=
  { height := 1, width := 11, fields := hsv, point_step := 12, is_dense := true,
    data := [0, 0, 0, 0] ++ one ++ [0, 0, 127, 67]
         ++ [0, 0, 240, 66] ++ one ++ [0, 0, 127, 67]
         ++ [0, 0, 240, 65] ++ [0, 0, 0, 63] ++ [0, 0, 72, 67]
         ++ [0, 0, 240, 193] ++ one ++ [0, 0, 127, 67]
         ++ [0, 0, 180, 66] ++ one ++ [0, 0, 127, 67]
         ++ [0, 0, 82, 67] ++ one ++ [0, 0, 127, 67]
         ++ [0, 0, 135, 67] ++ one ++ [0, 0, 127, 67]
         ++ [0, 0, 165, 67] ++ one ++ [0, 0, 127, 67]
         ++ [0, 0, 195, 67] ++ one ++ [0, 0, 127, 67]
         ++ [0, 0, 200, 66] ++ [154, 153, 153, 62] ++ [0, 0, 72, 67]
         ++ [51, 243, 179, 67] ++ [102, 102, 102, 63] ++ [0, 0, 122, 67] }

end Example

/-! # Theorems -/

/-! ## Lemmas on lists of tuples -/

theorem length_flatMap_triple {α : Type} (a b c : Nat → α) (l : List Nat) :
    (l.flatMap fun i => [a i, b i, c i]).length = 3 * l.length := by
  induction l with
  | nil => simp
  | cons x xs ih => simp [List.flatMap_cons, ih]; omega

theorem getElem?_flatMap_triple {α : Type} (a b c : Nat → α) (l : List Nat) (i : Nat) :
    (l.flatMap fun i => [a i, b i, c i])[3 * i]? = l[i]?.map a ∧
    (l.flatMap fun i => [a i, b i, c i])[3 * i + 1]? = l[i]?.map b ∧
    (l.flatMap fun i => [a i, b i, c i])[3 * i + 2]? = l[i]?.map c := by
  induction l generalizing i with
  | nil => simp
  | cons x xs ih =>
    cases i with
    | zero => simp
    | succ i =>
      obtain ⟨h0, h1, h2⟩ := ih i
      have e0 : 3 * (i + 1) = 3 * i + 3 := by ring
      simp only [List.flatMap_cons, List.getElem?_cons_succ, e0]
      refine ⟨?_, ?_, ?_⟩
      · rw [List.getElem?_append_right (by simp)]; simpa using h0
      · rw [List.getElem?_append_right (by simp)]
        have : 3 * i + 3 + 1 - [a x, b x, c x].length = 3 * i + 1 := by simp
        rw [this]; exact h1
      · rw [List.getElem?_append_right (by simp)]
        have : 3 * i + 3 + 2 - [a x, b x, c x].length = 3 * i + 2 := by simp
        rw [this]; exact h2

theorem getElem?_flatMap_range_triple {α : Type} (a b c : Nat → α) (n i : Nat) (hi : i < n) :
    ((List.range n).flatMap fun i => [a i, b i, c i])[3 * i]? = some (a i) ∧
    ((List.range n).flatMap fun i => [a i, b i, c i])[3 * i + 1]? = some (b i) ∧
    ((List.range n).flatMap fun i => [a i, b i, c i])[3 * i + 2]? = some (c i) := by
  induction n with
  | zero => omega
  | succ n ih =>
    have hlen := length_flatMap_triple a b c (List.range n)
    rw [List.length_range] at hlen
    rw [List.range_succ, List.flatMap_append]
    by_cases h : i < n
    · obtain ⟨h0, h1, h2⟩ := ih h
      refine ⟨?_, ?_, ?_⟩
      · rw [List.getElem?_append_left (by omega)]; exact h0
      · rw [List.getElem?_append_left (by omega)]; exact h1
      · rw [List.getElem?_append_left (by omega)]; exact h2
    · have hin : i = n := by omega
      subst hin
      refine ⟨?_, ?_, ?_⟩
      · rw [List.getElem?_append_right (by omega), hlen]; simp
      · rw [List.getElem?_append_right (by omega), hlen]; simp
      · rw [List.getElem?_append_right (by omega), hlen]; simp

/-! ## Schema lookup -/

theorem getFieldIndex_scan_ge (name : String) (fs : List PCLPointField) (i : Nat) :
    getFieldIndex.scan name fs i = -1 ∨ (i : Int) ≤ getFieldIndex.scan name fs i := by
  induction fs generalizing i with
  | nil => left; rfl
  | cons f fs ih =>
    unfold getFieldIndex.scan
    split
    · right; exact le_refl _
    · rcases ih (i + 1) with h | h
      · left; exact h
      · right; omega

theorem getFieldIndex_scan_eq_neg_one (name : String) (fs : List PCLPointField) (i : Nat) :
    getFieldIndex.scan name fs i = -1 ↔ ∀ f ∈ fs, f.name ≠ name := by
  induction fs generalizing i with
  | nil => simp [getFieldIndex.scan]
  | cons f fs ih =>
    unfold getFieldIndex.scan
    by_cases hf : f.name = name
    · simp only [hf, if_true, List.mem_cons, forall_eq_or_imp]
      constructor
      · intro h; omega
      · intro h; exact absurd rfl h.1
    · simp only [hf, if_false, List.mem_cons, forall_eq_or_imp, ih (i + 1)]
      constructor
      · intro h; exact ⟨fun e => hf e, h⟩
      · intro h; exact h.2

theorem getFieldIndex_scan_found (name : String) (fs : List PCLPointField) (i : Nat)
    (h : getFieldIndex.scan name fs i ≠ -1) :
    ∃ k, getFieldIndex.scan name fs i = ((i + k : Nat) : Int) ∧ k < fs.length ∧
      (fs.getD k default).name = name := by
  induction fs generalizing i with
  | nil => exact absurd rfl h
  | cons f fs ih =>
    unfold getFieldIndex.scan at h ⊢
    by_cases hf : f.name = name
    · exact ⟨0, by simp [hf], by simp, by simpa using hf⟩
    · simp only [hf, if_false] at h ⊢
      obtain ⟨k, hk, hlt, hname⟩ := ih (i + 1) h
      refine ⟨k + 1, ?_, by simpa using hlt, by simpa using hname⟩
      rw [hk]; congr 1; omega

theorem getFieldIndex_eq_neg_one (cloud : PCLPointCloud2) (name : String) :
    getFieldIndex cloud name = -1 ↔ ¬ hasField cloud name := by
  unfold getFieldIndex hasField
  rw [getFieldIndex_scan_eq_neg_one]
  constructor
  · rintro h ⟨f, hf, hn⟩; exact h f hf hn
  · intro h f hf hn; exact h ⟨f, hf, hn⟩

theorem getFieldIndex_ne_neg_one (cloud : PCLPointCloud2) (name : String) :
    getFieldIndex cloud name ≠ -1 ↔ hasField cloud name := by
  rw [Ne, getFieldIndex_eq_neg_one, not_not]

theorem fieldAt_getFieldIndex (cloud : PCLPointCloud2) (name : String)
    (h : hasField cloud name) : (fieldAt cloud (getFieldIndex cloud name)).name = name := by
  have hne := (getFieldIndex_ne_neg_one cloud name).2 h
  obtain ⟨k, hk, _, hname⟩ := getFieldIndex_scan_found name cloud.fields 0 hne
  unfold fieldAt getFieldIndex
  rw [hk]
  simpa using hname

/-! ## Lemmas on writing into an allocated block -/

theorem take_set_of_le {α : Type} (l : List α) (i j : Nat) (a : α) (h : j ≤ i) :
    (l.set i a).take j = l.take j := by
  induction l generalizing i j with
  | nil => simp
  | cons x xs ih =>
    cases j with
    | zero => simp
    | succ j =>
      cases i with
      | zero => omega
      | succ i => simp [ih i j (by omega)]

theorem take_succ_set {α : Type} (l : List α) (j : Nat) (a : α) (h : j < l.length) :
    (l.set j a).take (j + 1) = l.take j ++ [a] := by
  induction l generalizing j with
  | nil => simp at h
  | cons x xs ih =>
    cases j with
    | zero => simp
    | succ j => simp [ih j (by simpa using h)]

theorem take_set3 {α : Type} (l : List α) (j : Nat) (a b c : α) (h : j + 3 ≤ l.length) :
    (((l.set j a).set (j + 1) b).set (j + 2) c).take (j + 3) = l.take j ++ [a, b, c] := by
  rw [take_succ_set _ (j + 2) c (by simp; omega), take_succ_set _ (j + 1) b (by simp; omega),
    take_succ_set _ j a (by omega)]
  simp

theorem take_set4 {α : Type} (l : List α) (j : Nat) (a b c d : α) (h : j + 4 ≤ l.length) :
    ((((l.set j a).set (j + 1) b).set (j + 2) c).set (j + 3) d).take (j + 4)
      = l.take j ++ [a, b, c, d] := by
  rw [take_succ_set _ (j + 3) d (by simp; omega), take_set3 _ j a b c (by omega)]
  simp

theorem filter_flatMap_range_succ {α : Type} (g : Nat → Bool) (f : Nat → List α) (n : Nat) :
    ((List.range (n + 1)).filter g).flatMap f
      = ((List.range n).filter g).flatMap f ++ (if g n then f n else []) := by
  rw [List.range_succ, List.filter_append, List.flatMap_append]
  by_cases h : g n <;> simp [h]

theorem length_filter_flatMap {α : Type} (g : Nat → Bool) (f : Nat → List α) (k : Nat)
    (hk : ∀ i, (f i).length = k) (l : List Nat) :
    ((l.filter g).flatMap f).length = k * (l.filter g).length := by
  induction l with
  | nil => simp
  | cons x xs ih =>
    by_cases h : g x
    · simp only [List.filter_cons, h, if_true, List.flatMap_cons, List.length_append, hk,
        List.length_cons]
      simp only [List.filter_cons, h] at ih
      rw [ih]; ring
    · simpa [List.filter_cons, h] using ih

theorem length_filter_flatMap_range_le {α : Type} (g : Nat → Bool) (f : Nat → List α) (k : Nat)
    (hk : ∀ i, (f i).length = k) (n : Nat) :
    (((List.range n).filter g).flatMap f).length ≤ k * n := by
  rw [length_filter_flatMap g f k hk]
  have := List.length_filter_le g (List.range n)
  rw [List.length_range] at this
  exact Nat.mul_le_mul_left k this

/-- The invariant of a colouring loop. A loop state carries two running byte offsets `po`, `xo`,
a write position `j` and a block `colors` of `k * N` values; one iteration advances the offsets
by `ps` and, when record `n` passes `gate`, writes the `k` values `emit n` at `j`. After `n`
iterations the first `j` values of the block are the values emitted for the records below `n`
that pass the gate, in record order. -/
theorem fold_emit {σ α : Type} (step : σ → Nat → σ) (po xo j : σ → Nat) (colors : σ → List α)
    (I : σ → Prop) (gate : Nat → Bool) (emit : Nat → List α) (k ps po0 xo0 N : Nat)
    (hk : ∀ i, (emit i).length = k)
    (hstep : ∀ s n, n < N → po s = po0 + n * ps → xo s = xo0 + n * ps → I s →
      j s + k ≤ (colors s).length →
      po (step s n) = po0 + (n + 1) * ps ∧ xo (step s n) = xo0 + (n + 1) * ps ∧ I (step s n) ∧
      (colors (step s n)).length = (colors s).length ∧
      j (step s n) = j s + (if gate n then k else 0) ∧
      (colors (step s n)).take (j (step s n))
        = (colors s).take (j s) ++ (if gate n then emit n else []))
    (s0 : σ) (hpo : po s0 = po0) (hxo : xo s0 = xo0) (hI : I s0) (hj : j s0 = 0)
    (hlen : (colors s0).length = k * N) (n : Nat) (hn : n ≤ N) :
    po ((List.range n).foldl step s0) = po0 + n * ps ∧
    xo ((List.range n).foldl step s0) = xo0 + n * ps ∧
    I ((List.range n).foldl step s0) ∧
    (colors ((List.range n).foldl step s0)).length = k * N ∧
    j ((List.range n).foldl step s0) = (((List.range n).filter gate).flatMap emit).length ∧
    (colors ((List.range n).foldl step s0)).take (j ((List.range n).foldl step s0))
      = ((List.range n).filter gate).flatMap emit := by
  induction n with
  | zero => simp [hpo, hxo, hI, hj, hlen]
  | succ n ih =>
    obtain ⟨h1, h2, h3, h4, h5, h6⟩ := ih (by omega)
    have hle := length_filter_flatMap_range_le gate emit k hk n
    have hkn : k * n + k ≤ k * N := by
      calc k * n + k = k * (n + 1) := by ring
        _ ≤ k * N := Nat.mul_le_mul_left k hn
    obtain ⟨g1, g2, g3, g4, g5, g6⟩ :=
      hstep ((List.range n).foldl step s0) n (by omega) h1 h2 h3 (by rw [h4, h5]; omega)
    rw [List.range_succ, List.foldl_append, ← List.range_succ]
    simp only [List.foldl_cons, List.foldl_nil, filter_flatMap_range_succ]
    refine ⟨g1, g2, g3, by rw [g4, h4], ?_, ?_⟩
    · rw [g5, h5, List.length_append]
      by_cases hg : gate n <;> simp [hg, hk]
    · rw [g6, h6]

/-- The invariant of a colouring loop with a condition `I n` on the state that may depend on
the number `n` of iterations done; otherwise as `fold_emit`. -/
theorem fold_emit_indexed {σ α : Type} (step : σ → Nat → σ) (po xo j : σ → Nat)
    (colors : σ → List α) (I : Nat → σ → Prop) (gate : Nat → Bool) (emit : Nat → List α)
    (k ps po0 xo0 N : Nat) (hk : ∀ i, (emit i).length = k)
    (hstep : ∀ s n, n < N → po s = po0 + n * ps → xo s = xo0 + n * ps → I n s →
      j s + k ≤ (colors s).length →
      po (step s n) = po0 + (n + 1) * ps ∧ xo (step s n) = xo0 + (n + 1) * ps ∧
      I (n + 1) (step s n) ∧
      (colors (step s n)).length = (colors s).length ∧
      j (step s n) = j s + (if gate n then k else 0) ∧
      (colors (step s n)).take (j (step s n))
        = (colors s).take (j s) ++ (if gate n then emit n else []))
    (s0 : σ) (hpo : po s0 = po0) (hxo : xo s0 = xo0) (hI : I 0 s0) (hj : j s0 = 0)
    (hlen : (colors s0).length = k * N) (n : Nat) (hn : n ≤ N) :
    po ((List.range n).foldl step s0) = po0 + n * ps ∧
    xo ((List.range n).foldl step s0) = xo0 + n * ps ∧
    I n ((List.range n).foldl step s0) ∧
    (colors ((List.range n).foldl step s0)).length = k * N ∧
    j ((List.range n).foldl step s0) = (((List.range n).filter gate).flatMap emit).length ∧
    (colors ((List.range n).foldl step s0)).take (j ((List.range n).foldl step s0))
      = ((List.range n).filter gate).flatMap emit := by
  induction n with
  | zero => simp [hpo, hxo, hI, hj, hlen]
  | succ n ih =>
    obtain ⟨h1, h2, h3, h4, h5, h6⟩ := ih (by omega)
    have hle := length_filter_flatMap_range_le gate emit k hk n
    have hkn : k * n + k ≤ k * N := by
      calc k * n + k = k * (n + 1) := by ring
        _ ≤ k * N := Nat.mul_le_mul_left k hn
    obtain ⟨g1, g2, g3, g4, g5, g6⟩ :=
      hstep ((List.range n).foldl step s0) n (by omega) h1 h2 h3 (by rw [h4, h5]; omega)
    rw [List.range_succ, List.foldl_append, ← List.range_succ]
    simp only [List.foldl_cons, List.foldl_nil, filter_flatMap_range_succ]
    refine ⟨g1, g2, g3, by rw [g4, h4], ?_, ?_⟩
    · rw [g5, h5, List.length_append]
      by_cases hg : gate n <;> simp [hg, hk]
    · rw [g6, h6]

/-! ## Single precision: rounding of integers, floor and truncation -/

namespace F32

theorem bitLength_go_zero (fuel : Nat) : bitLength.go fuel 0 = 0 := by
  cases fuel <;> simp [bitLength.go]

theorem bitLength_go_spec : ∀ (fuel n : Nat), n ≤ fuel → 0 < n →
    2 ^ (bitLength.go fuel n - 1) ≤ n ∧ n < 2 ^ (bitLength.go fuel n) ∧
      0 < bitLength.go fuel n := by
  intro fuel
  induction fuel with
  | zero => intro n h1 h2; omega
  | succ fuel ih =>
    intro n h1 h2
    have hn : n ≠ 0 := by omega
    simp only [bitLength.go, hn, if_false]
    by_cases h : n / 2 = 0
    · have : n = 1 := by omega
      subst this
      simp [bitLength_go_zero]
    · obtain ⟨a, b, c⟩ := ih (n / 2) (by omega) (by omega)
      refine ⟨?_, ?_, by omega⟩
      · have e : bitLength.go fuel (n / 2) + 1 - 1 = (bitLength.go fuel (n / 2) - 1) + 1 := by
          omega
        rw [e, pow_succ]
        omega
      · rw [pow_succ]
        omega

theorem bitLength_spec (n : Nat) (h : 0 < n) :
    2 ^ (bitLength n - 1) ≤ n ∧ n < 2 ^ (bitLength n) ∧ 0 < bitLength n :=
  bitLength_go_spec n n (le_refl _) h

theorem bitLength_one : bitLength 1 = 1 := by decide

theorem round_small (neg : Bool) (n b : Nat) (hb1 : 1 ≤ b) (hb24 : b ≤ 24)
    (hbe : bitLength n = b) (hlo : 2 ^ (b - 1) ≤ n) (hhi : n < 2 ^ b) :
    8388608 ≤ n * 2 ^ (24 - b) ∧ n * 2 ^ (24 - b) < 16777216 ∧
    round neg n 1 = zero neg + (b + 126) * 8388608 + (n * 2 ^ (24 - b) - 8388608) := by
  have hn : n ≠ 0 := by
    have := Nat.pos_pow_of_pos (b - 1) (by norm_num : 0 < 2)
    omega
  have hk : ((b : Int) - ((1 : Nat) : Int)) = ((b - 1 : Nat) : Int) := by omega
  have h0k : (0 : Int) ≤ ((b - 1 : Nat) : Int) := Int.natCast_nonneg _
  have hqe : max (((b - 1 : Nat) : Int) - 23) (-149) = -((24 - b : Nat) : Int) := by omega
  have hN : (if (0 : Int) ≤ -((24 - b : Nat) : Int) then n else n * 2 ^ (24 - b))
      = n * 2 ^ (24 - b) := by
    split_ifs with hc
    · have : 24 - b = 0 := by omega
      rw [this]; simp
    · rfl
  have hD : (if (0 : Int) ≤ -((24 - b : Nat) : Int) then 2 ^ (-((24 - b : Nat) : Int)).toNat
      else 1) = 1 := by
    split_ifs with hc
    · have : (-((24 - b : Nat) : Int)).toNat = 0 := by omega
      rw [this]; rfl
    · rfl
  have hM1 : 8388608 ≤ n * 2 ^ (24 - b) := by
    calc 8388608 = 2 ^ (b - 1) * 2 ^ (24 - b) := by
          rw [← pow_add]
          have : b - 1 + (24 - b) = 23 := by omega
          rw [this]; norm_num
      _ ≤ n * 2 ^ (24 - b) := Nat.mul_le_mul_right _ hlo
  have hM2 : n * 2 ^ (24 - b) < 16777216 := by
    calc n * 2 ^ (24 - b) < 2 ^ b * 2 ^ (24 - b) :=
          Nat.mul_lt_mul_of_pos_right hhi (Nat.pos_pow_of_pos _ (by norm_num))
      _ = 16777216 := by
          rw [← pow_add]
          have : b + (24 - b) = 24 := by omega
          rw [this]; norm_num
  refine ⟨hM1, hM2, ?_⟩
  simp only [round, hn, if_false, hbe, bitLength_one, hk, h0k, if_true, Int.toNat_ofNat,
    one_mul, hlo, decide_True, hqe, neg_neg, hN, hD, Nat.mod_one, Nat.div_one]
  generalize n * 2 ^ (24 - b) = M at hM1 hM2 ⊢
  have h1 : ¬ M = 16777216 := by omega
  have h2 : ¬ M < 8388608 := by omega
  have h3 : ¬ ((255 : Int) ≤ -((24 - b : Nat) : Int) + 150) := by omega
  have h4 : (-((24 - b : Nat) : Int) + 150).toNat = b + 126 := by omega
  simp only [Nat.mul_zero, Nat.zero_lt_one, if_true, h1, if_false, h2, h3, h4]

theorem den_pos (x : F32) : 0 < den x := Nat.pos_pow_of_pos _ (by norm_num)

/-- The fields of a normal number assembled from sign, exponent and significand. -/
theorem decode_normal (neg : Bool) (b M : Nat) (hb1 : 1 ≤ b) (hb24 : b ≤ 24)
    (hM1 : 8388608 ≤ M) (hM2 : M < 16777216) :
    sign (zero neg + (b + 126) * 8388608 + (M - 8388608)) = neg ∧
    expField (zero neg + (b + 126) * 8388608 + (M - 8388608)) = b + 126 ∧
    frac (zero neg + (b + 126) * 8388608 + (M - 8388608)) = M - 8388608 := by
  refine ⟨?_, ?_, ?_⟩
  · cases neg
    · simp only [sign, zero, Bool.false_eq_true, if_false]
      rw [decide_eq_false_iff_not]
      change ¬ ((0 + (b + 126) * 8388608 + (M - 8388608) : Nat) / 2147483648 % 2 = (1 : Nat))
      omega
    · simp only [sign, zero, if_true]
      rw [decide_eq_true_iff]
      change ((2147483648 + (b + 126) * 8388608 + (M - 8388608) : Nat) / 2147483648 % 2
        = (1 : Nat))
      omega
  · cases neg <;> simp only [expField, zero, Bool.false_eq_true, if_false, if_true] <;> omega
  · cases neg <;> simp only [frac, zero, Bool.false_eq_true, if_false, if_true] <;> omega

/-- `round` is exact on the integers below `2 ^ 24`. -/
theorem round_int (neg : Bool) (n : Nat) (h24 : n < 16777216) :
    isfinite (round neg n 1) = true ∧ (0 < n → sign (round neg n 1) = neg) ∧
    num (round neg n 1) = n * den (round neg n 1) := by
  by_cases h0 : n = 0
  · subst h0
    cases neg <;> simp [round, zero, isfinite, expField, num, mant, frac]
  obtain ⟨hlo, hhi, hpos⟩ := bitLength_spec n (by omega)
  have hb : bitLength n ≤ 24 := by
    by_contra hc
    push_neg at hc
    have : 2 ^ 24 ≤ 2 ^ (bitLength n - 1) := Nat.pow_le_pow_right (by norm_num) (by omega)
    norm_num at this
    omega
  obtain ⟨hM1, hM2, e⟩ := round_small neg n (bitLength n) (by omega) hb rfl hlo hhi
  obtain ⟨hS, hE, hF⟩ := decode_normal neg (bitLength n) (n * 2 ^ (24 - bitLength n))
    (by omega) hb hM1 hM2
  rw [e]
  have hne : bitLength n + 126 ≠ 0 := by omega
  have hx : ((bitLength n + 126 : Nat) : Int) - 150 = -((24 - bitLength n : Nat) : Int) := by
    omega
  have ht : (-((24 - bitLength n : Nat) : Int)).toNat = 0 := by omega
  refine ⟨?_, fun _ => hS, ?_⟩
  · simp only [isfinite, hE]
    simp
    omega
  · simp only [num, den, mant, exp2, hE, hF, hne, if_false, hx, neg_neg, Int.toNat_ofNat, ht,
      pow_zero, Nat.mul_one]
    omega

theorem toInt_round (neg : Bool) (n : Nat) (h24 : n < 16777216) :
    toInt (round neg n 1) = if neg then -(n : Int) else n := by
  obtain ⟨hf, hs, hnum⟩ := round_int neg n h24
  have hd := den_pos (round neg n 1)
  have hq : num (round neg n 1) / den (round neg n 1) = n := by
    rw [hnum]; exact Nat.mul_div_cancel _ hd
  simp only [toInt, hf, Bool.not_true, Bool.false_eq_true, if_false, hq]
  by_cases h0 : n = 0
  · subst h0; simp
  · rw [hs (by omega)]
    cases neg
    · simp only [Bool.false_eq_true, if_false]
      rw [if_pos (by omega)]
    · simp only [if_true]
      rw [if_pos (by omega)]

theorem mant_lt (x : F32) : mant x < 16777216 := by
  have : x % 8388608 < 8388608 := Nat.mod_lt _ (by norm_num)
  simp only [mant, frac]
  split_ifs <;> omega

theorem num_den_cases (x : F32) : den x = 1 ∨ (num x = mant x ∧ 2 ≤ den x) := by
  by_cases h : 0 ≤ exp2 x
  · left
    have : (-(exp2 x)).toNat = 0 := by omega
    simp [den, this]
  · right
    have h1 : (exp2 x).toNat = 0 := by omega
    have h2 : 1 ≤ (-(exp2 x)).toNat := by omega
    refine ⟨by simp [num, h1], ?_⟩
    calc 2 = 2 ^ 1 := by norm_num
      _ ≤ 2 ^ (-(exp2 x)).toNat := Nat.pow_le_pow_right (by norm_num) h2

/-- Division with remainder of the numerator by the denominator, over the integers. -/
theorem num_divMod (x : F32) :
    ((den x : Nat) : Int) * ((num x / den x : Nat) : Int) + ((num x % den x : Nat) : Int)
      = ((num x : Nat) : Int) ∧
    ((num x % den x : Nat) : Int) < ((den x : Nat) : Int) ∧
    (0 : Int) ≤ ((num x % den x : Nat) : Int) ∧ (0 : Int) < ((den x : Nat) : Int) := by
  refine ⟨?_, ?_, Int.natCast_nonneg _, ?_⟩
  · exact_mod_cast Nat.div_add_mod (num x) (den x)
  · exact_mod_cast Nat.mod_lt (num x) (den_pos x)
  · exact_mod_cast den_pos x

/-- The sector index the conversion uses is the integer `i` with `i ≤ a < i + 1`, in integers:
`i * den ≤ ± num < (i + 1) * den`. -/
theorem floor_toInt (a : F32) (hfin : isfinite a = true) (hr : num a < 2147483648 * den a) :
    toInt (floor a) * (den a : Int) ≤ (if sign a then -(num a : Int) else (num a : Int)) ∧
    (if sign a then -(num a : Int) else (num a : Int)) < (toInt (floor a) + 1) * (den a : Int) := by
  have hd := den_pos a
  have hq : num a / den a < 2147483648 := (Nat.div_lt_iff_lt_mul hd).2 hr
  obtain ⟨hI, hlt, h0r, h0d⟩ := num_divMod a
  by_cases hi : num a % den a = 0
  · have hfl : floor a = a := by simp [floor, hfin, hi]
    rw [hi] at hI
    rw [hfl]
    simp only [toInt, hfin, Bool.not_true, Bool.false_eq_true, if_false]
    generalize num a / den a = q at hq hI ⊢
    cases hs : sign a
    · simp only [Bool.false_eq_true, if_false]
      rw [if_pos (by omega)]
      constructor
      · push_cast at hI; linarith
      · push_cast at hI; linarith
    · simp only [if_true]
      rw [if_pos (by omega)]
      constructor
      · push_cast at hI; linarith
      · push_cast at hI; linarith
  · have hc := num_den_cases a
    have hm := mant_lt a
    have hq23 : num a / den a < 8388608 := by
      rcases hc with h1 | ⟨h1, h2⟩
      · rw [h1] at hi; exact absurd (Nat.mod_one _) hi
      · have : num a / den a ≤ num a / 2 := Nat.div_le_div_left h2 (by norm_num)
        omega
    have hrpos : (0 : Int) < ((num a % den a : Nat) : Int) := by
      exact_mod_cast Nat.pos_of_ne_zero hi
    cases hs : sign a
    · have hfl : floor a = round false (num a / den a) 1 := by simp [floor, hfin, hi, hs]
      rw [hfl, toInt_round false _ (by omega)]
      simp only [Bool.false_eq_true, if_false]
      constructor
      · linarith
      · linarith
    · have hfl : floor a = round true (num a / den a + 1) 1 := by simp [floor, hfin, hi, hs]
      rw [hfl, toInt_round true _ (by omega)]
      simp only [if_true, Nat.cast_add, Nat.cast_one]
      constructor
      · linarith
      · linarith

/-- The sector index the conversion uses, `static_cast<int> (std::floor (a))`, is the floor of
the value of `a`. -/
theorem floor_spec (a : F32) (hfin : isfinite a = true) (hr : num a < 2147483648 * den a) :
    toInt (floor a) = ⌊toRat a⌋ := by
  obtain ⟨h1, h2⟩ := floor_toInt a hfin hr
  have hd : (0 : ℚ) < (den a : ℚ) := by exact_mod_cast den_pos a
  have e : toRat a = ((if sign a then -(num a : Int) else (num a : Int) : Int) : ℚ) / (den a : ℚ) := by
    unfold toRat
    cases sign a <;> simp
  symm
  rw [Int.floor_eq_iff, e]
  constructor
  · rw [le_div_iff₀ hd]; exact_mod_cast h1
  · rw [div_lt_iff₀ hd]; exact_mod_cast h2

/-- A channel value in `[0, 256)` is narrowed to its integer part. -/
theorem toUChar_spec (x : F32) (hfin : isfinite x = true) (hs : sign x = false)
    (hr : num x < 256 * den x) : ((toUChar x).toNat : Int) = ⌊toRat x⌋ := by
  have hd := den_pos x
  have hq : num x / den x < 256 := (Nat.div_lt_iff_lt_mul hd).2 hr
  have hdq : (0 : ℚ) < (den x : ℚ) := by exact_mod_cast hd
  obtain ⟨hI, hlt, h0r, h0d⟩ := num_divMod x
  have e : toRat x = (num x : ℚ) / (den x : ℚ) := by simp [toRat, hs]
  have hu : (toUChar x).toNat = num x / den x := by
    simp only [toUChar, toInt, hfin, hs, Bool.not_true, Bool.false_eq_true, if_false]
    generalize num x / den x = q at hq
    rw [if_pos (by omega)]
    have : ((q : Int) % 256).toNat = q := by omega
    rw [this]
    simp [Nat.toUInt8, UInt8.ofNat]
    omega
  rw [hu, e]
  symm
  rw [Int.floor_eq_iff]
  constructor
  · rw [le_div_iff₀ hdq]
    have : (((num x / den x : Nat) : Int) : ℚ) * ((den x : Nat) : ℚ) ≤ ((num x : Nat) : ℚ) := by
      exact_mod_cast (by linarith : ((num x / den x : Nat) : Int) * ((den x : Nat) : Int)
        ≤ ((num x : Nat) : Int))
    exact_mod_cast this
  · rw [div_lt_iff₀ hdq]
    have : ((num x : Nat) : ℚ) < ((((num x / den x : Nat) : Int) : ℚ) + 1) * ((den x : Nat) : ℚ) := by
      exact_mod_cast (by linarith : ((num x : Nat) : Int)
        < (((num x / den x : Nat) : Int) + 1) * ((den x : Nat) : Int))
    exact_mod_cast this

end F32

namespace visualization

/-! ## The counters of the loops -/

theorem fold_bound {σ : Type} (step : σ → Nat → σ) (j : σ → Nat) (k : Nat)
    (hstep : ∀ s n, j (step s n) ≤ j s + k) (s0 : σ) (l : List Nat) :
    j (l.foldl step s0) ≤ j s0 + k * l.length := by
  induction l generalizing s0 with
  | nil => simp
  | cons x xs ih =>
    simp only [List.foldl_cons, List.length_cons]
    have h1 := ih (step s0 x)
    have h2 := hstep s0 x
    have e : k * (xs.length + 1) = k * xs.length + k := by ring
    omega

theorem rgb_gatedStep_bound (cloud : PCLPointCloud2) (s : ColorLoop) (n : Nat) :
    (PointCloudColorHandlerRGBField.getColor.gatedStep cloud s n).j ≤ s.j + 3 := by
  simp only [PointCloudColorHandlerRGBField.getColor.gatedStep]
  split_ifs <;> simp

theorem rgb_plainStep_bound (cloud : PCLPointCloud2) (s : ColorLoop) (n : Nat) :
    (PointCloudColorHandlerRGBField.getColor.plainStep cloud s n).j ≤ s.j + 3 := by
  simp [PointCloudColorHandlerRGBField.getColor.plainStep]

theorem rgba_gatedStep_bound (cloud : PCLPointCloud2) (s : ColorLoop) (n : Nat) :
    (PointCloudColorHandlerRGBAField.getColor.gatedStep cloud s n).j ≤ s.j + 4 := by
  simp only [PointCloudColorHandlerRGBAField.getColor.gatedStep]
  split_ifs <;> simp

theorem rgba_plainStep_bound (cloud : PCLPointCloud2) (s : ColorLoop) (n : Nat) :
    (PointCloudColorHandlerRGBAField.getColor.plainStep cloud s n).j ≤ s.j + 4 := by
  simp [PointCloudColorHandlerRGBAField.getColor.plainStep]

theorem fill_bound (h s v : F32) (j : Nat) (colors : List UInt8) :
    (PointCloudColorHandlerHSVField.getColor.fill h s v j colors).1 ≤ j + 1 := by
  simp only [PointCloudColorHandlerHSVField.getColor.fill]
  split_ifs <;> simp

theorem hsv_gatedStep_bound (cloud : PCLPointCloud2) (s : ColorLoop) (n : Nat) :
    (PointCloudColorHandlerHSVField.getColor.gatedStep cloud s n).j ≤ s.j + 1 := by
  simp only [PointCloudColorHandlerHSVField.getColor.gatedStep]
  split_ifs
  · simp
  · simp
  · exact fill_bound _ _ _ _ _

theorem hsv_plainStep_bound (cloud : PCLPointCloud2) (s : ColorLoop) (n : Nat) :
    (PointCloudColorHandlerHSVField.getColor.plainStep cloud s n).j ≤ s.j + 1 := by
  simp only [PointCloudColorHandlerHSVField.getColor.plainStep]
  split_ifs
  · simp
  · exact fill_bound _ _ _ _ _

theorem generic_gatedStep_bound (cloud : PCLPointCloud2) (field_idx_ : Int) (s : FieldLoop)
    (n : Nat) :
    (PointCloudColorHandlerGenericField.getColor.gatedStep cloud field_idx_ s n).j ≤ s.j + 1 := by
  simp only [PointCloudColorHandlerGenericField.getColor.gatedStep]
  split_ifs <;> simp

theorem generic_plainStep_bound (cloud : PCLPointCloud2) (field_idx_ : Int) (s : FieldLoop)
    (n : Nat) :
    (PointCloudColorHandlerGenericField.getColor.plainStep cloud field_idx_ s n).j ≤ s.j + 1 := by
  simp only [PointCloudColorHandlerGenericField.getColor.plainStep]
  split_ifs <;> simp

theorem label_gatedStep_bound (lut : GlasbeyLUT) (cloud : PCLPointCloud2) (field_size : Nat)
    (static_mapping_ : Bool) (s : LabelLoop) (n : Nat) :
    (PointCloudColorHandlerLabelField.getColor.gatedStep lut cloud field_size static_mapping_
      s n).j ≤ s.j + 3 := by
  simp only [PointCloudColorHandlerLabelField.getColor.gatedStep]
  split_ifs <;> simp

theorem label_plainStep_bound (lut : GlasbeyLUT) (cloud : PCLPointCloud2) (field_size : Nat)
    (static_mapping_ : Bool) (s : LabelLoop) (n : Nat) :
    (PointCloudColorHandlerLabelField.getColor.plainStep lut cloud field_size static_mapping_
      s n).j ≤ s.j + 3 := by
  simp [PointCloudColorHandlerLabelField.getColor.plainStep]

theorem fold_offset {σ : Type} (step : σ → Nat → σ) (po : σ → Nat) (ps : Nat)
    (hstep : ∀ s n, po (step s n) = po s + ps) (s0 : σ) (l : List Nat) :
    po (l.foldl step s0) = po s0 + l.length * ps := by
  induction l generalizing s0 with
  | nil => simp
  | cons x xs ih =>
    simp only [List.foldl_cons, List.length_cons]
    rw [ih (step s0 x), hstep s0 x]
    ring

theorem fitsInt_offset (cloud : PCLPointCloud2) (hsize : fitsInt cloud) (idx : Int) (cp : Nat)
    (hcp : cp ≤ cloud.width * cloud.height) :
    (fieldAt cloud idx).offset + cp * cloud.point_step ≤ INT_MAX := by
  have hmul : cp * cloud.point_step ≤ cloud.width * cloud.height * cloud.point_step :=
    Nat.mul_le_mul_right _ hcp
  have hoff : (fieldAt cloud idx).offset + cloud.width * cloud.height * cloud.point_step
      ≤ INT_MAX := by
    unfold fieldAt
    by_cases hlt : idx.toNat < cloud.fields.length
    · rw [List.getD_eq_getElem _ _ hlt]
      exact hsize.2.2 _ (List.getElem_mem _)
    · rw [List.getD_eq_default _ _ (by omega)]
      have := hsize.2.1
      show 0 + _ ≤ _
      omega
  omega

theorem fitsInt_count (cloud : PCLPointCloud2) (hsize : fitsInt cloud) (cp : Nat)
    (hcp : cp ≤ cloud.width * cloud.height) : 4 * cp ≤ INT_MAX := by
  have := hsize.1
  omega

theorem fitsInt_step (cloud : PCLPointCloud2) (hsize : fitsInt cloud) (cp : Nat)
    (hcp : cp ≤ cloud.width * cloud.height) : cp * cloud.point_step ≤ INT_MAX := by
  have hmul : cp * cloud.point_step ≤ cloud.width * cloud.height * cloud.point_step :=
    Nat.mul_le_mul_right _ hcp
  have := hsize.2.1
  omega

theorem getGeometry_denseStep_offset (h : PointCloudGeometryHandler) (s : Nat × vtkFloatArray)
    (n : Nat) :
    (PointCloudGeometryHandler.getGeometry.denseStep h s n).1 = s.1 + h.cloud_.point_step := rfl

theorem getGeometry_sparseStep_offset (h : PointCloudGeometryHandler) (s : Nat × vtkFloatArray)
    (n : Nat) :
    (PointCloudGeometryHandler.getGeometry.sparseStep h s n).1 = s.1 + h.cloud_.point_step := by
  simp only [PointCloudGeometryHandler.getGeometry.sparseStep]
  split_ifs <;> rfl

theorem getGeometry_noOverflow (h : PointCloudGeometryHandler) (hsize : fitsInt h.cloud_) :
    PointCloudGeometryHandler.getGeometry.noOverflow h := by
  intro i data hi st hst
  have hx := fitsInt_offset h.cloud_ hsize h.field_x_idx_ i hi
  have hy := fitsInt_offset h.cloud_ hsize h.field_y_idx_ i hi
  have hz := fitsInt_offset h.cloud_ hsize h.field_z_idx_ i hi
  have e : st.1 = i * h.cloud_.point_step := by
    rcases hst with hst | hst
    · rw [hst, fold_offset _ Prod.fst h.cloud_.point_step (getGeometry_denseStep_offset h)]
      simp
    · rw [hst, fold_offset _ Prod.fst h.cloud_.point_step (getGeometry_sparseStep_offset h)]
      simp
  rw [e]
  omega

theorem rgba_gatedStep_offset (cloud : PCLPointCloud2) (s : ColorLoop) (n : Nat) :
    (PointCloudColorHandlerRGBAField.getColor.gatedStep cloud s n).point_offset
      = s.point_offset + cloud.point_step ∧
    (PointCloudColorHandlerRGBAField.getColor.gatedStep cloud s n).x_point_offset
      = s.x_point_offset + cloud.point_step := by
  simp only [PointCloudColorHandlerRGBAField.getColor.gatedStep]
  split_ifs <;> exact ⟨rfl, rfl⟩

theorem rgba_plainStep_offset (cloud : PCLPointCloud2) (s : ColorLoop) (n : Nat) :
    (PointCloudColorHandlerRGBAField.getColor.plainStep cloud s n).point_offset
      = s.point_offset + cloud.point_step ∧
    (PointCloudColorHandlerRGBAField.getColor.plainStep cloud s n).x_point_offset
      = s.x_point_offset + 0 := ⟨rfl, rfl⟩

theorem rgba_noOverflow (cloud : PCLPointCloud2) (field_idx_ : Int) (hsize : fitsInt cloud) :
    PointCloudColorHandlerRGBAField.getColor.noOverflow cloud field_idx_ := by
  intro cp colors hcp st hst
  have hp := fitsInt_offset cloud hsize field_idx_ cp hcp
  have hx := fitsInt_offset cloud hsize (getFieldIndex cloud "x") cp hcp
  have hc := fitsInt_count cloud hsize cp hcp
  rcases hst with hst | hst
  · have e1 := fold_offset _ ColorLoop.point_offset cloud.point_step
      (fun s n => (rgba_gatedStep_offset cloud s n).1)
      { point_offset := (fieldAt cloud field_idx_).offset,
        x_point_offset := (fieldAt cloud (getFieldIndex cloud "x")).offset,
        j := 0, colors := colors } (List.range cp)
    have e2 := fold_offset _ ColorLoop.x_point_offset cloud.point_step
      (fun s n => (rgba_gatedStep_offset cloud s n).2)
      { point_offset := (fieldAt cloud field_idx_).offset,
        x_point_offset := (fieldAt cloud (getFieldIndex cloud "x")).offset,
        j := 0, colors := colors } (List.range cp)
    have e3 := fold_bound _ ColorLoop.j 4 (rgba_gatedStep_bound cloud)
      { point_offset := (fieldAt cloud field_idx_).offset,
        x_point_offset := (fieldAt cloud (getFieldIndex cloud "x")).offset,
        j := 0, colors := colors } (List.range cp)
    rw [← hst, List.length_range] at e1 e2 e3
    simp only at e1 e2 e3
    simp only [INT_MAX] at *
    omega
  · have e1 := fold_offset _ ColorLoop.point_offset cloud.point_step
      (fun s n => (rgba_plainStep_offset cloud s n).1)
      { point_offset := (fieldAt cloud field_idx_).offset, x_point_offset := 0,
        j := 0, colors := colors } (List.range cp)
    have e2 := fold_offset _ ColorLoop.x_point_offset 0
      (fun s n => (rgba_plainStep_offset cloud s n).2)
      { point_offset := (fieldAt cloud field_idx_).offset, x_point_offset := 0,
        j := 0, colors := colors } (List.range cp)
    have e3 := fold_bound _ ColorLoop.j 4 (rgba_plainStep_bound cloud)
      { point_offset := (fieldAt cloud field_idx_).offset, x_point_offset := 0,
        j := 0, colors := colors } (List.range cp)
    rw [← hst, List.length_range] at e1 e2 e3
    simp only at e1 e2 e3
    simp only [INT_MAX] at *
    omega

theorem hsv_gatedStep_offset (cloud : PCLPointCloud2) (s : ColorLoop) (n : Nat) :
    (PointCloudColorHandlerHSVField.getColor.gatedStep cloud s n).point_offset
      = s.point_offset + cloud.point_step ∧
    (PointCloudColorHandlerHSVField.getColor.gatedStep cloud s n).x_point_offset
      = s.x_point_offset + cloud.point_step := by
  simp only [PointCloudColorHandlerHSVField.getColor.gatedStep]
  split_ifs <;> exact ⟨rfl, rfl⟩

theorem hsv_plainStep_offset (cloud : PCLPointCloud2) (s : ColorLoop) (n : Nat) :
    (PointCloudColorHandlerHSVField.getColor.plainStep cloud s n).point_offset
      = s.point_offset + cloud.point_step ∧
    (PointCloudColorHandlerHSVField.getColor.plainStep cloud s n).x_point_offset
      = s.x_point_offset + 0 := by
  simp only [PointCloudColorHandlerHSVField.getColor.plainStep]
  split_ifs <;> exact ⟨rfl, rfl⟩

theorem hsv_noOverflow (cloud : PCLPointCloud2) (field_idx_ : Int) (hsize : fitsInt cloud) :
    PointCloudColorHandlerHSVField.getColor.noOverflow cloud field_idx_ := by
  intro cp colors hcp st hst
  have hp := fitsInt_offset cloud hsize field_idx_ cp hcp
  have hx := fitsInt_offset cloud hsize (getFieldIndex cloud "x") cp hcp
  have hc := fitsInt_count cloud hsize cp hcp
  rcases hst with hst | hst
  · have e1 := fold_offset _ ColorLoop.point_offset cloud.point_step
      (fun s n => (hsv_gatedStep_offset cloud s n).1)
      { point_offset := (fieldAt cloud field_idx_).offset,
        x_point_offset := (fieldAt cloud (getFieldIndex cloud "x")).offset,
        j := 0, colors := colors } (List.range cp)
    have e2 := fold_offset _ ColorLoop.x_point_offset cloud.point_step
      (fun s n => (hsv_gatedStep_offset cloud s n).2)
      { point_offset := (fieldAt cloud field_idx_).offset,
        x_point_offset := (fieldAt cloud (getFieldIndex cloud "x")).offset,
        j := 0, colors := colors } (List.range cp)
    have e3 := fold_bound _ ColorLoop.j 1 (hsv_gatedStep_bound cloud)
      { point_offset := (fieldAt cloud field_idx_).offset,
        x_point_offset := (fieldAt cloud (getFieldIndex cloud "x")).offset,
        j := 0, colors := colors } (List.range cp)
    rw [← hst, List.length_range] at e1 e2 e3
    simp only at e1 e2 e3
    simp only [INT_MAX] at *
    omega
  · have e1 := fold_offset _ ColorLoop.point_offset cloud.point_step
      (fun s n => (hsv_plainStep_offset cloud s n).1)
      { point_offset := (fieldAt cloud field_idx_).offset, x_point_offset := 0,
        j := 0, colors := colors } (List.range cp)
    have e2 := fold_offset _ ColorLoop.x_point_offset 0
      (fun s n => (hsv_plainStep_offset cloud s n).2)
      { point_offset := (fieldAt cloud field_idx_).offset, x_point_offset := 0,
        j := 0, colors := colors } (List.range cp)
    have e3 := fold_bound _ ColorLoop.j 1 (hsv_plainStep_bound cloud)
      { point_offset := (fieldAt cloud field_idx_).offset, x_point_offset := 0,
        j := 0, colors := colors } (List.range cp)
    rw [← hst, List.length_range] at e1 e2 e3
    simp only at e1 e2 e3
    simp only [INT_MAX] at *
    omega

theorem generic_gatedStep_offset (cloud : PCLPointCloud2) (field_idx_ : Int) (s : FieldLoop) (n : Nat) :
    (PointCloudColorHandlerGenericField.getColor.gatedStep cloud field_idx_ s n).point_offset
      = s.point_offset + cloud.point_step ∧
    (PointCloudColorHandlerGenericField.getColor.gatedStep cloud field_idx_ s n).x_point_offset
      = s.x_point_offset + cloud.point_step := by
  simp only [PointCloudColorHandlerGenericField.getColor.gatedStep]
  split_ifs <;> exact ⟨rfl, rfl⟩

theorem generic_plainStep_offset (cloud : PCLPointCloud2) (field_idx_ : Int) (s : FieldLoop) (n : Nat) :
    (PointCloudColorHandlerGenericField.getColor.plainStep cloud field_idx_ s n).point_offset
      = s.point_offset + cloud.point_step ∧
    (PointCloudColorHandlerGenericField.getColor.plainStep cloud field_idx_ s n).x_point_offset
      = s.x_point_offset + 0 := by
  simp only [PointCloudColorHandlerGenericField.getColor.plainStep]
  split_ifs <;> exact ⟨rfl, rfl⟩

theorem generic_noOverflow (cloud : PCLPointCloud2) (field_idx_ : Int) (hsize : fitsInt cloud) :
    PointCloudColorHandlerGenericField.getColor.noOverflow cloud field_idx_ := by
  intro cp colors hcp st hst
  have hp := fitsInt_offset cloud hsize field_idx_ cp hcp
  have hx := fitsInt_offset cloud hsize (getFieldIndex cloud "x") cp hcp
  have hc := fitsInt_count cloud hsize cp hcp
  rcases hst with hst | hst
  · have e1 := fold_offset _ FieldLoop.point_offset cloud.point_step
      (fun s n => (generic_gatedStep_offset cloud field_idx_ s n).1)
      { point_offset := (fieldAt cloud field_idx_).offset,
        x_point_offset := (fieldAt cloud (getFieldIndex cloud "x")).offset,
        j := 0, colors := colors, field_data := 0 } (List.range cp)
    have e2 := fold_offset _ FieldLoop.x_point_offset cloud.point_step
      (fun s n => (generic_gatedStep_offset cloud field_idx_ s n).2)
      { point_offset := (fieldAt cloud field_idx_).offset,
        x_point_offset := (fieldAt cloud (getFieldIndex cloud "x")).offset,
        j := 0, colors := colors, field_data := 0 } (List.range cp)
    have e3 := fold_bound _ FieldLoop.j 1 (generic_gatedStep_bound cloud field_idx_)
      { point_offset := (fieldAt cloud field_idx_).offset,
        x_point_offset := (fieldAt cloud (getFieldIndex cloud "x")).offset,
        j := 0, colors := colors, field_data := 0 } (List.range cp)
    rw [← hst, List.length_range] at e1 e2 e3
    simp only at e1 e2 e3
    simp only [INT_MAX] at *
    omega
  · have e1 := fold_offset _ FieldLoop.point_offset cloud.point_step
      (fun s n => (generic_plainStep_offset cloud field_idx_ s n).1)
      { point_offset := (fieldAt cloud field_idx_).offset, x_point_offset := 0,
        j := 0, colors := colors, field_data := 0 } (List.range cp)
    have e2 := fold_offset _ FieldLoop.x_point_offset 0
      (fun s n => (generic_plainStep_offset cloud field_idx_ s n).2)
      { point_offset := (fieldAt cloud field_idx_).offset, x_point_offset := 0,
        j := 0, colors := colors, field_data := 0 } (List.range cp)
    have e3 := fold_bound _ FieldLoop.j 1 (generic_plainStep_bound cloud field_idx_)
      { point_offset := (fieldAt cloud field_idx_).offset, x_point_offset := 0,
        j := 0, colors := colors, field_data := 0 } (List.range cp)
    rw [← hst, List.length_range] at e1 e2 e3
    simp only at e1 e2 e3
    simp only [INT_MAX] at *
    omega

theorem label_collectStep_offset (cloud : PCLPointCloud2) (field_size : Nat)
    (s : Nat × List Nat) (n : Nat) :
    (PointCloudColorHandlerLabelField.getColor.collectStep cloud field_size s n).1
      = s.1 + cloud.point_step := rfl

theorem label_gatedStep_offset (lut : GlasbeyLUT) (cloud : PCLPointCloud2) (field_size : Nat)
    (static_mapping_ : Bool) (s : LabelLoop) (n : Nat) :
    (PointCloudColorHandlerLabelField.getColor.gatedStep lut cloud field_size static_mapping_
      s n).point_offset = s.point_offset + cloud.point_step ∧
    (PointCloudColorHandlerLabelField.getColor.gatedStep lut cloud field_size static_mapping_
      s n).x_point_offset = s.x_point_offset + cloud.point_step := by
  simp only [PointCloudColorHandlerLabelField.getColor.gatedStep]
  split_ifs <;> exact ⟨rfl, rfl⟩

theorem label_plainStep_offset (lut : GlasbeyLUT) (cloud : PCLPointCloud2) (field_size : Nat)
    (static_mapping_ : Bool) (s : LabelLoop) (n : Nat) :
    (PointCloudColorHandlerLabelField.getColor.plainStep lut cloud field_size static_mapping_
      s n).point_offset = s.point_offset + cloud.point_step ∧
    (PointCloudColorHandlerLabelField.getColor.plainStep lut cloud field_size static_mapping_
      s n).x_point_offset = s.x_point_offset + 0 := ⟨rfl, rfl⟩

theorem label_noOverflow (lut : GlasbeyLUT) (cloud : PCLPointCloud2) (field_idx_ : Int)
    (static_mapping_ : Bool) (hsize : fitsInt cloud) :
    PointCloudColorHandlerLabelField.getColor.noOverflow lut cloud field_idx_
      static_mapping_ := by
  intro cp colors colormap labels hcp
  have hp := fitsInt_offset cloud hsize field_idx_ cp hcp
  have hx := fitsInt_offset cloud hsize (getFieldIndex cloud "x") cp hcp
  have hc := fitsInt_count cloud hsize cp hcp
  refine ⟨?_, ?_⟩
  · rw [fold_offset _ Prod.fst cloud.point_step (label_collectStep_offset cloud _),
      List.length_range]
    exact hp
  intro st hst
  rcases hst with hst | hst
  · have e1 := fold_offset _ LabelLoop.point_offset cloud.point_step
      (fun s n => (label_gatedStep_offset lut cloud
        (getFieldSize (fieldAt cloud field_idx_).datatype) static_mapping_ s n).1)
      { point_offset := (fieldAt cloud field_idx_).offset,
        x_point_offset := (fieldAt cloud (getFieldIndex cloud "x")).offset,
        j := 0, colors := colors, colormap := colormap } (List.range cp)
    have e2 := fold_offset _ LabelLoop.x_point_offset cloud.point_step
      (fun s n => (label_gatedStep_offset lut cloud
        (getFieldSize (fieldAt cloud field_idx_).datatype) static_mapping_ s n).2)
      { point_offset := (fieldAt cloud field_idx_).offset,
        x_point_offset := (fieldAt cloud (getFieldIndex cloud "x")).offset,
        j := 0, colors := colors, colormap := colormap } (List.range cp)
    have e3 := fold_bound _ LabelLoop.j 3 (label_gatedStep_bound lut cloud
        (getFieldSize (fieldAt cloud field_idx_).datatype) static_mapping_)
      { point_offset := (fieldAt cloud field_idx_).offset,
        x_point_offset := (fieldAt cloud (getFieldIndex cloud "x")).offset,
        j := 0, colors := colors, colormap := colormap } (List.range cp)
    rw [← hst, List.length_range] at e1 e2 e3
    simp only at e1 e2 e3
    simp only [INT_MAX] at *
    omega
  · have e1 := fold_offset _ LabelLoop.point_offset cloud.point_step
      (fun s n => (label_plainStep_offset lut cloud
        (getFieldSize (fieldAt cloud field_idx_).datatype) static_mapping_ s n).1)
      { point_offset := (fieldAt cloud field_idx_).offset, x_point_offset := 0,
        j := 0, colors := colors, colormap := colormap } (List.range cp)
    have e2 := fold_offset _ LabelLoop.x_point_offset 0
      (fun s n => (label_plainStep_offset lut cloud
        (getFieldSize (fieldAt cloud field_idx_).datatype) static_mapping_ s n).2)
      { point_offset := (fieldAt cloud field_idx_).offset, x_point_offset := 0,
        j := 0, colors := colors, colormap := colormap } (List.range cp)
    have e3 := fold_bound _ LabelLoop.j 3 (label_plainStep_bound lut cloud
        (getFieldSize (fieldAt cloud field_idx_).datatype) static_mapping_)
      { point_offset := (fieldAt cloud field_idx_).offset, x_point_offset := 0,
        j := 0, colors := colors, colormap := colormap } (List.range cp)
    rw [← hst, List.length_range] at e1 e2 e3
    simp only at e1 e2 e3
    simp only [INT_MAX] at *
    omega

/-! ## Geometry extraction -/

theorem getGeometry_denseFold (h : PointCloudGeometryHandler) (d : vtkFloatArray) (n : Nat) :
    (List.range n).foldl (PointCloudGeometryHandler.getGeometry.denseStep h) (0, d) =
      (n * h.cloud_.point_step,
        { d with values := d.values ++ (List.range n).flatMap fun i => [h.xAt i, h.yAt i, h.zAt i] }) := by
  induction n with
  | zero => simp
  | succ n ih =>
    rw [List.range_succ, List.foldl_append, ih]
    simp [PointCloudGeometryHandler.getGeometry.denseStep, vtkFloatArray.InsertNextValue,
      List.flatMap_append, PointCloudGeometryHandler.xAt, PointCloudGeometryHandler.yAt,
      PointCloudGeometryHandler.zAt, Nat.succ_mul]

theorem getGeometry_dense_eq (h : PointCloudGeometryHandler) (points : Option vtkPoints)
    (hcap : h.capable_ = true) (hdense : h.cloud_.is_dense = true) :
    h.getGeometry points = some { Data := { NumberOfComponents := 3, values :=
      ((List.range h.recordCount).flatMap fun i => [h.xAt i, h.yAt i, h.zAt i]) } } := by
  simp only [PointCloudGeometryHandler.getGeometry, hcap, hdense, getGeometry_denseFold]
  simp [vtkFloatArray.New, vtkFloatArray.SetNumberOfComponents,
    PointCloudGeometryHandler.recordCount]

/-- C1: on a capable geometry handler over a cloud flagged dense and within the reach of the
`int` offset of the loop (`fitsInt`), `getGeometry` sets a float array holding exactly one
triple per record (3 * width * height floats), and for every record index `i` the triple at
positions 3i, 3i+1, 3i+2 is the three floats read at bytes `i * point_step + offset` of the x,
y and z fields; finiteness plays no part, no record is dropped. On such a cloud `point_offset`
and the three indices computed from it never exceed `INT_MAX`, so the `int` arithmetic of the
source does not wrap. -/
theorem getGeometry_dense (h : PointCloudGeometryHandler) (points : Option vtkPoints)
    (hcap : h.capable_ = true) (hdense : h.cloud_.is_dense = true)
    (hsize : fitsInt h.cloud_) :
    (∃ p : vtkPoints, h.getGeometry points = some p ∧
      p.Data.NumberOfComponents = 3 ∧
      p.Data.values = ((List.range h.recordCount).flatMap fun i => [h.xAt i, h.yAt i, h.zAt i]) ∧
      p.Data.values.length = 3 * h.recordCount ∧
      ∀ i, i < h.recordCount →
        p.Data.values[3 * i]? = some (h.xAt i) ∧
        p.Data.values[3 * i + 1]? = some (h.yAt i) ∧
        p.Data.values[3 * i + 2]? = some (h.zAt i)) ∧
    PointCloudGeometryHandler.getGeometry.noOverflow h :=
  ⟨⟨_, getGeometry_dense_eq h points hcap hdense, rfl, rfl,
    by rw [length_flatMap_triple, List.length_range],
    fun i hi => getElem?_flatMap_range_triple h.xAt h.yAt h.zAt _ i hi⟩,
    getGeometry_noOverflow h hsize⟩

/-- C1, on the dense two-record cloud whose second record has a NaN y: both records are
emitted, six floats. -/
theorem getGeometry_dense_witness :
    (PointCloudGeometryHandlerXYZ.PointCloudGeometryHandlerXYZ (Example.xyzCloud true)).capable_
      = true ∧
    (PointCloudGeometryHandlerXYZ.PointCloudGeometryHandlerXYZ
      (Example.xyzCloud true)).cloud_.is_dense = true ∧
    fitsInt (PointCloudGeometryHandlerXYZ.PointCloudGeometryHandlerXYZ
      (Example.xyzCloud true)).cloud_ ∧
    ((PointCloudGeometryHandlerXYZ.PointCloudGeometryHandlerXYZ
        (Example.xyzCloud true)).getGeometry none).map (fun p => p.Data.values)
      = some [1065353216, 1073741824, 1065353216, 1065353216, 2143289344, 1073741824] ∧
    ∃ p : vtkPoints,
      (PointCloudGeometryHandlerXYZ.PointCloudGeometryHandlerXYZ
        (Example.xyzCloud true)).getGeometry none = some p ∧
      p.Data.NumberOfComponents = 3 ∧
      p.Data.values = ((List.range (PointCloudGeometryHandlerXYZ.PointCloudGeometryHandlerXYZ
          (Example.xyzCloud true)).recordCount).flatMap fun i =>
        [(PointCloudGeometryHandlerXYZ.PointCloudGeometryHandlerXYZ (Example.xyzCloud true)).xAt i,
         (PointCloudGeometryHandlerXYZ.PointCloudGeometryHandlerXYZ (Example.xyzCloud true)).yAt i,
         (PointCloudGeometryHandlerXYZ.PointCloudGeometryHandlerXYZ (Example.xyzCloud true)).zAt i]) ∧
      p.Data.values.length =
        3 * (PointCloudGeometryHandlerXYZ.PointCloudGeometryHandlerXYZ
          (Example.xyzCloud true)).recordCount ∧
      ∀ i, i < (PointCloudGeometryHandlerXYZ.PointCloudGeometryHandlerXYZ
          (Example.xyzCloud true)).recordCount →
        p.Data.values[3 * i]? = some
          ((PointCloudGeometryHandlerXYZ.PointCloudGeometryHandlerXYZ (Example.xyzCloud true)).xAt i) ∧
        p.Data.values[3 * i + 1]? = some
          ((PointCloudGeometryHandlerXYZ.PointCloudGeometryHandlerXYZ (Example.xyzCloud true)).yAt i) ∧
        p.Data.values[3 * i + 2]? = some
          ((PointCloudGeometryHandlerXYZ.PointCloudGeometryHandlerXYZ (Example.xyzCloud true)).zAt i) :=
  ⟨by decide, by decide, by decide, by decide,
    (getGeometry_dense _ none (by decide) (by decide) (by decide)).1⟩

/-- C2: on the non-dense two-record cloud (1, 2, 1), (1, NaN, 2) the second record, whose y is
NaN, still contributes its x value: `getGeometry` emits the four floats 1, 2, 1, 1, which is
not a whole number of triples, whereas record-granular filtering gives the single triple
1, 2, 1. -/
theorem getGeometry_sparse_partial_record :
    ((PointCloudGeometryHandlerXYZ.PointCloudGeometryHandlerXYZ
        (Example.xyzCloud false)).getGeometry none).map (fun p => p.Data.values)
      = some [1065353216, 1073741824, 1065353216, 1065353216] ∧
    (PointCloudGeometryHandlerXYZ.PointCloudGeometryHandlerXYZ
        (Example.xyzCloud false)).finiteTriples
      = [1065353216, 1073741824, 1065353216] := by
  decide

/-! ## Capability of the colour handlers -/

/-- C3: an incapable RGB-field, RGBA-field, HSV-field, generic-scalar or label handler returns
the null result from `getColor`, whatever data bytes `d` its cloud holds; and an RGB-field
handler constructed over a schema with neither an "rgb" nor an "rgba" field is incapable and
its `getColor` returns null. -/
theorem getColor_incapable (rgb rgba : PointCloudColorHandler)
    (hsv : PointCloudColorHandlerHSVField) (gen : PointCloudColorHandlerGenericField)
    (lab : PointCloudColorHandlerLabelField) (lut : GlasbeyLUT) (cloud : PCLPointCloud2)
    (d : List UInt8)
    (hrgb : rgb.capable_ = false) (hrgba : rgba.capable_ = false) (hhsv : hsv.capable_ = false)
    (hgen : gen.capable_ = false) (hlab : lab.capable_ = false)
    (hno : ¬ hasField cloud "rgb" ∧ ¬ hasField cloud "rgba") :
    PointCloudColorHandlerRGBField.getColor (rgb.withData d) = none ∧
    PointCloudColorHandlerRGBAField.getColor (rgba.withData d) = none ∧
    PointCloudColorHandlerHSVField.getColor
      { hsv with toPointCloudColorHandler := hsv.toPointCloudColorHandler.withData d } = none ∧
    PointCloudColorHandlerGenericField.getColor
      { gen with toPointCloudColorHandler := gen.toPointCloudColorHandler.withData d } = none ∧
    PointCloudColorHandlerLabelField.getColor lut
      { lab with toPointCloudColorHandler := lab.toPointCloudColorHandler.withData d } = none ∧
    PointCloudColorHandlerRGBField.getColor rgb = none ∧
    PointCloudColorHandlerRGBAField.getColor rgba = none ∧
    PointCloudColorHandlerHSVField.getColor hsv = none ∧
    PointCloudColorHandlerGenericField.getColor gen = none ∧
    PointCloudColorHandlerLabelField.getColor lut lab = none ∧
    (PointCloudColorHandlerRGBField.PointCloudColorHandlerRGBField cloud).capable_ = false ∧
    PointCloudColorHandlerRGBField.getColor
      (PointCloudColorHandlerRGBField.PointCloudColorHandlerRGBField cloud) = none := by
  have e1 := (getFieldIndex_eq_neg_one cloud "rgb").2 hno.1
  have e2 := (getFieldIndex_eq_neg_one cloud "rgba").2 hno.2
  have hctor : (PointCloudColorHandlerRGBField.PointCloudColorHandlerRGBField cloud).capable_
      = false := by
    simp [PointCloudColorHandlerRGBField.PointCloudColorHandlerRGBField, e1, e2]
  refine ⟨?_, ?_, ?_, ?_, ?_, ?_, ?_, ?_, ?_, ?_, hctor, ?_⟩
  · simp [PointCloudColorHandlerRGBField.getColor, PointCloudColorHandler.withData, hrgb]
  · simp [PointCloudColorHandlerRGBAField.getColor, PointCloudColorHandler.withData, hrgba]
  · simp [PointCloudColorHandlerHSVField.getColor, PointCloudColorHandler.withData, hhsv]
  · simp [PointCloudColorHandlerGenericField.getColor, PointCloudColorHandler.withData, hgen]
  · simp [PointCloudColorHandlerLabelField.getColor, PointCloudColorHandler.withData, hlab]
  · simp [PointCloudColorHandlerRGBField.getColor, hrgb]
  · simp [PointCloudColorHandlerRGBAField.getColor, hrgba]
  · simp [PointCloudColorHandlerHSVField.getColor, hhsv]
  · simp [PointCloudColorHandlerGenericField.getColor, hgen]
  · simp [PointCloudColorHandlerLabelField.getColor, hlab]
  · simp [PointCloudColorHandlerRGBField.getColor, hctor]

/-- C3, on handlers constructed over the x, y, z cloud, which has none of the fields "rgb",
"rgba", "h", "intensity", "label". -/
theorem getColor_incapable_witness :
    (PointCloudColorHandlerRGBField.PointCloudColorHandlerRGBField
      (Example.xyzCloud true)).capable_ = false ∧
    (PointCloudColorHandlerHSVField.PointCloudColorHandlerHSVField
      (Example.xyzCloud true)).capable_ = false ∧
    ¬ hasField (Example.xyzCloud true) "rgb" ∧
    PointCloudColorHandlerRGBField.getColor
      ((PointCloudColorHandlerRGBField.PointCloudColorHandlerRGBField
        (Example.xyzCloud true)).withData [1, 2, 3]) = none ∧
    PointCloudColorHandlerHSVField.getColor
      (PointCloudColorHandlerHSVField.PointCloudColorHandlerHSVField (Example.xyzCloud true))
      = none ∧
    PointCloudColorHandlerLabelField.getColor []
      (PointCloudColorHandlerLabelField.PointCloudColorHandlerLabelField (Example.xyzCloud true)
        false) = none :=
  have w := getColor_incapable
    (PointCloudColorHandlerRGBField.PointCloudColorHandlerRGBField (Example.xyzCloud true))
    (PointCloudColorHandlerRGBAField.PointCloudColorHandlerRGBAField (Example.xyzCloud true))
    (PointCloudColorHandlerHSVField.PointCloudColorHandlerHSVField (Example.xyzCloud true))
    (PointCloudColorHandlerGenericField.PointCloudColorHandlerGenericField
      (Example.xyzCloud true) "intensity")
    (PointCloudColorHandlerLabelField.PointCloudColorHandlerLabelField (Example.xyzCloud true)
      false)
    [] (Example.xyzCloud true) [1, 2, 3]
    (by decide) (by decide) (by decide) (by decide) (by decide) (by decide)
  ⟨by decide, by decide, by decide, w.1, w.2.2.2.2.2.2.2.1, w.2.2.2.2.2.2.2.2.2.1⟩

/-- C4: after construction the capable flag of each colour handler is exactly the presence of
its required fields. RGB-field: "rgb" or "rgba", resolved to the "rgb" field whenever one
exists and to the "rgba" field only when no "rgb" field exists; RGBA-field: "rgba"; HSV-field:
"h", "s" and "v" together; generic-scalar: the field name supplied by the caller; label:
"label". -/
theorem capable_iff_fields (cloud : PCLPointCloud2) (field_name : String)
    (static_mapping : Bool) :
    ((PointCloudColorHandlerRGBField.PointCloudColorHandlerRGBField cloud).capable_ = true ↔
      hasField cloud "rgb" ∨ hasField cloud "rgba") ∧
    (hasField cloud "rgb" →
      (PointCloudColorHandlerRGBField.PointCloudColorHandlerRGBField cloud).field_idx_
        = getFieldIndex cloud "rgb" ∧
      (fieldAt cloud
        (PointCloudColorHandlerRGBField.PointCloudColorHandlerRGBField cloud).field_idx_).name
        = "rgb") ∧
    (¬ hasField cloud "rgb" → hasField cloud "rgba" →
      (PointCloudColorHandlerRGBField.PointCloudColorHandlerRGBField cloud).field_idx_
        = getFieldIndex cloud "rgba" ∧
      (fieldAt cloud
        (PointCloudColorHandlerRGBField.PointCloudColorHandlerRGBField cloud).field_idx_).name
        = "rgba") ∧
    ((PointCloudColorHandlerRGBAField.PointCloudColorHandlerRGBAField cloud).capable_ = true ↔
      hasField cloud "rgba") ∧
    ((PointCloudColorHandlerHSVField.PointCloudColorHandlerHSVField cloud).capable_ = true ↔
      hasField cloud "h" ∧ hasField cloud "s" ∧ hasField cloud "v") ∧
    ((PointCloudColorHandlerGenericField.PointCloudColorHandlerGenericField cloud
        field_name).capable_ = true ↔ hasField cloud field_name) ∧
    ((PointCloudColorHandlerLabelField.PointCloudColorHandlerLabelField cloud
        static_mapping).capable_ = true ↔ hasField cloud "label") := by
  refine ⟨?_, ?_, ?_, ?_, ?_, ?_, ?_⟩
  · unfold PointCloudColorHandlerRGBField.PointCloudColorHandlerRGBField
    by_cases h1 : getFieldIndex cloud "rgb" = -1
    · have n1 := (getFieldIndex_eq_neg_one cloud "rgb").1 h1
      simp [h1, n1, getFieldIndex_ne_neg_one]
    · have p1 := (getFieldIndex_ne_neg_one cloud "rgb").1 h1
      simp [h1, p1]
  · intro p1
    have h1 := (getFieldIndex_ne_neg_one cloud "rgb").2 p1
    have e : (PointCloudColorHandlerRGBField.PointCloudColorHandlerRGBField cloud).field_idx_
        = getFieldIndex cloud "rgb" := by
      simp [PointCloudColorHandlerRGBField.PointCloudColorHandlerRGBField, h1]
    exact ⟨e, by rw [e]; exact fieldAt_getFieldIndex cloud "rgb" p1⟩
  · intro n1 p2
    have h1 := (getFieldIndex_eq_neg_one cloud "rgb").2 n1
    have e : (PointCloudColorHandlerRGBField.PointCloudColorHandlerRGBField cloud).field_idx_
        = getFieldIndex cloud "rgba" := by
      simp [PointCloudColorHandlerRGBField.PointCloudColorHandlerRGBField, h1]
    exact ⟨e, by rw [e]; exact fieldAt_getFieldIndex cloud "rgba" p2⟩
  · unfold PointCloudColorHandlerRGBAField.PointCloudColorHandlerRGBAField
    by_cases h1 : getFieldIndex cloud "rgba" = -1
    · have n1 := (getFieldIndex_eq_neg_one cloud "rgba").1 h1
      simp [h1, n1]
    · have p1 := (getFieldIndex_ne_neg_one cloud "rgba").1 h1
      simp [h1, p1]
  · unfold PointCloudColorHandlerHSVField.PointCloudColorHandlerHSVField
    by_cases h1 : getFieldIndex cloud "h" = -1
    · have n1 := (getFieldIndex_eq_neg_one cloud "h").1 h1
      simp [h1, n1, PointCloudColorHandler.PointCloudColorHandler]
    · have p1 := (getFieldIndex_ne_neg_one cloud "h").1 h1
      by_cases h2 : getFieldIndex cloud "s" = -1
      · have n2 := (getFieldIndex_eq_neg_one cloud "s").1 h2
        simp [h1, h2, n2, PointCloudColorHandler.PointCloudColorHandler]
      · have p2 := (getFieldIndex_ne_neg_one cloud "s").1 h2
        by_cases h3 : getFieldIndex cloud "v" = -1
        · have n3 := (getFieldIndex_eq_neg_one cloud "v").1 h3
          simp [h1, h2, h3, n3, PointCloudColorHandler.PointCloudColorHandler]
        · have p3 := (getFieldIndex_ne_neg_one cloud "v").1 h3
          simp [h1, h2, h3, p1, p2, p3]
  · unfold PointCloudColorHandlerGenericField.PointCloudColorHandlerGenericField
    by_cases h1 : getFieldIndex cloud field_name = -1
    · have n1 := (getFieldIndex_eq_neg_one cloud field_name).1 h1
      simp [h1, n1]
    · have p1 := (getFieldIndex_ne_neg_one cloud field_name).1 h1
      simp [h1, p1]
  · unfold PointCloudColorHandlerLabelField.PointCloudColorHandlerLabelField
    by_cases h1 : getFieldIndex cloud "label" = -1
    · have n1 := (getFieldIndex_eq_neg_one cloud "label").1 h1
      simp [h1, n1]
    · have p1 := (getFieldIndex_ne_neg_one cloud "label").1 h1
      simp [h1, p1]

/-- C4, on a schema that lists "rgba" before "rgb": the RGB-field handler is capable and
resolves to the "rgb" field. -/
theorem capable_iff_fields_witness :
    hasField Example.bothCloud "rgb" ∧ hasField Example.bothCloud "rgba" ∧
    (PointCloudColorHandlerRGBField.PointCloudColorHandlerRGBField
      Example.bothCloud).capable_ = true ∧
    (fieldAt Example.bothCloud
      (PointCloudColorHandlerRGBField.PointCloudColorHandlerRGBField
        Example.bothCloud).field_idx_).name = "rgb" :=
  ⟨by decide, by decide,
    (capable_iff_fields Example.bothCloud "" false).1.2 (Or.inl (by decide)),
    ((capable_iff_fields Example.bothCloud "" false).2.1 (by decide)).2⟩

/-! ## The position gate -/

theorem positionFinite_eq (cloud : PCLPointCloud2) (o : Nat) :
    positionFinite cloud o =
      (F32.isfinite (readFloat cloud.data o) && F32.isfinite (readFloat cloud.data (o + 4)) &&
        F32.isfinite (readFloat cloud.data (o + 8))) := by
  simp only [positionFinite, Bool.not_or, Bool.not_not]

theorem positionGate_of_hasField (cloud : PCLPointCloud2) (cp : Nat) (h : hasField cloud "x") :
    positionGate cloud cp = positionFinite cloud
      ((fieldAt cloud (getFieldIndex cloud "x")).offset + cp * cloud.point_step) := by
  rw [positionFinite_eq]
  simp [positionGate, h]

theorem positionGate_of_not_hasField (cloud : PCLPointCloud2) (cp : Nat)
    (h : ¬ hasField cloud "x") : positionGate cloud cp = true := by
  simp [positionGate, h]

/-! ## Packed RGB and RGBA extraction -/

theorem rgb_gatedFold (cloud : PCLPointCloud2) (field_idx_ : Int) (hx : hasField cloud "x")
    (N : Nat) (c0 : List UInt8) (hc0 : c0.length = 3 * N) (n : Nat) (hn : n ≤ N) :
    ((List.range n).foldl (PointCloudColorHandlerRGBField.getColor.gatedStep cloud)
        { point_offset := (fieldAt cloud field_idx_).offset,
          x_point_offset := (fieldAt cloud (getFieldIndex cloud "x")).offset,
          j := 0, colors := c0 }).colors.take
      ((List.range n).foldl (PointCloudColorHandlerRGBField.getColor.gatedStep cloud)
        { point_offset := (fieldAt cloud field_idx_).offset,
          x_point_offset := (fieldAt cloud (getFieldIndex cloud "x")).offset,
          j := 0, colors := c0 }).j
      = ((List.range n).filter (positionGate cloud)).flatMap fun cp =>
          [(packedAt cloud field_idx_ cp).r, (packedAt cloud field_idx_ cp).g,
           (packedAt cloud field_idx_ cp).b] := by
  refine (fold_emit (PointCloudColorHandlerRGBField.getColor.gatedStep cloud)
    ColorLoop.point_offset ColorLoop.x_point_offset ColorLoop.j ColorLoop.colors
    (fun _ => True) (positionGate cloud)
    (fun cp => [(packedAt cloud field_idx_ cp).r, (packedAt cloud field_idx_ cp).g,
           (packedAt cloud field_idx_ cp).b]) 3 cloud.point_step
    (fieldAt cloud field_idx_).offset (fieldAt cloud (getFieldIndex cloud "x")).offset N
    (fun _ => rfl) ?_ _ rfl rfl trivial rfl hc0 n hn).2.2.2.2.2
  intro s n _ hpo hxo _ hj
  have hgate : positionGate cloud n = positionFinite cloud s.x_point_offset := by
    rw [positionGate_of_hasField cloud n hx, hxo]
  have hemit : packedAt cloud field_idx_ n = readRGB cloud.data s.point_offset := by
    rw [packedAt, hpo]
  have e1 : s.point_offset + cloud.point_step
      = (fieldAt cloud field_idx_).offset + (n + 1) * cloud.point_step := by rw [hpo]; ring
  have e2 : s.x_point_offset + cloud.point_step
      = (fieldAt cloud (getFieldIndex cloud "x")).offset + (n + 1) * cloud.point_step := by
    rw [hxo]; ring
  by_cases hg : positionFinite cloud s.x_point_offset = true
  · simp only [PointCloudColorHandlerRGBField.getColor.gatedStep, hgate, hemit, hg,
      Bool.not_true, Bool.false_eq_true, if_false, if_true, Nat.add_zero]
    exact ⟨e1, e2, trivial, by simp, trivial, take_set3 _ _ _ _ _ hj⟩
  · simp only [Bool.not_eq_true] at hg
    simp only [PointCloudColorHandlerRGBField.getColor.gatedStep, hgate, hemit, hg,
      Bool.not_false, if_true, Bool.false_eq_true, if_false, Nat.add_zero, List.append_nil]
    exact ⟨e1, e2, trivial, trivial, trivial, trivial⟩

theorem rgb_plainFold (cloud : PCLPointCloud2) (field_idx_ : Int) (hx : ¬ hasField cloud "x")
    (N : Nat) (c0 : List UInt8) (hc0 : c0.length = 3 * N) (n : Nat) (hn : n ≤ N) :
    ((List.range n).foldl (PointCloudColorHandlerRGBField.getColor.plainStep cloud)
        { point_offset := (fieldAt cloud field_idx_).offset, x_point_offset := 0,
          j := 0, colors := c0 }).colors.take
      ((List.range n).foldl (PointCloudColorHandlerRGBField.getColor.plainStep cloud)
        { point_offset := (fieldAt cloud field_idx_).offset, x_point_offset := 0,
          j := 0, colors := c0 }).j
      = ((List.range n).filter (positionGate cloud)).flatMap fun cp =>
          [(packedAt cloud field_idx_ cp).r, (packedAt cloud field_idx_ cp).g,
           (packedAt cloud field_idx_ cp).b] := by
  refine (fold_emit (PointCloudColorHandlerRGBField.getColor.plainStep cloud)
    ColorLoop.point_offset ColorLoop.point_offset ColorLoop.j ColorLoop.colors
    (fun _ => True) (positionGate cloud)
    (fun cp => [(packedAt cloud field_idx_ cp).r, (packedAt cloud field_idx_ cp).g,
           (packedAt cloud field_idx_ cp).b]) 3 cloud.point_step
    (fieldAt cloud field_idx_).offset (fieldAt cloud field_idx_).offset N
    (fun _ => rfl) ?_ _ rfl rfl trivial rfl hc0 n hn).2.2.2.2.2
  intro s n _ hpo _ _ hj
  have hgate : positionGate cloud n = true := positionGate_of_not_hasField cloud n hx
  have hemit : packedAt cloud field_idx_ n = readRGB cloud.data s.point_offset := by
    rw [packedAt, hpo]
  have e1 : s.point_offset + cloud.point_step
      = (fieldAt cloud field_idx_).offset + (n + 1) * cloud.point_step := by rw [hpo]; ring
  simp only [PointCloudColorHandlerRGBField.getColor.plainStep, hgate, hemit, if_true,
    Nat.add_zero]
  exact ⟨e1, e1, trivial, by simp, trivial, take_set3 _ _ _ _ _ hj⟩

theorem rgba_gatedFold (cloud : PCLPointCloud2) (field_idx_ : Int) (hx : hasField cloud "x")
    (N : Nat) (c0 : List UInt8) (hc0 : c0.length = 4 * N) (n : Nat) (hn : n ≤ N) :
    ((List.range n).foldl (PointCloudColorHandlerRGBAField.getColor.gatedStep cloud)
        { point_offset := (fieldAt cloud field_idx_).offset,
          x_point_offset := (fieldAt cloud (getFieldIndex cloud "x")).offset,
          j := 0, colors := c0 }).colors.take
      ((List.range n).foldl (PointCloudColorHandlerRGBAField.getColor.gatedStep cloud)
        { point_offset := (fieldAt cloud field_idx_).offset,
          x_point_offset := (fieldAt cloud (getFieldIndex cloud "x")).offset,
          j := 0, colors := c0 }).j
      = ((List.range n).filter (positionGate cloud)).flatMap fun cp =>
          [(packedAt cloud field_idx_ cp).r, (packedAt cloud field_idx_ cp).g,
           (packedAt cloud field_idx_ cp).b, (packedAt cloud field_idx_ cp).a] := by
  refine (fold_emit (PointCloudColorHandlerRGBAField.getColor.gatedStep cloud)
    ColorLoop.point_offset ColorLoop.x_point_offset ColorLoop.j ColorLoop.colors
    (fun _ => True) (positionGate cloud)
    (fun cp => [(packedAt cloud field_idx_ cp).r, (packedAt cloud field_idx_ cp).g,
           (packedAt cloud field_idx_ cp).b, (packedAt cloud field_idx_ cp).a]) 4
    cloud.point_step
    (fieldAt cloud field_idx_).offset (fieldAt cloud (getFieldIndex cloud "x")).offset N
    (fun _ => rfl) ?_ _ rfl rfl trivial rfl hc0 n hn).2.2.2.2.2
  intro s n _ hpo hxo _ hj
  have hgate : positionGate cloud n = positionFinite cloud s.x_point_offset := by
    rw [positionGate_of_hasField cloud n hx, hxo]
  have hemit : packedAt cloud field_idx_ n = readRGB cloud.data s.point_offset := by
    rw [packedAt, hpo]
  have e1 : s.point_offset + cloud.point_step
      = (fieldAt cloud field_idx_).offset + (n + 1) * cloud.point_step := by rw [hpo]; ring
  have e2 : s.x_point_offset + cloud.point_step
      = (fieldAt cloud (getFieldIndex cloud "x")).offset + (n + 1) * cloud.point_step := by
    rw [hxo]; ring
  by_cases hg : positionFinite cloud s.x_point_offset = true
  · simp only [PointCloudColorHandlerRGBAField.getColor.gatedStep, hgate, hemit, hg,
      Bool.not_true, Bool.false_eq_true, if_false, if_true, Nat.add_zero]
    exact ⟨e1, e2, trivial, by simp, trivial, take_set4 _ _ _ _ _ _ hj⟩
  · simp only [Bool.not_eq_true] at hg
    simp only [PointCloudColorHandlerRGBAField.getColor.gatedStep, hgate, hemit, hg,
      Bool.not_false, if_true, Bool.false_eq_true, if_false, Nat.add_zero, List.append_nil]
    exact ⟨e1, e2, trivial, trivial, trivial, trivial⟩

theorem rgba_plainFold (cloud : PCLPointCloud2) (field_idx_ : Int) (hx : ¬ hasField cloud "x")
    (N : Nat) (c0 : List UInt8) (hc0 : c0.length = 4 * N) (n : Nat) (hn : n ≤ N) :
    ((List.range n).foldl (PointCloudColorHandlerRGBAField.getColor.plainStep cloud)
        { point_offset := (fieldAt cloud field_idx_).offset, x_point_offset := 0,
          j := 0, colors := c0 }).colors.take
      ((List.range n).foldl (PointCloudColorHandlerRGBAField.getColor.plainStep cloud)
        { point_offset := (fieldAt cloud field_idx_).offset, x_point_offset := 0,
          j := 0, colors := c0 }).j
      = ((List.range n).filter (positionGate cloud)).flatMap fun cp =>
          [(packedAt cloud field_idx_ cp).r, (packedAt cloud field_idx_ cp).g,
           (packedAt cloud field_idx_ cp).b, (packedAt cloud field_idx_ cp).a] := by
  refine (fold_emit (PointCloudColorHandlerRGBAField.getColor.plainStep cloud)
    ColorLoop.point_offset ColorLoop.point_offset ColorLoop.j ColorLoop.colors
    (fun _ => True) (positionGate cloud)
    (fun cp => [(packedAt cloud field_idx_ cp).r, (packedAt cloud field_idx_ cp).g,
           (packedAt cloud field_idx_ cp).b, (packedAt cloud field_idx_ cp).a]) 4
    cloud.point_step
    (fieldAt cloud field_idx_).offset (fieldAt cloud field_idx_).offset N
    (fun _ => rfl) ?_ _ rfl rfl trivial rfl hc0 n hn).2.2.2.2.2
  intro s n _ hpo _ _ hj
  have hgate : positionGate cloud n = true := positionGate_of_not_hasField cloud n hx
  have hemit : packedAt cloud field_idx_ n = readRGB cloud.data s.point_offset := by
    rw [packedAt, hpo]
  have e1 : s.point_offset + cloud.point_step
      = (fieldAt cloud field_idx_).offset + (n + 1) * cloud.point_step := by rw [hpo]; ring
  simp only [PointCloudColorHandlerRGBAField.getColor.plainStep, hgate, hemit, if_true,
    Nat.add_zero]
  exact ⟨e1, e1, trivial, by simp, trivial, take_set4 _ _ _ _ _ _ hj⟩

theorem rgb_getColor_eq (h : PointCloudColorHandler) (cloud : PCLPointCloud2)
    (hcap : h.capable_ = true) (hcloud : h.cloud_ = some cloud) :
    PointCloudColorHandlerRGBField.getColor h = some { NumberOfComponents := 3, values :=
      ((passing cloud).flatMap fun cp =>
        [(packedAt cloud h.field_idx_ cp).r, (packedAt cloud h.field_idx_ cp).g,
         (packedAt cloud h.field_idx_ cp).b]) } := by
  have hlen : (List.replicate (cloud.width * cloud.height * 3) (0 : UInt8)).length
      = 3 * (cloud.width * cloud.height) := by simp [Nat.mul_comm]
  simp only [PointCloudColorHandlerRGBField.getColor, hcap, hcloud, passing]
  by_cases hx : hasField cloud "x"
  · have hi := (getFieldIndex_ne_neg_one cloud "x").2 hx
    have key := rgb_gatedFold cloud h.field_idx_ hx _ _ hlen _ (le_refl _)
    simp only [hi, ne_eq, not_false_eq_true, if_true, Bool.not_true, Bool.false_eq_true,
      if_false]
    split
    · simp [vtkUnsignedCharArray.SetArray, vtkUnsignedCharArray.SetNumberOfComponents,
        vtkUnsignedCharArray.SetNumberOfTuples, vtkUnsignedCharArray.New, key]
    · rename_i hj
      rw [not_not] at hj
      rw [hj] at key
      simp [vtkUnsignedCharArray.SetNumberOfComponents,
        vtkUnsignedCharArray.SetNumberOfTuples, vtkUnsignedCharArray.New, ← key]
  · have hi := (getFieldIndex_eq_neg_one cloud "x").2 hx
    have key := rgb_plainFold cloud h.field_idx_ hx _ _ hlen _ (le_refl _)
    simp only [hi, ne_eq, not_true_eq_false, if_false, Bool.not_true, Bool.false_eq_true]
    split
    · simp [vtkUnsignedCharArray.SetArray, vtkUnsignedCharArray.SetNumberOfComponents,
        vtkUnsignedCharArray.SetNumberOfTuples, vtkUnsignedCharArray.New, key]
    · rename_i hj
      rw [not_not] at hj
      rw [hj] at key
      simp [vtkUnsignedCharArray.SetNumberOfComponents,
        vtkUnsignedCharArray.SetNumberOfTuples, vtkUnsignedCharArray.New, ← key]

theorem rgba_getColor_eq (h : PointCloudColorHandler) (cloud : PCLPointCloud2)
    (hcap : h.capable_ = true) (hcloud : h.cloud_ = some cloud) :
    PointCloudColorHandlerRGBAField.getColor h = some { NumberOfComponents := 4, values :=
      ((passing cloud).flatMap fun cp =>
        [(packedAt cloud h.field_idx_ cp).r, (packedAt cloud h.field_idx_ cp).g,
         (packedAt cloud h.field_idx_ cp).b, (packedAt cloud h.field_idx_ cp).a]) } := by
  have hlen : (List.replicate (cloud.width * cloud.height * 4) (0 : UInt8)).length
      = 4 * (cloud.width * cloud.height) := by simp [Nat.mul_comm]
  simp only [PointCloudColorHandlerRGBAField.getColor, hcap, hcloud, passing]
  by_cases hx : hasField cloud "x"
  · have hi := (getFieldIndex_ne_neg_one cloud "x").2 hx
    have key := rgba_gatedFold cloud h.field_idx_ hx _ _ hlen _ (le_refl _)
    simp only [hi, ne_eq, not_false_eq_true, if_true, Bool.not_true, Bool.false_eq_true,
      if_false]
    split
    · simp [vtkUnsignedCharArray.SetArray, vtkUnsignedCharArray.SetNumberOfComponents,
        vtkUnsignedCharArray.SetNumberOfTuples, vtkUnsignedCharArray.New, key]
    · rename_i hj
      rw [not_not] at hj
      rw [hj] at key
      simp [vtkUnsignedCharArray.SetNumberOfComponents,
        vtkUnsignedCharArray.SetNumberOfTuples, vtkUnsignedCharArray.New, ← key]
  · have hi := (getFieldIndex_eq_neg_one cloud "x").2 hx
    have key := rgba_plainFold cloud h.field_idx_ hx _ _ hlen _ (le_refl _)
    simp only [hi, ne_eq, not_true_eq_false, if_false, Bool.not_true, Bool.false_eq_true]
    split
    · simp [vtkUnsignedCharArray.SetArray, vtkUnsignedCharArray.SetNumberOfComponents,
        vtkUnsignedCharArray.SetNumberOfTuples, vtkUnsignedCharArray.New, key]
    · rename_i hj
      rw [not_not] at hj
      rw [hj] at key
      simp [vtkUnsignedCharArray.SetNumberOfComponents,
        vtkUnsignedCharArray.SetNumberOfTuples, vtkUnsignedCharArray.New, ← key]

/-- C5: on a capable handler over a cloud within the reach of the `int` variables of the RGBA
loops (`fitsInt`), `getColor` of the RGB-field strategy returns the bytes r, g, b, and
`getColor` of the RGBA-field strategy the bytes r, g, b, a, of the 4 packed bytes at
`offset (colour field) + cp * point_step`, concatenated in record order over exactly the
records `cp` that pass the position gate; the gate passes every record when the schema has no
"x" field and otherwise passes `cp` iff the floats at `offset (x) + cp * point_step`, `+ 4` and
`+ 8` are all finite. The output holds channels times passing-records bytes. On such a cloud
the `int` variables `point_offset`, `x_point_offset` and `j` of the RGBA loops never exceed
`INT_MAX`, so the `int` arithmetic of the source does not wrap (the RGB loops count in
`std::size_t`). -/
theorem getColor_packed (h : PointCloudColorHandler) (cloud : PCLPointCloud2)
    (hcap : h.capable_ = true) (hcloud : h.cloud_ = some cloud) (hsize : fitsInt cloud) :
    (∃ a : vtkUnsignedCharArray, PointCloudColorHandlerRGBField.getColor h = some a ∧
      a.NumberOfComponents = 3 ∧
      a.values = ((passing cloud).flatMap fun cp =>
        [(packedAt cloud h.field_idx_ cp).r, (packedAt cloud h.field_idx_ cp).g,
         (packedAt cloud h.field_idx_ cp).b]) ∧
      a.values.length = 3 * (passing cloud).length) ∧
    (∃ a : vtkUnsignedCharArray, PointCloudColorHandlerRGBAField.getColor h = some a ∧
      a.NumberOfComponents = 4 ∧
      a.values = ((passing cloud).flatMap fun cp =>
        [(packedAt cloud h.field_idx_ cp).r, (packedAt cloud h.field_idx_ cp).g,
         (packedAt cloud h.field_idx_ cp).b, (packedAt cloud h.field_idx_ cp).a]) ∧
      a.values.length = 4 * (passing cloud).length) ∧
    (∀ cp, cp ∈ passing cloud ↔ cp < cloud.width * cloud.height ∧
      (hasField cloud "x" →
        F32.isfinite (readFloat cloud.data
          ((fieldAt cloud (getFieldIndex cloud "x")).offset + cp * cloud.point_step)) = true ∧
        F32.isfinite (readFloat cloud.data
          ((fieldAt cloud (getFieldIndex cloud "x")).offset + cp * cloud.point_step + 4)) = true ∧
        F32.isfinite (readFloat cloud.data
          ((fieldAt cloud (getFieldIndex cloud "x")).offset + cp * cloud.point_step + 8))
          = true)) ∧
    PointCloudColorHandlerRGBAField.getColor.noOverflow cloud h.field_idx_ := by
  refine ⟨⟨_, rgb_getColor_eq h cloud hcap hcloud, rfl, rfl, ?_⟩,
    ⟨_, rgba_getColor_eq h cloud hcap hcloud, rfl, rfl, ?_⟩, ?_,
    rgba_noOverflow cloud h.field_idx_ hsize⟩
  · exact length_filter_flatMap (positionGate cloud) (fun cp =>
      [(packedAt cloud h.field_idx_ cp).r, (packedAt cloud h.field_idx_ cp).g,
       (packedAt cloud h.field_idx_ cp).b]) 3 (fun _ => rfl) _
  · exact length_filter_flatMap (positionGate cloud) (fun cp =>
      [(packedAt cloud h.field_idx_ cp).r, (packedAt cloud h.field_idx_ cp).g,
       (packedAt cloud h.field_idx_ cp).b, (packedAt cloud h.field_idx_ cp).a]) 4
      (fun _ => rfl) _
  · intro cp
    by_cases hx : hasField cloud "x"
    · simp [passing, positionGate, hx, and_assoc]
    · simp [passing, positionGate, hx]

/-- C5, on the three-record cloud x, y, z, rgb whose second record has a NaN x: the colours of
the first and the third record are returned, three bytes each by the RGB strategy and four
bytes each by the RGBA strategy. -/
theorem getColor_packed_witness :
    (PointCloudColorHandlerRGBField.PointCloudColorHandlerRGBField Example.rgbCloud).capable_
      = true ∧
    (PointCloudColorHandlerRGBField.PointCloudColorHandlerRGBField Example.rgbCloud).cloud_
      = some Example.rgbCloud ∧
    fitsInt Example.rgbCloud ∧
    passing Example.rgbCloud = [0, 2] ∧
    PointCloudColorHandlerRGBField.getColor
      (PointCloudColorHandlerRGBField.PointCloudColorHandlerRGBField Example.rgbCloud)
      = some { NumberOfComponents := 3, values := [30, 20, 10, 110, 100, 90] } ∧
    PointCloudColorHandlerRGBAField.getColor
      (PointCloudColorHandlerRGBField.PointCloudColorHandlerRGBField Example.rgbCloud)
      = some { NumberOfComponents := 4, values := [30, 20, 10, 40, 110, 100, 90, 120] } ∧
    ∃ a : vtkUnsignedCharArray,
      PointCloudColorHandlerRGBAField.getColor
        (PointCloudColorHandlerRGBField.PointCloudColorHandlerRGBField Example.rgbCloud)
        = some a ∧
      a.values.length = 4 * (passing Example.rgbCloud).length :=
  have w := getColor_packed
    (PointCloudColorHandlerRGBField.PointCloudColorHandlerRGBField Example.rgbCloud)
    Example.rgbCloud (by decide) (by decide) (by decide)
  ⟨by decide, by decide, by decide, by decide, by decide, by decide,
    w.2.1.elim fun a ha => ⟨a, ha.1, ha.2.2.2⟩⟩

/-! ## The label set and the colormap -/

theorem mem_std_set_insert (x y : Nat) (l : List Nat) :
    y ∈ std_set_insert x l ↔ y = x ∨ y ∈ l := by
  induction l with
  | nil => simp [std_set_insert]
  | cons z zs ih =>
    unfold std_set_insert
    by_cases h1 : x < z
    · simp [h1]
    · by_cases h2 : x = z
      · subst h2; simp
      · simp only [h1, h2, if_false, List.mem_cons, ih]
        tauto

theorem sorted_std_set_insert (x : Nat) (l : List Nat) (h : l.Sorted (· < ·)) :
    (std_set_insert x l).Sorted (· < ·) := by
  induction l with
  | nil => simp [std_set_insert]
  | cons z zs ih =>
    have hz := List.sorted_cons.1 h
    unfold std_set_insert
    by_cases h1 : x < z
    · simp only [h1, if_true]
      refine List.sorted_cons.2 ⟨?_, h⟩
      intro b hb
      rcases List.mem_cons.1 hb with e | e
      · rw [e]; exact h1
      · exact lt_trans h1 (hz.1 b e)
    · by_cases h2 : x = z
      · rw [if_neg h1, if_pos h2]; exact h
      · rw [if_neg h1, if_neg h2]
        refine List.sorted_cons.2 ⟨?_, ih hz.2⟩
        intro b hb
        rcases (mem_std_set_insert x b zs).1 hb with e | e
        · rw [e]; omega
        · exact hz.1 b e

theorem find_assign_self (key : Nat) (value : RGB) (m : ColorMap) :
    ColorMap.find key (ColorMap.assign key value m) = some value := by
  induction m with
  | nil => simp [ColorMap.assign, ColorMap.find]
  | cons kv m ih =>
    unfold ColorMap.assign
    by_cases h1 : key < kv.1
    · simp [h1, ColorMap.find]
    · by_cases h2 : key = kv.1
      · simp [h2, ColorMap.find]
      · have h3 : ¬ kv.1 = key := fun e => h2 e.symm
        simp [h1, h2, h3, ColorMap.find, ih]

theorem find_assign_ne (key other : Nat) (value : RGB) (m : ColorMap) (h : other ≠ key) :
    ColorMap.find other (ColorMap.assign key value m) = ColorMap.find other m := by
  have h' : ¬ key = other := fun e => h e.symm
  induction m with
  | nil => simp [ColorMap.assign, ColorMap.find, h']
  | cons kv m ih =>
    unfold ColorMap.assign
    by_cases h1 : key < kv.1
    · simp [h1, ColorMap.find, h']
    · by_cases h2 : key = kv.1
      · have h3 : ¬ kv.1 = other := by rw [← h2]; exact h'
        rw [if_neg h1, if_pos h2]
        simp [ColorMap.find, h3, h']
      · rw [if_neg h1, if_neg h2]
        by_cases h4 : kv.1 = other
        · simp [ColorMap.find, h4]
        · simp [ColorMap.find, h4, ih]

theorem find_assignFold_of_not_mem (lut : GlasbeyLUT) (ls : List Nat) (c : Nat) (m : ColorMap)
    (label : Nat) (h : label ∉ ls) :
    ColorMap.find label
        (ls.foldl (PointCloudColorHandlerLabelField.getColor.assignStep lut) (c, m)).2
      = ColorMap.find label m := by
  induction ls generalizing c m with
  | nil => rfl
  | cons y ys ih =>
    have hy : label ≠ y := fun e => h (by simp [e])
    have hys : label ∉ ys := fun e => h (by simp [e])
    simp only [List.foldl_cons, PointCloudColorHandlerLabelField.getColor.assignStep]
    rw [ih _ _ hys, find_assign_ne _ _ _ _ hy]

theorem find_assignFold_of_mem (lut : GlasbeyLUT) (ls : List Nat) (c : Nat) (m : ColorMap)
    (label : Nat) (hs : ls.Sorted (· < ·)) (h : label ∈ ls) :
    ColorMap.find label
        (ls.foldl (PointCloudColorHandlerLabelField.getColor.assignStep lut) (c, m)).2
      = some (lut.at ((c + (ls.filter fun l => l < label).length) % lut.size)) := by
  induction ls generalizing c m with
  | nil => simp at h
  | cons y ys ih =>
    have hy := List.sorted_cons.1 hs
    simp only [List.foldl_cons, PointCloudColorHandlerLabelField.getColor.assignStep]
    rcases List.mem_cons.1 h with e | e
    · subst e
      have hnot : label ∉ ys := fun hm => lt_irrefl _ (hy.1 label hm)
      have hfil : ((label :: ys).filter fun l => l < label) = [] := by
        rw [List.filter_eq_nil_iff]
        intro a ha
        rcases List.mem_cons.1 ha with e | e
        · simp [e]
        · have := hy.1 a e
          simp; omega
      rw [find_assignFold_of_not_mem lut ys _ _ label hnot, find_assign_self, hfil]
      simp
    · have hlt : y < label := hy.1 label e
      rw [ih (c + 1) _ hy.2 e]
      simp only [List.filter_cons, hlt, decide_True, if_true, List.length_cons]
      congr 3
      omega

theorem collectFold (cloud : PCLPointCloud2) (field_idx_ : Int) (n : Nat) :
    ((List.range n).foldl (PointCloudColorHandlerLabelField.getColor.collectStep cloud
        (getFieldSize (fieldAt cloud field_idx_).datatype))
        ((fieldAt cloud field_idx_).offset, [])).1
      = (fieldAt cloud field_idx_).offset + n * cloud.point_step ∧
    ((List.range n).foldl (PointCloudColorHandlerLabelField.getColor.collectStep cloud
        (getFieldSize (fieldAt cloud field_idx_).datatype))
        ((fieldAt cloud field_idx_).offset, [])).2.Sorted (· < ·) ∧
    ∀ x, x ∈ ((List.range n).foldl (PointCloudColorHandlerLabelField.getColor.collectStep cloud
        (getFieldSize (fieldAt cloud field_idx_).datatype))
        ((fieldAt cloud field_idx_).offset, [])).2 ↔ ∃ i, i < n ∧ labelAt cloud field_idx_ i = x := by
  induction n with
  | zero => simp
  | succ n ih =>
    obtain ⟨h1, h2, h3⟩ := ih
    rw [List.range_succ, List.foldl_append]
    simp only [List.foldl_cons, List.foldl_nil,
      PointCloudColorHandlerLabelField.getColor.collectStep,
      PointCloudColorHandlerLabelField.getColor.readLabel]
    refine ⟨by rw [h1]; ring, sorted_std_set_insert _ _ h2, ?_⟩
    intro x
    rw [mem_std_set_insert, h3 x, h1]
    constructor
    · rintro (e | ⟨i, hi, e⟩)
      · exact ⟨n, by omega, by rw [e]; rfl⟩
      · exact ⟨i, by omega, e⟩
    · rintro ⟨i, hi, e⟩
      by_cases hin : i = n
      · left; rw [← e, hin]; rfl
      · right; exact ⟨i, by omega, e⟩

theorem mem_distinctLabels (cloud : PCLPointCloud2) (field_idx_ : Int) (x : Nat) :
    x ∈ distinctLabels cloud field_idx_ ↔
      ∃ i, i < cloud.width * cloud.height ∧ labelAt cloud field_idx_ i = x := by
  simp [distinctLabels]

theorem colormap_eq (lut : GlasbeyLUT) (cloud : PCLPointCloud2) (field_idx_ : Int) :
    PointCloudColorHandlerLabelField.getColor.colormap lut cloud field_idx_ false
      = (((distinctLabels cloud field_idx_).sort (· ≤ ·)).foldl
          (PointCloudColorHandlerLabelField.getColor.assignStep lut) (0, [])).2 := by
  obtain ⟨_, h2, h3⟩ := collectFold cloud field_idx_ (cloud.width * cloud.height)
  have hperm : ((List.range (cloud.width * cloud.height)).foldl
      (PointCloudColorHandlerLabelField.getColor.collectStep cloud
        (getFieldSize (fieldAt cloud field_idx_).datatype))
        ((fieldAt cloud field_idx_).offset, [])).2
      = (distinctLabels cloud field_idx_).sort (· ≤ ·) := by
    apply List.eq_of_perm_of_sorted (r := (· ≤ ·))
    · rw [List.perm_ext_iff_of_nodup h2.nodup (Finset.sort_nodup _ _)]
      intro x
      rw [h3 x, Finset.mem_sort, mem_distinctLabels]
    · exact h2.imp (fun hab => le_of_lt hab)
    · exact Finset.sort_sorted _ _
  simp only [PointCloudColorHandlerLabelField.getColor.colormap, Bool.not_false, if_true]
  rw [hperm]

theorem find_colormap_labelAt (lut : GlasbeyLUT) (cloud : PCLPointCloud2) (field_idx_ : Int) (i : Nat)
    (hi : i < cloud.width * cloud.height) :
    ColorMap.find (labelAt cloud field_idx_ i)
        (PointCloudColorHandlerLabelField.getColor.colormap lut cloud field_idx_ false)
      = some (lut.at (labelRank cloud field_idx_ (labelAt cloud field_idx_ i) % lut.size)) := by
  rw [colormap_eq]
  have hs : ((distinctLabels cloud field_idx_).sort (· ≤ ·)).Sorted (· < ·) :=
    Finset.sort_sorted_lt _
  have hm : labelAt cloud field_idx_ i ∈ (distinctLabels cloud field_idx_).sort (· ≤ ·) := by
    rw [Finset.mem_sort, mem_distinctLabels]; exact ⟨i, hi, rfl⟩
  rw [find_assignFold_of_mem lut _ 0 [] _ hs hm]
  have hcard : (((distinctLabels cloud field_idx_).sort (· ≤ ·)).filter
      fun l => l < labelAt cloud field_idx_ i).length
      = labelRank cloud field_idx_ (labelAt cloud field_idx_ i) := by
    unfold labelRank
    rw [← List.toFinset_card_of_nodup ((Finset.sort_nodup _ _).filter _)]
    congr 1
    ext x
    simp
  rw [hcard, Nat.zero_add]

theorem label_gatedFold (lut : GlasbeyLUT) (cloud : PCLPointCloud2) (field_idx_ : Int)
    (static_mapping_ : Bool) (cm0 : ColorMap) (hx : hasField cloud "x") (N : Nat)
    (hpick : ∀ cp, cp < N → (PointCloudColorHandlerLabelField.getColor.pick lut static_mapping_
      cm0 (labelAt cloud field_idx_ cp)).2 = cm0)
    (c0 : List UInt8) (hc0 : c0.length = 3 * N) (n : Nat) (hn : n ≤ N) :
    ((List.range n).foldl (PointCloudColorHandlerLabelField.getColor.gatedStep lut cloud
        (getFieldSize (fieldAt cloud field_idx_).datatype) static_mapping_)
        { point_offset := (fieldAt cloud field_idx_).offset,
          x_point_offset := (fieldAt cloud (getFieldIndex cloud "x")).offset,
          j := 0, colors := c0, colormap := cm0 }).colormap = cm0 ∧
    ((List.range n).foldl (PointCloudColorHandlerLabelField.getColor.gatedStep lut cloud
        (getFieldSize (fieldAt cloud field_idx_).datatype) static_mapping_)
        { point_offset := (fieldAt cloud field_idx_).offset,
          x_point_offset := (fieldAt cloud (getFieldIndex cloud "x")).offset,
          j := 0, colors := c0, colormap := cm0 }).colors.take
      ((List.range n).foldl (PointCloudColorHandlerLabelField.getColor.gatedStep lut cloud
        (getFieldSize (fieldAt cloud field_idx_).datatype) static_mapping_)
        { point_offset := (fieldAt cloud field_idx_).offset,
          x_point_offset := (fieldAt cloud (getFieldIndex cloud "x")).offset,
          j := 0, colors := c0, colormap := cm0 }).j
      = ((List.range n).filter (positionGate cloud)).flatMap fun cp =>
          [(PointCloudColorHandlerLabelField.getColor.pick lut static_mapping_ cm0
              (labelAt cloud field_idx_ cp)).1.r,
           (PointCloudColorHandlerLabelField.getColor.pick lut static_mapping_ cm0
              (labelAt cloud field_idx_ cp)).1.g,
           (PointCloudColorHandlerLabelField.getColor.pick lut static_mapping_ cm0
              (labelAt cloud field_idx_ cp)).1.b] := by
  have key := fold_emit (PointCloudColorHandlerLabelField.getColor.gatedStep lut cloud
        (getFieldSize (fieldAt cloud field_idx_).datatype) static_mapping_)
    LabelLoop.point_offset LabelLoop.x_point_offset LabelLoop.j LabelLoop.colors
    (fun s => s.colormap = cm0) (positionGate cloud)
    (fun cp => [(PointCloudColorHandlerLabelField.getColor.pick lut static_mapping_ cm0
              (labelAt cloud field_idx_ cp)).1.r,
           (PointCloudColorHandlerLabelField.getColor.pick lut static_mapping_ cm0
              (labelAt cloud field_idx_ cp)).1.g,
           (PointCloudColorHandlerLabelField.getColor.pick lut static_mapping_ cm0
              (labelAt cloud field_idx_ cp)).1.b]) 3 cloud.point_step
    (fieldAt cloud field_idx_).offset (fieldAt cloud (getFieldIndex cloud "x")).offset N
    (fun _ => rfl) ?_
    { point_offset := (fieldAt cloud field_idx_).offset,
      x_point_offset := (fieldAt cloud (getFieldIndex cloud "x")).offset,
      j := 0, colors := c0, colormap := cm0 } rfl rfl rfl rfl hc0 n hn
  · exact ⟨key.2.2.1, key.2.2.2.2.2⟩
  intro s n hnN hpo hxo hcm hj
  have hgate : positionGate cloud n = positionFinite cloud s.x_point_offset := by
    rw [positionGate_of_hasField cloud n hx, hxo]
  have hemit : PointCloudColorHandlerLabelField.getColor.readLabel cloud
      (getFieldSize (fieldAt cloud field_idx_).datatype) s.point_offset
      = labelAt cloud field_idx_ n := by
    rw [labelAt, hpo]; rfl
  have e1 : s.point_offset + cloud.point_step
      = (fieldAt cloud field_idx_).offset + (n + 1) * cloud.point_step := by rw [hpo]; ring
  have e2 : s.x_point_offset + cloud.point_step
      = (fieldAt cloud (getFieldIndex cloud "x")).offset + (n + 1) * cloud.point_step := by
    rw [hxo]; ring
  by_cases hg : positionFinite cloud s.x_point_offset = true
  · simp only [PointCloudColorHandlerLabelField.getColor.gatedStep, hgate, hemit, hg, hcm,
      Bool.not_true, Bool.false_eq_true, if_false, if_true]
    exact ⟨e1, e2, hpick n hnN, by simp, trivial, take_set3 _ _ _ _ _ hj⟩
  · simp only [Bool.not_eq_true] at hg
    simp only [PointCloudColorHandlerLabelField.getColor.gatedStep, hgate, hemit, hg,
      Bool.not_false, if_true, Bool.false_eq_true, if_false, Nat.add_zero, List.append_nil]
    exact ⟨e1, e2, hcm, trivial, trivial, trivial⟩

theorem label_plainFold (lut : GlasbeyLUT) (cloud : PCLPointCloud2) (field_idx_ : Int)
    (static_mapping_ : Bool) (cm0 : ColorMap) (hx : ¬ hasField cloud "x") (N : Nat)
    (hpick : ∀ cp, cp < N → (PointCloudColorHandlerLabelField.getColor.pick lut static_mapping_
      cm0 (labelAt cloud field_idx_ cp)).2 = cm0)
    (c0 : List UInt8) (hc0 : c0.length = 3 * N) (n : Nat) (hn : n ≤ N) :
    ((List.range n).foldl (PointCloudColorHandlerLabelField.getColor.plainStep lut cloud
        (getFieldSize (fieldAt cloud field_idx_).datatype) static_mapping_)
        { point_offset := (fieldAt cloud field_idx_).offset, x_point_offset := 0,
          j := 0, colors := c0, colormap := cm0 }).colormap = cm0 ∧
    ((List.range n).foldl (PointCloudColorHandlerLabelField.getColor.plainStep lut cloud
        (getFieldSize (fieldAt cloud field_idx_).datatype) static_mapping_)
        { point_offset := (fieldAt cloud field_idx_).offset, x_point_offset := 0,
          j := 0, colors := c0, colormap := cm0 }).colors.take
      ((List.range n).foldl (PointCloudColorHandlerLabelField.getColor.plainStep lut cloud
        (getFieldSize (fieldAt cloud field_idx_).datatype) static_mapping_)
        { point_offset := (fieldAt cloud field_idx_).offset, x_point_offset := 0,
          j := 0, colors := c0, colormap := cm0 }).j
      = ((List.range n).filter (positionGate cloud)).flatMap fun cp =>
          [(PointCloudColorHandlerLabelField.getColor.pick lut static_mapping_ cm0
              (labelAt cloud field_idx_ cp)).1.r,
           (PointCloudColorHandlerLabelField.getColor.pick lut static_mapping_ cm0
              (labelAt cloud field_idx_ cp)).1.g,
           (PointCloudColorHandlerLabelField.getColor.pick lut static_mapping_ cm0
              (labelAt cloud field_idx_ cp)).1.b] := by
  have key := fold_emit (PointCloudColorHandlerLabelField.getColor.plainStep lut cloud
        (getFieldSize (fieldAt cloud field_idx_).datatype) static_mapping_)
    LabelLoop.point_offset LabelLoop.point_offset LabelLoop.j LabelLoop.colors
    (fun s => s.colormap = cm0) (positionGate cloud)
    (fun cp => [(PointCloudColorHandlerLabelField.getColor.pick lut static_mapping_ cm0
              (labelAt cloud field_idx_ cp)).1.r,
           (PointCloudColorHandlerLabelField.getColor.pick lut static_mapping_ cm0
              (labelAt cloud field_idx_ cp)).1.g,
           (PointCloudColorHandlerLabelField.getColor.pick lut static_mapping_ cm0
              (labelAt cloud field_idx_ cp)).1.b]) 3 cloud.point_step
    (fieldAt cloud field_idx_).offset (fieldAt cloud field_idx_).offset N
    (fun _ => rfl) ?_
    { point_offset := (fieldAt cloud field_idx_).offset, x_point_offset := 0,
      j := 0, colors := c0, colormap := cm0 } rfl rfl rfl rfl hc0 n hn
  · exact ⟨key.2.2.1, key.2.2.2.2.2⟩
  intro s n hnN hpo _ hcm hj
  have hgate : positionGate cloud n = true := positionGate_of_not_hasField cloud n hx
  have hemit : PointCloudColorHandlerLabelField.getColor.readLabel cloud
      (getFieldSize (fieldAt cloud field_idx_).datatype) s.point_offset
      = labelAt cloud field_idx_ n := by
    rw [labelAt, hpo]; rfl
  have e1 : s.point_offset + cloud.point_step
      = (fieldAt cloud field_idx_).offset + (n + 1) * cloud.point_step := by rw [hpo]; ring
  simp only [PointCloudColorHandlerLabelField.getColor.plainStep, hgate, hemit, hcm, if_true]
  exact ⟨e1, e1, hpick n hnN, by simp, trivial, take_set3 _ _ _ _ _ hj⟩

theorem label_getColor_eq (lut : GlasbeyLUT) (h : PointCloudColorHandlerLabelField)
    (cloud : PCLPointCloud2) (hcap : h.capable_ = true) (hcloud : h.cloud_ = some cloud)
    (hpick : ∀ cp, cp < cloud.width * cloud.height →
      (PointCloudColorHandlerLabelField.getColor.pick lut h.static_mapping_
        (PointCloudColorHandlerLabelField.getColor.colormap lut cloud h.field_idx_
          h.static_mapping_) (labelAt cloud h.field_idx_ cp)).2
      = PointCloudColorHandlerLabelField.getColor.colormap lut cloud h.field_idx_
          h.static_mapping_) :
    PointCloudColorHandlerLabelField.getColor lut h = some { NumberOfComponents := 3, values :=
      ((passing cloud).flatMap fun cp =>
        [(PointCloudColorHandlerLabelField.getColor.pick lut h.static_mapping_
            (PointCloudColorHandlerLabelField.getColor.colormap lut cloud h.field_idx_
              h.static_mapping_) (labelAt cloud h.field_idx_ cp)).1.r,
         (PointCloudColorHandlerLabelField.getColor.pick lut h.static_mapping_
            (PointCloudColorHandlerLabelField.getColor.colormap lut cloud h.field_idx_
              h.static_mapping_) (labelAt cloud h.field_idx_ cp)).1.g,
         (PointCloudColorHandlerLabelField.getColor.pick lut h.static_mapping_
            (PointCloudColorHandlerLabelField.getColor.colormap lut cloud h.field_idx_
              h.static_mapping_) (labelAt cloud h.field_idx_ cp)).1.b]) } := by
  have hlen : (List.replicate (cloud.width * cloud.height * 3) (0 : UInt8)).length
      = 3 * (cloud.width * cloud.height) := by simp [Nat.mul_comm]
  simp only [PointCloudColorHandlerLabelField.getColor,
    PointCloudColorHandlerLabelField.getColor.loop, hcap, hcloud, passing]
  by_cases hx : hasField cloud "x"
  · have hi := (getFieldIndex_ne_neg_one cloud "x").2 hx
    have key := (label_gatedFold lut cloud h.field_idx_ h.static_mapping_ _ hx _ hpick _ hlen _
      (le_refl _)).2
    simp only [hi, ne_eq, not_false_eq_true, if_true, Bool.not_true, Bool.false_eq_true,
      if_false]
    split
    · simp [vtkUnsignedCharArray.SetArray, vtkUnsignedCharArray.SetNumberOfComponents,
        vtkUnsignedCharArray.SetNumberOfTuples, vtkUnsignedCharArray.New, key]
    · rename_i hj
      rw [not_not] at hj
      rw [hj] at key
      simp [vtkUnsignedCharArray.SetNumberOfComponents,
        vtkUnsignedCharArray.SetNumberOfTuples, vtkUnsignedCharArray.New, ← key]
  · have hi := (getFieldIndex_eq_neg_one cloud "x").2 hx
    have key := (label_plainFold lut cloud h.field_idx_ h.static_mapping_ _ hx _ hpick _ hlen _
      (le_refl _)).2
    simp only [hi, ne_eq, not_true_eq_false, if_false, Bool.not_true, Bool.false_eq_true]
    split
    · simp [vtkUnsignedCharArray.SetArray, vtkUnsignedCharArray.SetNumberOfComponents,
        vtkUnsignedCharArray.SetNumberOfTuples, vtkUnsignedCharArray.New, key]
    · rename_i hj
      rw [not_not] at hj
      rw [hj] at key
      simp [vtkUnsignedCharArray.SetNumberOfComponents,
        vtkUnsignedCharArray.SetNumberOfTuples, vtkUnsignedCharArray.New, ← key]

theorem label_static_eq (lut : GlasbeyLUT) (h : PointCloudColorHandlerLabelField)
    (cloud : PCLPointCloud2) (hcap : h.capable_ = true) (hcloud : h.cloud_ = some cloud)
    (hstatic : h.static_mapping_ = true) :
    PointCloudColorHandlerLabelField.getColor lut h = some { NumberOfComponents := 3, values :=
      ((passing cloud).flatMap fun cp =>
        [(lut.at (labelAt cloud h.field_idx_ cp % lut.size)).r,
         (lut.at (labelAt cloud h.field_idx_ cp % lut.size)).g,
         (lut.at (labelAt cloud h.field_idx_ cp % lut.size)).b]) } := by
  have heq := label_getColor_eq lut h cloud hcap hcloud (by
    intro cp _
    simp [PointCloudColorHandlerLabelField.getColor.pick, hstatic])
  simpa only [PointCloudColorHandlerLabelField.getColor.pick, hstatic, if_true] using heq

theorem label_static_index (lut : GlasbeyLUT) (h : PointCloudColorHandlerLabelField)
    (cloud : PCLPointCloud2) (hcap : h.capable_ = true) (hcloud : h.cloud_ = some cloud)
    (hstatic : h.static_mapping_ = true) (a : vtkUnsignedCharArray)
    (ha : PointCloudColorHandlerLabelField.getColor lut h = some a) (j cp : Nat)
    (hj : (passing cloud)[j]? = some cp) :
    a.values[3 * j]? = some (lut.at (labelAt cloud h.field_idx_ cp % lut.size)).r ∧
    a.values[3 * j + 1]? = some (lut.at (labelAt cloud h.field_idx_ cp % lut.size)).g ∧
    a.values[3 * j + 2]? = some (lut.at (labelAt cloud h.field_idx_ cp % lut.size)).b := by
  rw [label_static_eq lut h cloud hcap hcloud hstatic] at ha
  have ha' := Option.some.inj ha
  subst ha'
  have g := getElem?_flatMap_triple
    (fun cp => (lut.at (labelAt cloud h.field_idx_ cp % lut.size)).r)
    (fun cp => (lut.at (labelAt cloud h.field_idx_ cp % lut.size)).g)
    (fun cp => (lut.at (labelAt cloud h.field_idx_ cp % lut.size)).b) (passing cloud) j
  simpa [hj] using g

/-- C6: under static mapping a capable label handler over a cloud within the reach of the
`int` variables of the loops (`fitsInt`) returns, for the gate-passing records in record
order, the channels r, g, b of `palette[label mod paletteSize]` where `label` is the label of
the emitting record itself. The colour of a record is a function of its own label alone: in a
second such cloud with the same passing records, a record that keeps its label keeps its
colour, whatever happened to the labels of the other records. On such a cloud the `int`
variables `point_offset`, `x_point_offset` and `j` of the loops never exceed `INT_MAX`, so the
`int` arithmetic of the source does not wrap. -/
theorem getColor_label_static (lut : GlasbeyLUT) (h : PointCloudColorHandlerLabelField)
    (cloud : PCLPointCloud2) (hcap : h.capable_ = true) (hcloud : h.cloud_ = some cloud)
    (hstatic : h.static_mapping_ = true) (hsize : fitsInt cloud) :
    ∃ a : vtkUnsignedCharArray, PointCloudColorHandlerLabelField.getColor lut h = some a ∧
      a.NumberOfComponents = 3 ∧
      a.values = ((passing cloud).flatMap fun cp =>
        [(lut.at (labelAt cloud h.field_idx_ cp % lut.size)).r,
         (lut.at (labelAt cloud h.field_idx_ cp % lut.size)).g,
         (lut.at (labelAt cloud h.field_idx_ cp % lut.size)).b]) ∧
      (∀ j cp, (passing cloud)[j]? = some cp →
        a.values[3 * j]? = some (lut.at (labelAt cloud h.field_idx_ cp % lut.size)).r ∧
        a.values[3 * j + 1]? = some (lut.at (labelAt cloud h.field_idx_ cp % lut.size)).g ∧
        a.values[3 * j + 2]? = some (lut.at (labelAt cloud h.field_idx_ cp % lut.size)).b) ∧
      (∀ (h2 : PointCloudColorHandlerLabelField) (cloud2 : PCLPointCloud2)
        (a2 : vtkUnsignedCharArray), h2.capable_ = true → h2.cloud_ = some cloud2 →
        h2.static_mapping_ = true → fitsInt cloud2 → passing cloud2 = passing cloud →
        PointCloudColorHandlerLabelField.getColor lut h2 = some a2 →
        ∀ j cp, (passing cloud)[j]? = some cp →
          labelAt cloud2 h2.field_idx_ cp = labelAt cloud h.field_idx_ cp →
          a2.values[3 * j]? = a.values[3 * j]? ∧
          a2.values[3 * j + 1]? = a.values[3 * j + 1]? ∧
          a2.values[3 * j + 2]? = a.values[3 * j + 2]?) ∧
      PointCloudColorHandlerLabelField.getColor.noOverflow lut cloud h.field_idx_ true := by
  have heq := label_static_eq lut h cloud hcap hcloud hstatic
  refine ⟨_, heq, rfl, rfl, ?_, ?_, label_noOverflow lut cloud h.field_idx_ true hsize⟩
  · intro j cp hj
    exact label_static_index lut h cloud hcap hcloud hstatic _ heq j cp hj
  · intro h2 cloud2 a2 hcap2 hcloud2 hstatic2 _ hpass ha2 j cp hj hlab
    have g1 := label_static_index lut h cloud hcap hcloud hstatic _ heq j cp hj
    have g2 := label_static_index lut h2 cloud2 hcap2 hcloud2 hstatic2 a2 ha2 j cp
      (by rw [hpass]; exact hj)
    rw [hlab] at g2
    exact ⟨g2.1.trans g1.1.symm, g2.2.1.trans g1.2.1.symm, g2.2.2.trans g1.2.2.symm⟩

/-- C6, on the scenario cloud with static mapping and a palette of four colours: the labels
5, 1, 2 of the passing records 0, 1, 3 give `palette[1]`, `palette[1]`, `palette[2]`. -/
theorem getColor_label_static_witness :
    (PointCloudColorHandlerLabelField.PointCloudColorHandlerLabelField Example.labelCloud
      true).capable_ = true ∧
    fitsInt Example.labelCloud ∧
    PointCloudColorHandlerLabelField.getColor Example.palette
      (PointCloudColorHandlerLabelField.PointCloudColorHandlerLabelField Example.labelCloud true)
      = some { NumberOfComponents := 3, values := [6, 5, 4, 6, 5, 4, 9, 8, 7] } ∧
    ∃ a : vtkUnsignedCharArray,
      PointCloudColorHandlerLabelField.getColor Example.palette
        (PointCloudColorHandlerLabelField.PointCloudColorHandlerLabelField Example.labelCloud
          true) = some a ∧
      a.values = ((passing Example.labelCloud).flatMap fun cp =>
        [(GlasbeyLUT.at Example.palette
            (labelAt Example.labelCloud 3 cp % GlasbeyLUT.size Example.palette)).r,
         (GlasbeyLUT.at Example.palette
            (labelAt Example.labelCloud 3 cp % GlasbeyLUT.size Example.palette)).g,
         (GlasbeyLUT.at Example.palette
            (labelAt Example.labelCloud 3 cp % GlasbeyLUT.size Example.palette)).b]) :=
  ⟨by decide, by decide, by decide,
    (getColor_label_static Example.palette
      (PointCloudColorHandlerLabelField.PointCloudColorHandlerLabelField Example.labelCloud true)
      Example.labelCloud (by decide) (by decide) (by decide) (by decide)).elim
      fun a ha => ⟨a, ha.1, ha.2.2.1⟩⟩

theorem index_colormap (lut : GlasbeyLUT) (cloud : PCLPointCloud2) (field_idx_ : Int)
    (cp : Nat) (hcp : cp < cloud.width * cloud.height) :
    ColorMap.index (PointCloudColorHandlerLabelField.getColor.colormap lut cloud field_idx_ false)
        (labelAt cloud field_idx_ cp)
      = (lut.at (labelRank cloud field_idx_ (labelAt cloud field_idx_ cp) % lut.size),
         PointCloudColorHandlerLabelField.getColor.colormap lut cloud field_idx_ false) := by
  unfold ColorMap.index
  rw [find_colormap_labelAt lut cloud field_idx_ cp hcp]

/-- C10: on the one-record cloud h = 0, s = 0, v = 200 the HSV handler is capable, the record
passes the finiteness test and the conversion stores the gray triple (200, 200, 200) in the
block, but leaves the tuple count `j` at 0; `getColor` returns an array without any value
instead of (200, 200, 200). -/
theorem getColor_hsv_gray_not_emitted :
    (PointCloudColorHandlerHSVField.PointCloudColorHandlerHSVField Example.grayCloud).capable_
      = true ∧
    PointCloudColorHandlerHSVField.getColor.hsvFinite Example.grayCloud 0 = true ∧
    PointCloudColorHandlerHSVField.getColor.fill (readFloat Example.grayCloud.data 0)
        (readFloat Example.grayCloud.data 4) (readFloat Example.grayCloud.data 8) 0 [0, 0, 0]
      = (0, [200, 200, 200]) ∧
    PointCloudColorHandlerHSVField.getColor
        (PointCloudColorHandlerHSVField.PointCloudColorHandlerHSVField Example.grayCloud)
      = some { NumberOfComponents := 3, values := [] } := by
  decide

/-! ## Geometry extraction from a non-dense cloud -/

theorem getGeometry_sparseFold (h : PointCloudGeometryHandler) (d : vtkFloatArray) (n : Nat) :
    (List.range n).foldl (PointCloudGeometryHandler.getGeometry.sparseStep h) (0, d) =
      (n * h.cloud_.point_step,
        { d with values := d.values ++ (List.range n).flatMap h.finitePrefix }) := by
  induction n with
  | zero => simp
  | succ n ih =>
    rw [List.range_succ, List.foldl_append, ih]
    simp only [List.foldl_cons, List.foldl_nil, List.flatMap_append, List.flatMap_cons,
      List.flatMap_nil, List.append_nil, PointCloudGeometryHandler.getGeometry.sparseStep,
      PointCloudGeometryHandler.finitePrefix, vtkFloatArray.InsertNextValue]
    have ex : readFloat h.cloud_.data
        (n * h.cloud_.point_step + (fieldAt h.cloud_ h.field_x_idx_).offset) = h.xAt n := rfl
    have ey : readFloat h.cloud_.data
        (n * h.cloud_.point_step + (fieldAt h.cloud_ h.field_y_idx_).offset) = h.yAt n := rfl
    have ez : readFloat h.cloud_.data
        (n * h.cloud_.point_step + (fieldAt h.cloud_ h.field_z_idx_).offset) = h.zAt n := rfl
    rw [ex, ey, ez]
    cases hx : F32.isfinite (h.xAt n) <;> cases hy : F32.isfinite (h.yAt n) <;>
      cases hz : F32.isfinite (h.zAt n) <;>
      simp [List.takeWhile, hx, hy, hz, Nat.succ_mul]

theorem getGeometry_sparse_eq (h : PointCloudGeometryHandler) (points : Option vtkPoints)
    (hcap : h.capable_ = true) (hdense : h.cloud_.is_dense = false) :
    h.getGeometry points = some { Data := { NumberOfComponents := 3, values :=
      ((List.range h.recordCount).flatMap h.finitePrefix) } } := by
  simp only [PointCloudGeometryHandler.getGeometry, hcap, hdense, getGeometry_sparseFold]
  simp [vtkFloatArray.New, vtkFloatArray.SetNumberOfComponents,
    PointCloudGeometryHandler.recordCount]

/-- C20: on a capable handler over a non-dense cloud within the reach of the `int` offset of
the loop (`fitsInt`), `getGeometry` sets the float sequence that concatenates, over the records
in order, the longest prefix of `[x, y, z]` made of finite values: nothing when x is not
finite, `[x]` when x is finite and y is not, `[x, y]` when only z is not finite, all three
otherwise; the values are those at bytes `i * point_step + offset` of the x, y and z fields.
On such a cloud `point_offset` and the three indices computed from it never exceed `INT_MAX`,
so the `int` arithmetic of the source does not wrap. -/
theorem getGeometry_sparse (h : PointCloudGeometryHandler) (points : Option vtkPoints)
    (hcap : h.capable_ = true) (hdense : h.cloud_.is_dense = false)
    (hsize : fitsInt h.cloud_) :
    (∃ p : vtkPoints, h.getGeometry points = some p ∧
      p.Data.values = (List.range h.recordCount).flatMap h.finitePrefix) ∧
    (∀ i, h.finitePrefix i =
      if F32.isfinite (h.xAt i) = false then []
      else if F32.isfinite (h.yAt i) = false then [h.xAt i]
      else if F32.isfinite (h.zAt i) = false then [h.xAt i, h.yAt i]
      else [h.xAt i, h.yAt i, h.zAt i]) ∧
    PointCloudGeometryHandler.getGeometry.noOverflow h := by
  refine ⟨⟨_, getGeometry_sparse_eq h points hcap hdense, rfl⟩, ?_,
    getGeometry_noOverflow h hsize⟩
  intro i
  unfold PointCloudGeometryHandler.finitePrefix
  cases hx : F32.isfinite (h.xAt i) <;> cases hy : F32.isfinite (h.yAt i) <;>
    cases hz : F32.isfinite (h.zAt i) <;> simp [List.takeWhile, hx, hy, hz]

/-- C20, on the non-dense two-record cloud (1, 2, 1), (1, NaN, 2): the output is 1, 2, 1
followed by the x value 1 of the second record. -/
theorem getGeometry_sparse_witness :
    (PointCloudGeometryHandlerXYZ.PointCloudGeometryHandlerXYZ
      (Example.xyzCloud false)).capable_ = true ∧
    (PointCloudGeometryHandlerXYZ.PointCloudGeometryHandlerXYZ
      (Example.xyzCloud false)).cloud_.is_dense = false ∧
    fitsInt (PointCloudGeometryHandlerXYZ.PointCloudGeometryHandlerXYZ
      (Example.xyzCloud false)).cloud_ ∧
    (List.range (PointCloudGeometryHandlerXYZ.PointCloudGeometryHandlerXYZ
        (Example.xyzCloud false)).recordCount).flatMap
      (PointCloudGeometryHandlerXYZ.PointCloudGeometryHandlerXYZ
        (Example.xyzCloud false)).finitePrefix
      = [1065353216, 1073741824, 1065353216, 1065353216] ∧
    ∃ p : vtkPoints,
      (PointCloudGeometryHandlerXYZ.PointCloudGeometryHandlerXYZ
        (Example.xyzCloud false)).getGeometry none = some p ∧
      p.Data.values = (List.range (PointCloudGeometryHandlerXYZ.PointCloudGeometryHandlerXYZ
          (Example.xyzCloud false)).recordCount).flatMap
        (PointCloudGeometryHandlerXYZ.PointCloudGeometryHandlerXYZ
          (Example.xyzCloud false)).finitePrefix :=
  ⟨by decide, by decide, by decide, by decide,
    (getGeometry_sparse _ none (by decide) (by decide) (by decide)).1⟩

/-! ## Capability of the geometry handlers -/

theorem geometryCustom_spec (cloud : PCLPointCloud2) (xn yn zn : String) :
    ((PointCloudGeometryHandlerCustom.PointCloudGeometryHandlerCustom cloud xn yn zn).capable_
        = true ↔ hasField cloud xn ∧ hasField cloud yn ∧ hasField cloud zn) ∧
    (¬ hasField cloud xn →
      (PointCloudGeometryHandlerCustom.PointCloudGeometryHandlerCustom cloud xn yn zn).field_y_idx_
        = (PointCloudGeometryHandler.base cloud).field_y_idx_ ∧
      (PointCloudGeometryHandlerCustom.PointCloudGeometryHandlerCustom cloud xn yn zn).field_z_idx_
        = (PointCloudGeometryHandler.base cloud).field_z_idx_) ∧
    (¬ hasField cloud yn →
      (PointCloudGeometryHandlerCustom.PointCloudGeometryHandlerCustom cloud xn yn zn).field_z_idx_
        = (PointCloudGeometryHandler.base cloud).field_z_idx_) := by
  unfold PointCloudGeometryHandlerCustom.PointCloudGeometryHandlerCustom
  by_cases h1 : getFieldIndex cloud xn = -1
  · have n1 := (getFieldIndex_eq_neg_one cloud xn).1 h1
    simp [h1, n1, UNAVAILABLE, PointCloudGeometryHandler.base]
  · have p1 := (getFieldIndex_ne_neg_one cloud xn).1 h1
    by_cases h2 : getFieldIndex cloud yn = -1
    · have n2 := (getFieldIndex_eq_neg_one cloud yn).1 h2
      simp [h1, h2, p1, n2, UNAVAILABLE, PointCloudGeometryHandler.base]
    · have p2 := (getFieldIndex_ne_neg_one cloud yn).1 h2
      by_cases h3 : getFieldIndex cloud zn = -1
      · have n3 := (getFieldIndex_eq_neg_one cloud zn).1 h3
        simp [h1, h2, h3, p1, p2, n3, UNAVAILABLE, PointCloudGeometryHandler.base]
      · have p3 := (getFieldIndex_ne_neg_one cloud zn).1 h3
        simp [h1, h2, h3, p1, p2, p3, UNAVAILABLE]

theorem geometryXYZ_eq_custom (cloud : PCLPointCloud2) :
    PointCloudGeometryHandlerXYZ.PointCloudGeometryHandlerXYZ cloud
      = PointCloudGeometryHandlerCustom.PointCloudGeometryHandlerCustom cloud "x" "y" "z" := rfl

theorem geometrySurfaceNormal_eq_custom (cloud : PCLPointCloud2) :
    PointCloudGeometryHandlerSurfaceNormal.PointCloudGeometryHandlerSurfaceNormal cloud
      = PointCloudGeometryHandlerCustom.PointCloudGeometryHandlerCustom cloud
          "normal_x" "normal_y" "normal_z" := rfl

/-- C17: with a base constructor that leaves the handler incapable, each of the three geometry
constructors (XYZ over "x", "y", "z"; surface normal over "normal_x", "normal_y", "normal_z";
custom over three names given by the caller) yields a capable handler iff all three named
fields exist, and the lookups short-circuit: when the first field is missing the second and
third index keep the value the base constructor gave them, when the second is missing the
third does. -/
theorem geometry_capable_iff (cloud : PCLPointCloud2) (xn yn zn : String) :
    (((PointCloudGeometryHandlerXYZ.PointCloudGeometryHandlerXYZ cloud).capable_ = true ↔
        hasField cloud "x" ∧ hasField cloud "y" ∧ hasField cloud "z") ∧
      (¬ hasField cloud "x" →
        (PointCloudGeometryHandlerXYZ.PointCloudGeometryHandlerXYZ cloud).field_y_idx_
          = (PointCloudGeometryHandler.base cloud).field_y_idx_ ∧
        (PointCloudGeometryHandlerXYZ.PointCloudGeometryHandlerXYZ cloud).field_z_idx_
          = (PointCloudGeometryHandler.base cloud).field_z_idx_) ∧
      (¬ hasField cloud "y" →
        (PointCloudGeometryHandlerXYZ.PointCloudGeometryHandlerXYZ cloud).field_z_idx_
          = (PointCloudGeometryHandler.base cloud).field_z_idx_)) ∧
    (((PointCloudGeometryHandlerSurfaceNormal.PointCloudGeometryHandlerSurfaceNormal
          cloud).capable_ = true ↔
        hasField cloud "normal_x" ∧ hasField cloud "normal_y" ∧ hasField cloud "normal_z") ∧
      (¬ hasField cloud "normal_x" →
        (PointCloudGeometryHandlerSurfaceNormal.PointCloudGeometryHandlerSurfaceNormal
          cloud).field_y_idx_ = (PointCloudGeometryHandler.base cloud).field_y_idx_ ∧
        (PointCloudGeometryHandlerSurfaceNormal.PointCloudGeometryHandlerSurfaceNormal
          cloud).field_z_idx_ = (PointCloudGeometryHandler.base cloud).field_z_idx_) ∧
      (¬ hasField cloud "normal_y" →
        (PointCloudGeometryHandlerSurfaceNormal.PointCloudGeometryHandlerSurfaceNormal
          cloud).field_z_idx_ = (PointCloudGeometryHandler.base cloud).field_z_idx_)) ∧
    (((PointCloudGeometryHandlerCustom.PointCloudGeometryHandlerCustom cloud xn yn zn).capable_
        = true ↔ hasField cloud xn ∧ hasField cloud yn ∧ hasField cloud zn) ∧
      (¬ hasField cloud xn →
        (PointCloudGeometryHandlerCustom.PointCloudGeometryHandlerCustom cloud xn yn
          zn).field_y_idx_ = (PointCloudGeometryHandler.base cloud).field_y_idx_ ∧
        (PointCloudGeometryHandlerCustom.PointCloudGeometryHandlerCustom cloud xn yn
          zn).field_z_idx_ = (PointCloudGeometryHandler.base cloud).field_z_idx_) ∧
      (¬ hasField cloud yn →
        (PointCloudGeometryHandlerCustom.PointCloudGeometryHandlerCustom cloud xn yn
          zn).field_z_idx_ = (PointCloudGeometryHandler.base cloud).field_z_idx_)) := by
  refine ⟨?_, ?_, geometryCustom_spec cloud xn yn zn⟩
  · rw [geometryXYZ_eq_custom]; exact geometryCustom_spec cloud "x" "y" "z"
  · rw [geometrySurfaceNormal_eq_custom]
    exact geometryCustom_spec cloud "normal_x" "normal_y" "normal_z"

/-- C17, on a schema with "x" and "z" but no "y": the XYZ handler is incapable and its z index
was never resolved although a "z" field exists; over x, y, z the handler is capable. -/
theorem geometry_capable_iff_witness :
    ¬ hasField Example.xzCloud "y" ∧ hasField Example.xzCloud "z" ∧
    (PointCloudGeometryHandlerXYZ.PointCloudGeometryHandlerXYZ Example.xzCloud).capable_
      = false ∧
    (PointCloudGeometryHandlerXYZ.PointCloudGeometryHandlerXYZ Example.xzCloud).field_z_idx_
      = (PointCloudGeometryHandler.base Example.xzCloud).field_z_idx_ ∧
    (PointCloudGeometryHandlerXYZ.PointCloudGeometryHandlerXYZ (Example.xyzCloud true)).capable_
      = true :=
  ⟨by decide, by decide, by decide,
    (geometry_capable_iff Example.xzCloud "x" "y" "z").1.2.2 (by decide),
    (geometry_capable_iff (Example.xyzCloud true) "x" "y" "z").1.1.2
      ⟨by decide, by decide, by decide⟩⟩

/-- C18: on an incapable geometry handler `getGeometry` leaves the points object as it was
passed in (a null one stays null), whatever data bytes `d` the cloud holds. -/
theorem getGeometry_incapable (h : PointCloudGeometryHandler) (points : Option vtkPoints)
    (d : List UInt8) (hcap : h.capable_ = false) :
    h.getGeometry points = points ∧ (h.withData d).getGeometry points = points ∧
    h.getGeometry none = none := by
  simp [PointCloudGeometryHandler.getGeometry, PointCloudGeometryHandler.withData, hcap]

/-- C18, on the XYZ handler over the schema without "y", with a points object that already
holds data and with a null one. -/
theorem getGeometry_incapable_witness :
    (PointCloudGeometryHandlerXYZ.PointCloudGeometryHandlerXYZ Example.xzCloud).capable_
      = false ∧
    (PointCloudGeometryHandlerXYZ.PointCloudGeometryHandlerXYZ Example.xzCloud).getGeometry
        (some { Data := { NumberOfComponents := 3, values := [1, 2, 3] } })
      = some { Data := { NumberOfComponents := 3, values := [1, 2, 3] } } ∧
    ((PointCloudGeometryHandlerXYZ.PointCloudGeometryHandlerXYZ Example.xzCloud).withData
        [7, 7]).getGeometry none = none :=
  ⟨by decide,
    (getGeometry_incapable _ (some { Data := { NumberOfComponents := 3, values := [1, 2, 3] } })
      [7, 7] (by decide)).1,
    (getGeometry_incapable
      (PointCloudGeometryHandlerXYZ.PointCloudGeometryHandlerXYZ Example.xzCloud) none
      [7, 7] (by decide)).2.1⟩

/-! ## HSV conversion -/

theorem length_sectorTriple (h s v : F32) : (sectorTriple h s v).length = 3 := by
  unfold sectorTriple
  simp only []
  split_ifs <;> rfl

theorem fill_zero (h s v : F32) (j : Nat) (colors : List UInt8) (hz : F32.isZero s = true) :
    (PointCloudColorHandlerHSVField.getColor.fill h s v j colors).1 = j ∧
    (PointCloudColorHandlerHSVField.getColor.fill h s v j colors).2.length = colors.length ∧
    (PointCloudColorHandlerHSVField.getColor.fill h s v j colors).2.take (j * 3)
      = colors.take (j * 3) := by
  simp only [PointCloudColorHandlerHSVField.getColor.fill, hz, if_true, List.length_set]
  refine ⟨trivial, trivial, ?_⟩
  rw [take_set_of_le _ _ _ _ (le_refl _), take_set_of_le _ _ _ _ (by omega),
    take_set_of_le _ _ _ _ (by omega)]

theorem fill_nonzero (h s v : F32) (j : Nat) (colors : List UInt8)
    (hz : F32.isZero s = false) (hlen : j * 3 + 3 ≤ colors.length) :
    (PointCloudColorHandlerHSVField.getColor.fill h s v j colors).1 = j + 1 ∧
    (PointCloudColorHandlerHSVField.getColor.fill h s v j colors).2.length = colors.length ∧
    (PointCloudColorHandlerHSVField.getColor.fill h s v j colors).2.take ((j + 1) * 3)
      = colors.take (j * 3) ++ sectorTriple h s v := by
  have e : (j + 1) * 3 = j * 3 + 3 := by ring
  rw [e]
  simp only [PointCloudColorHandlerHSVField.getColor.fill, sectorTriple, hz,
    Bool.false_eq_true, if_false]
  split_ifs <;> exact ⟨trivial, by simp, take_set3 _ _ _ _ _ hlen⟩

theorem hsvFinite_eq (cloud : PCLPointCloud2) (field_idx_ : Int) (po n : Nat)
    (hpo : po = (fieldAt cloud field_idx_).offset + n * cloud.point_step) :
    PointCloudColorHandlerHSVField.getColor.hsvFinite cloud po =
      (F32.isfinite (hueAt cloud field_idx_ n) && F32.isfinite (saturationAt cloud field_idx_ n)
        && F32.isfinite (valueAt cloud field_idx_ n)) := by
  subst hpo
  simp only [PointCloudColorHandlerHSVField.getColor.hsvFinite, Bool.not_or, Bool.not_not,
    hueAt, saturationAt, valueAt]

theorem hsv_gatedFold (cloud : PCLPointCloud2) (field_idx_ : Int) (hx : hasField cloud "x")
    (N : Nat) (c0 : List UInt8) (hc0 : c0.length = 3 * N) (n : Nat) (hn : n ≤ N) :
    ((List.range n).foldl (PointCloudColorHandlerHSVField.getColor.gatedStep cloud)
        { point_offset := (fieldAt cloud field_idx_).offset,
          x_point_offset := (fieldAt cloud (getFieldIndex cloud "x")).offset,
          j := 0, colors := c0 }).colors.take
      (((List.range n).foldl (PointCloudColorHandlerHSVField.getColor.gatedStep cloud)
        { point_offset := (fieldAt cloud field_idx_).offset,
          x_point_offset := (fieldAt cloud (getFieldIndex cloud "x")).offset,
          j := 0, colors := c0 }).j * 3)
      = ((List.range n).filter fun cp =>
          hsvGate cloud field_idx_ cp && !F32.isZero (saturationAt cloud field_idx_ cp)).flatMap
        fun cp => sectorTriple (hueAt cloud field_idx_ cp) (saturationAt cloud field_idx_ cp)
          (valueAt cloud field_idx_ cp) := by
  refine (fold_emit (PointCloudColorHandlerHSVField.getColor.gatedStep cloud)
    ColorLoop.point_offset ColorLoop.x_point_offset (fun s => s.j * 3) ColorLoop.colors
    (fun _ => True)
    (fun cp => hsvGate cloud field_idx_ cp && !F32.isZero (saturationAt cloud field_idx_ cp))
    (fun cp => sectorTriple (hueAt cloud field_idx_ cp) (saturationAt cloud field_idx_ cp)
          (valueAt cloud field_idx_ cp)) 3 cloud.point_step
    (fieldAt cloud field_idx_).offset (fieldAt cloud (getFieldIndex cloud "x")).offset N
    (fun _ => length_sectorTriple _ _ _) ?_
    { point_offset := (fieldAt cloud field_idx_).offset,
      x_point_offset := (fieldAt cloud (getFieldIndex cloud "x")).offset,
      j := 0, colors := c0 } rfl rfl trivial rfl hc0 n hn).2.2.2.2.2
  intro s n _ hpo hxo _ hj
  have hP : positionGate cloud n = positionFinite cloud s.x_point_offset := by
    rw [positionGate_of_hasField cloud n hx, hxo]
  have hF := hsvFinite_eq cloud field_idx_ s.point_offset n hpo
  have hH : readFloat cloud.data s.point_offset = hueAt cloud field_idx_ n := by
    rw [hueAt, hpo]
  have hS : readFloat cloud.data (s.point_offset + 4) = saturationAt cloud field_idx_ n := by
    rw [saturationAt, hpo]
  have hV : readFloat cloud.data (s.point_offset + 2 * 4) = valueAt cloud field_idx_ n := by
    rw [valueAt, hpo]
  have e1 : s.point_offset + cloud.point_step
      = (fieldAt cloud field_idx_).offset + (n + 1) * cloud.point_step := by rw [hpo]; ring
  have e2 : s.x_point_offset + cloud.point_step
      = (fieldAt cloud (getFieldIndex cloud "x")).offset + (n + 1) * cloud.point_step := by
    rw [hxo]; ring
  simp only [PointCloudColorHandlerHSVField.getColor.gatedStep, hH, hS, hV, hsvGate, hP, ← hF]
  by_cases hf : PointCloudColorHandlerHSVField.getColor.hsvFinite cloud s.point_offset = true
  · by_cases hg : positionFinite cloud s.x_point_offset = true
    · cases hz : F32.isZero (saturationAt cloud field_idx_ n)
      · obtain ⟨f1, f2, f3⟩ := fill_nonzero (hueAt cloud field_idx_ n)
          (saturationAt cloud field_idx_ n) (valueAt cloud field_idx_ n) s.j s.colors hz hj
        simp only [hf, hg, Bool.not_true, Bool.false_eq_true, if_false, Bool.and_self,
          Bool.not_false, if_true]
        exact ⟨e1, e2, trivial, f2, by rw [f1]; ring, by rw [f1]; exact f3⟩
      · obtain ⟨f1, f2, f3⟩ := fill_zero (hueAt cloud field_idx_ n)
          (saturationAt cloud field_idx_ n) (valueAt cloud field_idx_ n) s.j s.colors hz
        simp only [hf, hg, Bool.not_true, Bool.false_eq_true, if_false, Bool.and_self,
          Bool.and_false, List.append_nil, Nat.add_zero]
        exact ⟨e1, e2, trivial, f2, by rw [f1], by rw [f1]; exact f3⟩
    · simp only [Bool.not_eq_true] at hg
      simp only [hf, hg, Bool.not_true, Bool.not_false, Bool.false_eq_true, if_false, if_true,
        Bool.and_false, Bool.false_and, List.append_nil, Nat.add_zero]
      exact ⟨e1, e2, trivial, trivial, trivial, trivial⟩
  · simp only [Bool.not_eq_true] at hf
    simp only [hf, Bool.not_false, if_true, Bool.false_and, Bool.false_eq_true, if_false,
      List.append_nil, Nat.add_zero]
    exact ⟨e1, e2, trivial, trivial, trivial, trivial⟩

theorem hsv_plainFold (cloud : PCLPointCloud2) (field_idx_ : Int) (hx : ¬ hasField cloud "x")
    (N : Nat) (c0 : List UInt8) (hc0 : c0.length = 3 * N) (n : Nat) (hn : n ≤ N) :
    ((List.range n).foldl (PointCloudColorHandlerHSVField.getColor.plainStep cloud)
        { point_offset := (fieldAt cloud field_idx_).offset, x_point_offset := 0,
          j := 0, colors := c0 }).colors.take
      (((List.range n).foldl (PointCloudColorHandlerHSVField.getColor.plainStep cloud)
        { point_offset := (fieldAt cloud field_idx_).offset, x_point_offset := 0,
          j := 0, colors := c0 }).j * 3)
      = ((List.range n).filter fun cp =>
          hsvGate cloud field_idx_ cp && !F32.isZero (saturationAt cloud field_idx_ cp)).flatMap
        fun cp => sectorTriple (hueAt cloud field_idx_ cp) (saturationAt cloud field_idx_ cp)
          (valueAt cloud field_idx_ cp) := by
  refine (fold_emit (PointCloudColorHandlerHSVField.getColor.plainStep cloud)
    ColorLoop.point_offset ColorLoop.point_offset (fun s => s.j * 3) ColorLoop.colors
    (fun _ => True)
    (fun cp => hsvGate cloud field_idx_ cp && !F32.isZero (saturationAt cloud field_idx_ cp))
    (fun cp => sectorTriple (hueAt cloud field_idx_ cp) (saturationAt cloud field_idx_ cp)
          (valueAt cloud field_idx_ cp)) 3 cloud.point_step
    (fieldAt cloud field_idx_).offset (fieldAt cloud field_idx_).offset N
    (fun _ => length_sectorTriple _ _ _) ?_
    { point_offset := (fieldAt cloud field_idx_).offset, x_point_offset := 0,
      j := 0, colors := c0 } rfl rfl trivial rfl hc0 n hn).2.2.2.2.2
  intro s n _ hpo _ _ hj
  have hP : positionGate cloud n = true := positionGate_of_not_hasField cloud n hx
  have hF := hsvFinite_eq cloud field_idx_ s.point_offset n hpo
  have hH : readFloat cloud.data s.point_offset = hueAt cloud field_idx_ n := by
    rw [hueAt, hpo]
  have hS : readFloat cloud.data (s.point_offset + 4) = saturationAt cloud field_idx_ n := by
    rw [saturationAt, hpo]
  have hV : readFloat cloud.data (s.point_offset + 2 * 4) = valueAt cloud field_idx_ n := by
    rw [valueAt, hpo]
  have e1 : s.point_offset + cloud.point_step
      = (fieldAt cloud field_idx_).offset + (n + 1) * cloud.point_step := by rw [hpo]; ring
  simp only [PointCloudColorHandlerHSVField.getColor.plainStep, hH, hS, hV, hsvGate, hP, ← hF,
    Bool.and_true]
  by_cases hf : PointCloudColorHandlerHSVField.getColor.hsvFinite cloud s.point_offset = true
  · cases hz : F32.isZero (saturationAt cloud field_idx_ n)
    · obtain ⟨f1, f2, f3⟩ := fill_nonzero (hueAt cloud field_idx_ n)
        (saturationAt cloud field_idx_ n) (valueAt cloud field_idx_ n) s.j s.colors hz hj
      simp only [hf, Bool.not_true, Bool.false_eq_true, if_false, Bool.and_self,
        Bool.not_false, if_true]
      exact ⟨e1, e1, trivial, f2, by rw [f1]; ring, by rw [f1]; exact f3⟩
    · obtain ⟨f1, f2, f3⟩ := fill_zero (hueAt cloud field_idx_ n)
        (saturationAt cloud field_idx_ n) (valueAt cloud field_idx_ n) s.j s.colors hz
      simp only [hf, Bool.not_true, Bool.false_eq_true, if_false, Bool.and_self,
        Bool.and_false, List.append_nil, Nat.add_zero]
      exact ⟨e1, e1, trivial, f2, by rw [f1], by rw [f1]; exact f3⟩
  · simp only [Bool.not_eq_true] at hf
    simp only [hf, Bool.not_false, if_true, Bool.false_and, Bool.false_eq_true, if_false,
      List.append_nil, Nat.add_zero]
    exact ⟨e1, e1, trivial, trivial, trivial, trivial⟩

theorem hsv_getColor_eq (h : PointCloudColorHandlerHSVField) (cloud : PCLPointCloud2)
    (hcap : h.capable_ = true) (hcloud : h.cloud_ = some cloud) :
    PointCloudColorHandlerHSVField.getColor h = some { NumberOfComponents := 3, values :=
      ((hsvEmitting cloud h.field_idx_).flatMap fun cp =>
        sectorTriple (hueAt cloud h.field_idx_ cp) (saturationAt cloud h.field_idx_ cp)
          (valueAt cloud h.field_idx_ cp)) } := by
  have hlen : (List.replicate (cloud.width * cloud.height * 3) (0 : UInt8)).length
      = 3 * (cloud.width * cloud.height) := by simp [Nat.mul_comm]
  simp only [PointCloudColorHandlerHSVField.getColor, hcap, hcloud, hsvEmitting]
  by_cases hx : hasField cloud "x"
  · have hi := (getFieldIndex_ne_neg_one cloud "x").2 hx
    have key := hsv_gatedFold cloud h.field_idx_ hx _ _ hlen _ (le_refl _)
    simp only [hi, ne_eq, not_false_eq_true, if_true, Bool.not_true, Bool.false_eq_true,
      if_false]
    simp only [vtkUnsignedCharArray.SetArray, vtkUnsignedCharArray.SetNumberOfComponents,
      vtkUnsignedCharArray.SetNumberOfTuples, vtkUnsignedCharArray.New]
    rw [Nat.mul_comm 3, key]
  · have hi := (getFieldIndex_eq_neg_one cloud "x").2 hx
    have key := hsv_plainFold cloud h.field_idx_ hx _ _ hlen _ (le_refl _)
    simp only [hi, ne_eq, not_true_eq_false, if_false, Bool.not_true, Bool.false_eq_true]
    simp only [vtkUnsignedCharArray.SetArray, vtkUnsignedCharArray.SetNumberOfComponents,
      vtkUnsignedCharArray.SetNumberOfTuples, vtkUnsignedCharArray.New]
    rw [Nat.mul_comm 3, key]

theorem sectorTriple_default (h s v : F32)
    (hi : F32.toInt (F32.floor (F32.div h (F32.ofInt 60))) < 0 ∨
      4 < F32.toInt (F32.floor (F32.div h (F32.ofInt 60)))) :
    sectorTriple h s v =
      [F32.toUChar v, F32.toUChar (F32.mul v (F32.sub (F32.ofInt 1) s)),
       F32.toUChar (F32.mul v (F32.sub (F32.ofInt 1) (F32.mul s
        (F32.sub (F32.div h (F32.ofInt 60))
          (F32.ofInt (F32.toInt (F32.floor (F32.div h (F32.ofInt 60)))))))))] := by
  simp only [sectorTriple]
  rw [if_neg (by omega), if_neg (by omega), if_neg (by omega), if_neg (by omega),
    if_neg (by omega)]

/-- C11: on a capable HSV handler over a cloud within the reach of the `int` variables of the
loops (`fitsInt`), the output is the concatenation, in record order, of the sector-table
triples of exactly the records that pass the gates (h, s, v finite, position gate) and have a
saturation other than zero; the triple of a record is `sectorTriple h s v`: (v, t, p),
(q, v, p), (p, v, t), (p, q, v), (t, p, v) for sector 0 to 4 and (v, p, q) for every other
sector, negative ones included. The sector `static_cast<int> (std::floor (a))` is the floor of
the value of `a = h / 60` (the integer `i` with `i ≤ a < i + 1`) for every finite `a` of
magnitude below `2^31`, and a channel with a value in `[0, 256)` is narrowed to its integer
part: truncated, not rounded. On such a cloud the `int` variables `point_offset`,
`x_point_offset`, `j` and `idx = j * 3` of the loops never exceed `INT_MAX`, so the `int`
arithmetic of the source does not wrap. -/
theorem getColor_hsv_sector (h : PointCloudColorHandlerHSVField) (cloud : PCLPointCloud2)
    (hcap : h.capable_ = true) (hcloud : h.cloud_ = some cloud) (hsize : fitsInt cloud) :
    (∃ a : vtkUnsignedCharArray, PointCloudColorHandlerHSVField.getColor h = some a ∧
      a.NumberOfComponents = 3 ∧
      a.values = ((hsvEmitting cloud h.field_idx_).flatMap fun cp =>
        sectorTriple (hueAt cloud h.field_idx_ cp) (saturationAt cloud h.field_idx_ cp)
          (valueAt cloud h.field_idx_ cp))) ∧
    (∀ cp, cp ∈ hsvEmitting cloud h.field_idx_ ↔
      cp < cloud.width * cloud.height ∧ hsvGate cloud h.field_idx_ cp = true ∧
        F32.isZero (saturationAt cloud h.field_idx_ cp) = false) ∧
    (∀ a : F32, F32.isfinite a = true → F32.num a < 2147483648 * F32.den a →
      F32.toInt (F32.floor a) = ⌊F32.toRat a⌋) ∧
    (∀ hue s v : F32,
      (F32.toInt (F32.floor (F32.div hue (F32.ofInt 60))) < 0 ∨
        4 < F32.toInt (F32.floor (F32.div hue (F32.ofInt 60)))) →
      sectorTriple hue s v =
        [F32.toUChar v, F32.toUChar (F32.mul v (F32.sub (F32.ofInt 1) s)),
         F32.toUChar (F32.mul v (F32.sub (F32.ofInt 1) (F32.mul s
          (F32.sub (F32.div hue (F32.ofInt 60))
            (F32.ofInt (F32.toInt (F32.floor (F32.div hue (F32.ofInt 60)))))))))]) ∧
    (∀ x : F32, F32.isfinite x = true → F32.sign x = false → F32.num x < 256 * F32.den x →
      ((F32.toUChar x).toNat : Int) = ⌊F32.toRat x⌋) ∧
    PointCloudColorHandlerHSVField.getColor.noOverflow cloud h.field_idx_ := by
  refine ⟨⟨_, hsv_getColor_eq h cloud hcap hcloud, rfl, rfl⟩, ?_, F32.floor_spec,
    sectorTriple_default, F32.toUChar_spec, hsv_noOverflow cloud h.field_idx_ hsize⟩
  intro cp
  simp [hsvEmitting]

set_option maxRecDepth 100000 in
/-- C11, on the eleven-record cloud `hueCloud`: (0, 1, 255) gives (255, 0, 0) and (120, 1, 255)
gives (0, 255, 0); (30, 0.5, 200), inside sector 0, gives (200, 150, 100); the hue -30 has
sector -1 and takes the default triple (255, 0, 127), where the channel 127.5 is truncated to
127; the hues 90, 210, 270, 330, 390 give the triples of sectors 1, 3, 4 and twice the default;
the last two records involve inexact quotients and products. The floor of 2.7 is 2 and that of
-2.7 is -3; the products, the quotient and the difference given are correctly rounded (both
products are ties, resolved to the even significand, once upwards and once downwards). -/
theorem getColor_hsv_sector_witness :
    (PointCloudColorHandlerHSVField.PointCloudColorHandlerHSVField Example.hueCloud).capable_
      = true ∧
    (PointCloudColorHandlerHSVField.PointCloudColorHandlerHSVField Example.hueCloud).cloud_
      = some Example.hueCloud ∧
    fitsInt Example.hueCloud ∧
    hsvEmitting Example.hueCloud 0 = [0, 1, 2, 3, 4, 5, 6, 7, 8, 9, 10] ∧
    (List.range 11).map (fun cp => F32.toInt (F32.floor
        (F32.div (hueAt Example.hueCloud 0 cp) (F32.ofInt 60))))
      = [0, 2, 0, -1, 1, 3, 4, 5, 6, 1, 5] ∧
    PointCloudColorHandlerHSVField.getColor
      (PointCloudColorHandlerHSVField.PointCloudColorHandlerHSVField Example.hueCloud)
      = some { NumberOfComponents := 3, values :=
          [255, 0, 0, 0, 255, 0, 200, 150, 100, 255, 0, 127, 127, 255, 0, 0, 127, 255,
           127, 0, 255, 255, 0, 127, 255, 0, 127, 160, 200, 140, 250, 25, 25] } ∧
    F32.toInt (F32.floor 1076677837) = 2 ∧ F32.toInt (F32.floor 3224161485) = -3 ∧
    F32.toUChar 1124007936 = 127 ∧
    F32.mul 1065353217 1069547520 = 1069547522 ∧
    F32.mul 1065353219 1069547520 = 1069547524 ∧
    F32.div 1120403456 1114636288 = 1070945621 ∧
    F32.sub 1065353216 1050253722 = 1060320051 ∧
    ∃ a : vtkUnsignedCharArray,
      PointCloudColorHandlerHSVField.getColor
        (PointCloudColorHandlerHSVField.PointCloudColorHandlerHSVField Example.hueCloud)
        = some a ∧
      a.values = ((hsvEmitting Example.hueCloud 0).flatMap fun cp =>
        sectorTriple (hueAt Example.hueCloud 0 cp) (saturationAt Example.hueCloud 0 cp)
          (valueAt Example.hueCloud 0 cp)) :=
  ⟨by decide, by decide, by decide, by decide, by decide, by decide, by decide, by decide,
    by decide, by decide, by decide, by decide, by decide,
    (getColor_hsv_sector
      (PointCloudColorHandlerHSVField.PointCloudColorHandlerHSVField Example.hueCloud)
      Example.hueCloud (by decide) (by decide) (by decide)).1.elim
      fun a ha => ⟨a, ha.1, ha.2.2⟩⟩

/-! ## Generic scalar extraction -/

/-- C12: on the cloud x, y, z, intensity with records (1, 2, 1; NaN) and (1, 1, 1; 2) both
records pass the position gate and the generic handler over "intensity" emits both field
values, the NaN included (2143289344 is the bit pattern of the NaN, 1073741824 that of 2.0);
over a cloud without an "x" field the same two intensities give the single value 2.0. -/
theorem getColor_generic_emits_nan :
    (PointCloudColorHandlerGenericField.PointCloudColorHandlerGenericField
      Example.intensityCloud "intensity").capable_ = true ∧
    passing Example.intensityCloud = [0, 1] ∧
    F32.isfinite 2143289344 = false ∧
    PointCloudColorHandlerGenericField.getColor
        (PointCloudColorHandlerGenericField.PointCloudColorHandlerGenericField
          Example.intensityCloud "intensity")
      = some { NumberOfComponents := 1, values := [2143289344, 1073741824] } ∧
    PointCloudColorHandlerGenericField.getColor
        (PointCloudColorHandlerGenericField.PointCloudColorHandlerGenericField
          Example.intensityOnlyCloud "intensity")
      = some { NumberOfComponents := 1, values := [1073741824] } := by
  decide

/-! ## Fixed and random colours -/

theorem constantFold (a b c : UInt8) (step : List UInt8 → Nat → List UInt8)
    (hstep : ∀ colors cp, step colors cp
      = ((colors.set (cp * 3 + 0) a).set (cp * 3 + 1) b).set (cp * 3 + 2) c)
    (N : Nat) (c0 : List UInt8) (hc0 : c0.length = N * 3) (n : Nat) (hn : n ≤ N) :
    ((List.range n).foldl step c0).length = N * 3 ∧
    ((List.range n).foldl step c0).take (n * 3) = (List.range n).flatMap fun _ => [a, b, c] := by
  induction n with
  | zero => simp [hc0]
  | succ n ih =>
    obtain ⟨h1, h2⟩ := ih (by omega)
    rw [List.range_succ, List.foldl_append]
    simp only [List.foldl_cons, List.foldl_nil, hstep, List.length_set, List.flatMap_append,
      List.flatMap_cons, List.flatMap_nil, List.append_nil, Nat.add_zero]
    refine ⟨h1, ?_⟩
    have e : (n + 1) * 3 = n * 3 + 3 := by ring
    rw [e, take_set3 _ _ _ _ _ (by omega), h2]

theorem custom_getColor_eq (h : PointCloudColorHandlerCustom) (cloud : PCLPointCloud2)
    (hcap : h.capable_ = true) (hcloud : h.cloud_ = some cloud) :
    PointCloudColorHandlerCustom.getColor h = some { NumberOfComponents := 3, values :=
      ((List.range (cloud.width * cloud.height)).flatMap fun _ =>
        [F64.toUChar h.r_, F64.toUChar h.g_, F64.toUChar h.b_]) } := by
  obtain ⟨k1, k2⟩ := constantFold (F64.toUChar h.r_) (F64.toUChar h.g_) (F64.toUChar h.b_)
    (PointCloudColorHandlerCustom.getColor.step h.r_ h.g_ h.b_) (fun _ _ => rfl)
    (cloud.width * cloud.height) (List.replicate (cloud.width * cloud.height * 3) 0)
    (by simp) (cloud.width * cloud.height) (le_refl _)
  simp only [PointCloudColorHandlerCustom.getColor, hcap, hcloud, Bool.not_true,
    Bool.false_eq_true, if_false, vtkUnsignedCharArray.SetArray,
    vtkUnsignedCharArray.SetNumberOfComponents, vtkUnsignedCharArray.SetNumberOfTuples,
    vtkUnsignedCharArray.New]
  rw [Nat.mul_comm 3, k2]

theorem random_getColor_eq (rgb : F64 × F64 × F64) (h : PointCloudColorHandler)
    (cloud : PCLPointCloud2) (hcap : h.capable_ = true) (hcloud : h.cloud_ = some cloud) :
    PointCloudColorHandlerRandom.getColor rgb h = some { NumberOfComponents := 3, values :=
      ((List.range (cloud.width * cloud.height)).flatMap fun _ =>
        [longToUChar (pcl_lrint (F64.mul rgb.1 (F64.ofInt 255))),
         longToUChar (pcl_lrint (F64.mul rgb.2.1 (F64.ofInt 255))),
         longToUChar (pcl_lrint (F64.mul rgb.2.2 (F64.ofInt 255)))]) } := by
  obtain ⟨k1, k2⟩ := constantFold (longToUChar (pcl_lrint (F64.mul rgb.1 (F64.ofInt 255))))
    (longToUChar (pcl_lrint (F64.mul rgb.2.1 (F64.ofInt 255))))
    (longToUChar (pcl_lrint (F64.mul rgb.2.2 (F64.ofInt 255))))
    (PointCloudColorHandlerRandom.getColor.step (pcl_lrint (F64.mul rgb.1 (F64.ofInt 255)))
      (pcl_lrint (F64.mul rgb.2.1 (F64.ofInt 255))) (pcl_lrint (F64.mul rgb.2.2 (F64.ofInt 255))))
    (fun _ _ => rfl)
    (cloud.width * cloud.height) (List.replicate (cloud.width * cloud.height * 3) 0)
    (by simp) (cloud.width * cloud.height) (le_refl _)
  simp only [PointCloudColorHandlerRandom.getColor, hcap, hcloud, Bool.not_true,
    Bool.false_eq_true, if_false, vtkUnsignedCharArray.SetArray,
    vtkUnsignedCharArray.SetNumberOfComponents, vtkUnsignedCharArray.SetNumberOfTuples,
    vtkUnsignedCharArray.New]
  rw [Nat.mul_comm 3, k2]

/-- C13: a capable Fixed handler over a present cloud returns one triple per record and every
triple is the same: the constructor colours (r, g, b), each narrowed to an 8-bit unsigned
value; the result is the same whatever data bytes `d` the cloud holds. -/
theorem getColor_custom (h : PointCloudColorHandlerCustom) (cloud : PCLPointCloud2)
    (d : List UInt8) (hcap : h.capable_ = true) (hcloud : h.cloud_ = some cloud) :
    ∃ a : vtkUnsignedCharArray, PointCloudColorHandlerCustom.getColor h = some a ∧
      a.NumberOfComponents = 3 ∧
      a.values = ((List.range (cloud.width * cloud.height)).flatMap fun _ =>
        [F64.toUChar h.r_, F64.toUChar h.g_, F64.toUChar h.b_]) ∧
      (∀ i, i < cloud.width * cloud.height →
        a.values[3 * i]? = some (F64.toUChar h.r_) ∧
        a.values[3 * i + 1]? = some (F64.toUChar h.g_) ∧
        a.values[3 * i + 2]? = some (F64.toUChar h.b_)) ∧
      PointCloudColorHandlerCustom.getColor (h.withData d) = some a := by
  refine ⟨_, custom_getColor_eq h cloud hcap hcloud, rfl, rfl, ?_, ?_⟩
  · intro i hi
    exact getElem?_flatMap_range_triple (fun _ => F64.toUChar h.r_)
      (fun _ => F64.toUChar h.g_) (fun _ => F64.toUChar h.b_) _ i hi
  · exact custom_getColor_eq (h.withData d) { cloud with data := d } hcap
      (by simp [PointCloudColorHandlerCustom.withData, PointCloudColorHandler.withData, hcloud])

set_option maxRecDepth 100000 in
/-- C13, on the four-record scenario cloud with the colours (255.0, 200.7, 0.5): four times the
triple (255, 200, 0). -/
theorem getColor_custom_witness :
    (PointCloudColorHandlerCustom.PointCloudColorHandlerCustom Example.labelCloud Example.d255
      Example.d200_7 Example.dHalf).capable_ = true ∧
    PointCloudColorHandlerCustom.getColor
      (PointCloudColorHandlerCustom.PointCloudColorHandlerCustom Example.labelCloud Example.d255
        Example.d200_7 Example.dHalf)
      = some { NumberOfComponents := 3,
               values := [255, 200, 0, 255, 200, 0, 255, 200, 0, 255, 200, 0] } ∧
    ∃ a : vtkUnsignedCharArray,
      PointCloudColorHandlerCustom.getColor
        (PointCloudColorHandlerCustom.PointCloudColorHandlerCustom Example.labelCloud
          Example.d255 Example.d200_7 Example.dHalf) = some a ∧
      PointCloudColorHandlerCustom.getColor
        ((PointCloudColorHandlerCustom.PointCloudColorHandlerCustom Example.labelCloud
          Example.d255 Example.d200_7 Example.dHalf).withData []) = some a :=
  ⟨by decide, by decide,
    (getColor_custom
      (PointCloudColorHandlerCustom.PointCloudColorHandlerCustom Example.labelCloud
        Example.d255 Example.d200_7 Example.dHalf)
      Example.labelCloud [] (by decide) (by decide)).elim
      fun a ha => ⟨a, ha.1, ha.2.2.2.2⟩⟩

set_option maxRecDepth 100000 in
/-- C14 fails on the scenario cloud, whose record of index 2 has a NaN x: three records pass the
position gate, yet the Fixed and the Random handler both return four triples (12 bytes), one
of them for the record with the NaN position. -/
theorem getColor_custom_random_not_gated :
    hasField Example.labelCloud "x" ∧
    positionGate Example.labelCloud 2 = false ∧
    (passing Example.labelCloud).length = 3 ∧
    (PointCloudColorHandlerCustom.getColor
      (PointCloudColorHandlerCustom.PointCloudColorHandlerCustom Example.labelCloud
        Example.d255 Example.d200_7 Example.dHalf)).map (fun a => a.values.length) = some 12 ∧
    (PointCloudColorHandlerRandom.getColor (Example.dOne, Example.dHalf, Example.dQuarter)
      (PointCloudColorHandlerRandom.PointCloudColorHandlerRandom Example.labelCloud)).map
      (fun a => a.values.length) = some 12 := by
  decide

/-- C14 as amended: the Fixed and the Random handler apply no position gate. When capable over
a present cloud each returns exactly one triple per record, `3 * width * height` bytes, so at
least as many as there are gate-passing records, and a record that fails the position gate
has a triple too. -/
theorem getColor_custom_random_every_record (h : PointCloudColorHandlerCustom)
    (h2 : PointCloudColorHandler) (rgb : F64 × F64 × F64) (cloud cloud2 : PCLPointCloud2)
    (hcap : h.capable_ = true) (hcloud : h.cloud_ = some cloud)
    (hcap2 : h2.capable_ = true) (hcloud2 : h2.cloud_ = some cloud2) :
    (∃ a : vtkUnsignedCharArray, PointCloudColorHandlerCustom.getColor h = some a ∧
      a.values.length = 3 * (cloud.width * cloud.height) ∧
      3 * (passing cloud).length ≤ a.values.length ∧
      ∀ cp, cp < cloud.width * cloud.height → positionGate cloud cp = false →
        (a.values[3 * cp]?).isSome = true) ∧
    (∃ a : vtkUnsignedCharArray, PointCloudColorHandlerRandom.getColor rgb h2 = some a ∧
      a.values.length = 3 * (cloud2.width * cloud2.height) ∧
      3 * (passing cloud2).length ≤ a.values.length ∧
      ∀ cp, cp < cloud2.width * cloud2.height → positionGate cloud2 cp = false →
        (a.values[3 * cp]?).isSome = true) := by
  have hp : ∀ c : PCLPointCloud2, (passing c).length ≤ c.width * c.height := by
    intro c
    have := List.length_filter_le (positionGate c) (List.range (c.width * c.height))
    rwa [List.length_range] at this
  refine ⟨⟨_, custom_getColor_eq h cloud hcap hcloud, ?_, ?_, ?_⟩,
    ⟨_, random_getColor_eq rgb h2 cloud2 hcap2 hcloud2, ?_, ?_, ?_⟩⟩
  · rw [length_flatMap_triple, List.length_range]
  · rw [length_flatMap_triple, List.length_range]; exact Nat.mul_le_mul_left 3 (hp cloud)
  · intro cp hcp _
    rw [(getElem?_flatMap_range_triple (fun _ => F64.toUChar h.r_)
      (fun _ => F64.toUChar h.g_) (fun _ => F64.toUChar h.b_) _ cp hcp).1]
    rfl
  · rw [length_flatMap_triple, List.length_range]
  · rw [length_flatMap_triple, List.length_range]; exact Nat.mul_le_mul_left 3 (hp cloud2)
  · intro cp hcp _
    rw [(getElem?_flatMap_range_triple
      (fun _ => longToUChar (pcl_lrint (F64.mul rgb.1 (F64.ofInt 255))))
      (fun _ => longToUChar (pcl_lrint (F64.mul rgb.2.1 (F64.ofInt 255))))
      (fun _ => longToUChar (pcl_lrint (F64.mul rgb.2.2 (F64.ofInt 255)))) _ cp hcp).1]
    rfl

/-- C14 as amended, on the scenario cloud: both handlers return 12 bytes for the 4 records. -/
theorem getColor_custom_random_every_record_witness :
    (∃ a : vtkUnsignedCharArray,
      PointCloudColorHandlerCustom.getColor
        (PointCloudColorHandlerCustom.PointCloudColorHandlerCustom Example.labelCloud
          Example.d255 Example.d200_7 Example.dHalf) = some a ∧
      a.values.length = 3 * (Example.labelCloud.width * Example.labelCloud.height)) ∧
    (∃ a : vtkUnsignedCharArray,
      PointCloudColorHandlerRandom.getColor (Example.dOne, Example.dHalf, Example.dQuarter)
        (PointCloudColorHandlerRandom.PointCloudColorHandlerRandom Example.labelCloud)
        = some a ∧
      a.values.length = 3 * (Example.labelCloud.width * Example.labelCloud.height)) :=
  have w := getColor_custom_random_every_record
    (PointCloudColorHandlerCustom.PointCloudColorHandlerCustom Example.labelCloud
      Example.d255 Example.d200_7 Example.dHalf)
    (PointCloudColorHandlerRandom.PointCloudColorHandlerRandom Example.labelCloud)
    (Example.dOne, Example.dHalf, Example.dQuarter) Example.labelCloud Example.labelCloud
    (by decide) (by decide) (by decide) (by decide)
  ⟨w.1.elim fun a ha => ⟨a, ha.1, ha.2.1⟩, w.2.elim fun a ha => ⟨a, ha.1, ha.2.1⟩⟩

/-- C15: the Random handler draws its colour once per call: for the triple (r, g, b) that the
generator delivers in the call, a capable handler over a present cloud returns one triple per
record and every triple is (lrint (255 r), lrint (255 g), lrint (255 b)), each narrowed to
8 bits. -/
theorem getColor_random (rgb : F64 × F64 × F64) (h : PointCloudColorHandler)
    (cloud : PCLPointCloud2) (hcap : h.capable_ = true) (hcloud : h.cloud_ = some cloud) :
    ∃ a : vtkUnsignedCharArray, PointCloudColorHandlerRandom.getColor rgb h = some a ∧
      a.NumberOfComponents = 3 ∧
      a.values = ((List.range (cloud.width * cloud.height)).flatMap fun _ =>
        [longToUChar (pcl_lrint (F64.mul rgb.1 (F64.ofInt 255))),
         longToUChar (pcl_lrint (F64.mul rgb.2.1 (F64.ofInt 255))),
         longToUChar (pcl_lrint (F64.mul rgb.2.2 (F64.ofInt 255)))]) ∧
      ∀ i, i < cloud.width * cloud.height →
        a.values[3 * i]? = some (longToUChar (pcl_lrint (F64.mul rgb.1 (F64.ofInt 255)))) ∧
        a.values[3 * i + 1]?
          = some (longToUChar (pcl_lrint (F64.mul rgb.2.1 (F64.ofInt 255)))) ∧
        a.values[3 * i + 2]?
          = some (longToUChar (pcl_lrint (F64.mul rgb.2.2 (F64.ofInt 255)))) := by
  refine ⟨_, random_getColor_eq rgb h cloud hcap hcloud, rfl, rfl, ?_⟩
  intro i hi
  exact getElem?_flatMap_range_triple
    (fun _ => longToUChar (pcl_lrint (F64.mul rgb.1 (F64.ofInt 255))))
    (fun _ => longToUChar (pcl_lrint (F64.mul rgb.2.1 (F64.ofInt 255))))
    (fun _ => longToUChar (pcl_lrint (F64.mul rgb.2.2 (F64.ofInt 255)))) _ i hi

set_option maxRecDepth 100000 in
/-- C15, on the scenario cloud with the generator delivering (1.0, 0.5, 0.25): four times the
triple (255, 128, 64), 127.5 being rounded to the even neighbour 128 and 63.75 to 64. -/
theorem getColor_random_witness :
    (PointCloudColorHandlerRandom.PointCloudColorHandlerRandom Example.labelCloud).capable_
      = true ∧
    PointCloudColorHandlerRandom.getColor (Example.dOne, Example.dHalf, Example.dQuarter)
      (PointCloudColorHandlerRandom.PointCloudColorHandlerRandom Example.labelCloud)
      = some { NumberOfComponents := 3,
               values := [255, 128, 64, 255, 128, 64, 255, 128, 64, 255, 128, 64] } ∧
    ∃ a : vtkUnsignedCharArray,
      PointCloudColorHandlerRandom.getColor (Example.dOne, Example.dHalf, Example.dQuarter)
        (PointCloudColorHandlerRandom.PointCloudColorHandlerRandom Example.labelCloud)
        = some a ∧ a.NumberOfComponents = 3 :=
  ⟨by decide, by decide,
    (getColor_random (Example.dOne, Example.dHalf, Example.dQuarter)
      (PointCloudColorHandlerRandom.PointCloudColorHandlerRandom Example.labelCloud)
      Example.labelCloud (by decide) (by decide)).elim fun a ha => ⟨a, ha.1, ha.2.1⟩⟩

/-! ## Generic scalar extraction: the loops -/

theorem generic_gatedFold (cloud : PCLPointCloud2) (field_idx_ : Int) (hx : hasField cloud "x")
    (N : Nat) (c0 : List F32) (hc0 : c0.length = 1 * N) (n : Nat) (hn : n ≤ N) :
    ((List.range n).foldl (PointCloudColorHandlerGenericField.getColor.gatedStep cloud field_idx_)
        { point_offset := (fieldAt cloud field_idx_).offset,
          x_point_offset := (fieldAt cloud (getFieldIndex cloud "x")).offset,
          j := 0, colors := c0, field_data := 0 }).colors.take
      ((List.range n).foldl
        (PointCloudColorHandlerGenericField.getColor.gatedStep cloud field_idx_)
        { point_offset := (fieldAt cloud field_idx_).offset,
          x_point_offset := (fieldAt cloud (getFieldIndex cloud "x")).offset,
          j := 0, colors := c0, field_data := 0 }).j
      = ((List.range n).filter fun cp => positionGate cloud cp &&
          (decide (hasField cloud "x") ||
            F32.isfinite (fieldDataAfter cloud field_idx_ (cp + 1)))).flatMap
        fun cp => [fieldDataAfter cloud field_idx_ (cp + 1)] := by
  refine (fold_emit_indexed
    (PointCloudColorHandlerGenericField.getColor.gatedStep cloud field_idx_)
    FieldLoop.point_offset FieldLoop.x_point_offset FieldLoop.j FieldLoop.colors
    (fun n s => s.field_data = fieldDataAfter cloud field_idx_ n)
    (fun cp => positionGate cloud cp &&
      (decide (hasField cloud "x") || F32.isfinite (fieldDataAfter cloud field_idx_ (cp + 1))))
    (fun cp => [fieldDataAfter cloud field_idx_ (cp + 1)]) 1 cloud.point_step
    (fieldAt cloud field_idx_).offset (fieldAt cloud (getFieldIndex cloud "x")).offset N
    (fun _ => rfl) ?_
    { point_offset := (fieldAt cloud field_idx_).offset,
      x_point_offset := (fieldAt cloud (getFieldIndex cloud "x")).offset,
      j := 0, colors := c0, field_data := 0 } rfl rfl rfl rfl hc0 n hn).2.2.2.2.2
  intro s n _ hpo hxo hfd hj
  have hP : positionGate cloud n = positionFinite cloud s.x_point_offset := by
    rw [positionGate_of_hasField cloud n hx, hxo]
  have e1 : s.point_offset + cloud.point_step
      = (fieldAt cloud field_idx_).offset + (n + 1) * cloud.point_step := by rw [hpo]; ring
  have e2 : s.x_point_offset + cloud.point_step
      = (fieldAt cloud (getFieldIndex cloud "x")).offset + (n + 1) * cloud.point_step := by
    rw [hxo]; ring
  by_cases hg : positionFinite cloud s.x_point_offset = true
  · have hL : fieldDataAfter cloud field_idx_ (n + 1)
        = memcpy s.field_data cloud.data s.point_offset
            (getFieldSize (fieldAt cloud field_idx_).datatype) := by
      rw [fieldDataAfter, hP, hg, if_pos rfl, hfd, hpo]
    simp only [PointCloudColorHandlerGenericField.getColor.gatedStep, hP, hg, hx, hL,
      Bool.not_true, Bool.false_eq_true, if_false, if_true, decide_True, Bool.true_or,
      Bool.and_self]
    exact ⟨e1, e2, trivial, by simp, trivial, take_succ_set _ _ _ (by omega)⟩
  · simp only [Bool.not_eq_true] at hg
    have hL : fieldDataAfter cloud field_idx_ (n + 1) = s.field_data := by
      rw [fieldDataAfter, hP, hg, hfd]; rfl
    simp only [PointCloudColorHandlerGenericField.getColor.gatedStep, hP, hg,
      Bool.not_false, if_true, Bool.false_and, Bool.false_eq_true, if_false, Nat.add_zero,
      List.append_nil]
    exact ⟨e1, e2, hL.symm, trivial, trivial, trivial⟩

theorem generic_plainFold (cloud : PCLPointCloud2) (field_idx_ : Int)
    (hx : ¬ hasField cloud "x")
    (N : Nat) (c0 : List F32) (hc0 : c0.length = 1 * N) (n : Nat) (hn : n ≤ N) :
    ((List.range n).foldl (PointCloudColorHandlerGenericField.getColor.plainStep cloud field_idx_)
        { point_offset := (fieldAt cloud field_idx_).offset, x_point_offset := 0,
          j := 0, colors := c0, field_data := 0 }).colors.take
      ((List.range n).foldl
        (PointCloudColorHandlerGenericField.getColor.plainStep cloud field_idx_)
        { point_offset := (fieldAt cloud field_idx_).offset, x_point_offset := 0,
          j := 0, colors := c0, field_data := 0 }).j
      = ((List.range n).filter fun cp => positionGate cloud cp &&
          (decide (hasField cloud "x") ||
            F32.isfinite (fieldDataAfter cloud field_idx_ (cp + 1)))).flatMap
        fun cp => [fieldDataAfter cloud field_idx_ (cp + 1)] := by
  refine (fold_emit_indexed
    (PointCloudColorHandlerGenericField.getColor.plainStep cloud field_idx_)
    FieldLoop.point_offset FieldLoop.point_offset FieldLoop.j FieldLoop.colors
    (fun n s => s.field_data = fieldDataAfter cloud field_idx_ n)
    (fun cp => positionGate cloud cp &&
      (decide (hasField cloud "x") || F32.isfinite (fieldDataAfter cloud field_idx_ (cp + 1))))
    (fun cp => [fieldDataAfter cloud field_idx_ (cp + 1)]) 1 cloud.point_step
    (fieldAt cloud field_idx_).offset (fieldAt cloud field_idx_).offset N
    (fun _ => rfl) ?_
    { point_offset := (fieldAt cloud field_idx_).offset, x_point_offset := 0,
      j := 0, colors := c0, field_data := 0 } rfl rfl rfl rfl hc0 n hn).2.2.2.2.2
  intro s n _ hpo _ hfd hj
  have hP : positionGate cloud n = true := positionGate_of_not_hasField cloud n hx
  have e1 : s.point_offset + cloud.point_step
      = (fieldAt cloud field_idx_).offset + (n + 1) * cloud.point_step := by rw [hpo]; ring
  have hL : fieldDataAfter cloud field_idx_ (n + 1)
      = memcpy s.field_data cloud.data s.point_offset
          (getFieldSize (fieldAt cloud field_idx_).datatype) := by
    rw [fieldDataAfter, hP, if_pos rfl, hfd, hpo]
  simp only [PointCloudColorHandlerGenericField.getColor.plainStep, hP, hx, hL, decide_False,
    Bool.false_or, Bool.true_and]
  cases hf : F32.isfinite (memcpy s.field_data cloud.data s.point_offset
      (getFieldSize (fieldAt cloud field_idx_).datatype))
  · simp only [Bool.not_false, if_true, Bool.false_eq_true, if_false, Nat.add_zero,
      List.append_nil]
    exact ⟨e1, e1, trivial, trivial, trivial, trivial⟩
  · simp only [Bool.not_true, Bool.false_eq_true, if_false, if_true]
    exact ⟨e1, e1, trivial, by simp, trivial, take_succ_set _ _ _ (by omega)⟩

theorem generic_getColor_eq (h : PointCloudColorHandlerGenericField) (cloud : PCLPointCloud2)
    (hcap : h.capable_ = true) (hcloud : h.cloud_ = some cloud) :
    PointCloudColorHandlerGenericField.getColor h = some { NumberOfComponents := 1, values :=
      ((genericEmitting cloud h.field_idx_).flatMap fun cp =>
        [fieldDataAfter cloud h.field_idx_ (cp + 1)]) } := by
  have hlen : (List.replicate (cloud.width * cloud.height) (0 : F32)).length
      = 1 * (cloud.width * cloud.height) := by simp
  simp only [PointCloudColorHandlerGenericField.getColor, hcap, hcloud, genericEmitting]
  by_cases hx : hasField cloud "x"
  · have hi := (getFieldIndex_ne_neg_one cloud "x").2 hx
    have key := generic_gatedFold cloud h.field_idx_ hx _ _ hlen _ (le_refl _)
    simp only [hi, ne_eq, not_false_eq_true, if_true, Bool.not_true, Bool.false_eq_true,
      if_false, vtkFloatArray.SetArray, vtkFloatArray.SetNumberOfComponents,
      vtkFloatArray.SetNumberOfTuples, vtkFloatArray.New]
    rw [key]
  · have hi := (getFieldIndex_eq_neg_one cloud "x").2 hx
    have key := generic_plainFold cloud h.field_idx_ hx _ _ hlen _ (le_refl _)
    simp only [hi, ne_eq, not_true_eq_false, if_false, Bool.not_true, Bool.false_eq_true,
      vtkFloatArray.SetArray, vtkFloatArray.SetNumberOfComponents,
      vtkFloatArray.SetNumberOfTuples, vtkFloatArray.New]
    rw [key]

/-! ## Outputs without any tuple -/

theorem label_pick_keeps (lut : GlasbeyLUT) (cloud : PCLPointCloud2) (field_idx_ : Int)
    (static_mapping_ : Bool) (cp : Nat) (hcp : cp < cloud.width * cloud.height) :
    (PointCloudColorHandlerLabelField.getColor.pick lut static_mapping_
      (PointCloudColorHandlerLabelField.getColor.colormap lut cloud field_idx_ static_mapping_)
      (labelAt cloud field_idx_ cp)).2
    = PointCloudColorHandlerLabelField.getColor.colormap lut cloud field_idx_
        static_mapping_ := by
  cases static_mapping_
  · simp only [PointCloudColorHandlerLabelField.getColor.pick, Bool.false_eq_true, if_false]
    rw [index_colormap lut cloud field_idx_ cp hcp]
  · simp [PointCloudColorHandlerLabelField.getColor.pick]

/-- C19: on the non-dense cloud x, y, z, rgb with records (1, NaN, 1), (1, 2, NaN), (2, 2, 2)
only the third record passes the position gate, so the RGB handler returns one colour; the XYZ
geometry handler returns the six floats 1, 1, 2, 2, 2, 2, that is two triples, the first of
which, (1, 1, 2), is assembled from the leading finite values of the two rejected records. -/
theorem geometry_color_misaligned :
    Example.misalignedCloud.is_dense = false ∧
    passing Example.misalignedCloud = [2] ∧
    ((PointCloudGeometryHandlerXYZ.PointCloudGeometryHandlerXYZ
        Example.misalignedCloud).getGeometry none).map (fun p => p.Data.values)
      = some [1065353216, 1065353216, 1073741824, 1073741824, 1073741824, 1073741824] ∧
    (PointCloudColorHandlerRGBField.getColor
        (PointCloudColorHandlerRGBField.PointCloudColorHandlerRGBField
          Example.misalignedCloud)).map (fun a => a.values)
      = some [110, 100, 90] := by
  decide

/-! ## The tuple count of the HSV strategy -/

theorem getElem?_set_set_set {α : Type} (l : List α) (i : Nat) (c : α)
    (h : i + 3 ≤ l.length) :
    (((l.set (i + 2) c).set (i + 1) c).set i c)[i]? = some c ∧
    (((l.set (i + 2) c).set (i + 1) c).set i c)[i + 1]? = some c ∧
    (((l.set (i + 2) c).set (i + 1) c).set i c)[i + 2]? = some c := by
  refine ⟨?_, ?_, ?_⟩
  · rw [List.getElem?_set]; simp; omega
  · rw [List.getElem?_set, List.getElem?_set]; simp; omega
  · rw [List.getElem?_set, List.getElem?_set, List.getElem?_set]; simp; omega

/-- C21: on a capable HSV handler over a cloud within the reach of the `int` variables of the
loops (`fitsInt`) the returned array holds exactly one triple per gate-passing record whose
saturation is not zero. A record with saturation zero stores its gray triple at the current
slot `3 j .. 3 j + 2` of the block (a slot within the block and within the range of `int`) and
leaves the count `j` and the values below the slot as they were, so the gray triple is
overwritten by the next emitted record or stays beyond the returned length. On such a cloud
the `int` variables `point_offset`, `x_point_offset`, `j` and `idx = j * 3` of the loops never
exceed `INT_MAX`, so the `int` arithmetic of the source does not wrap. -/
theorem getColor_hsv_count (h : PointCloudColorHandlerHSVField) (cloud : PCLPointCloud2)
    (hcap : h.capable_ = true) (hcloud : h.cloud_ = some cloud) (hsize : fitsInt cloud) :
    (∃ a : vtkUnsignedCharArray, PointCloudColorHandlerHSVField.getColor h = some a ∧
      a.values.length = 3 * (hsvEmitting cloud h.field_idx_).length) ∧
    (∀ (h_data s_data v_data : F32) (j : Nat) (colors : List UInt8),
      F32.isZero s_data = true → j * 3 + 3 ≤ colors.length → j * 3 + 2 ≤ INT_MAX →
      (PointCloudColorHandlerHSVField.getColor.fill h_data s_data v_data j colors).1 = j ∧
      (PointCloudColorHandlerHSVField.getColor.fill h_data s_data v_data j colors).2.take (j * 3)
        = colors.take (j * 3) ∧
      (PointCloudColorHandlerHSVField.getColor.fill h_data s_data v_data j colors).2[j * 3]?
        = some (F32.toUChar v_data) ∧
      (PointCloudColorHandlerHSVField.getColor.fill h_data s_data v_data j colors).2[j * 3 + 1]?
        = some (F32.toUChar v_data) ∧
      (PointCloudColorHandlerHSVField.getColor.fill h_data s_data v_data j colors).2[j * 3 + 2]?
        = some (F32.toUChar v_data)) ∧
    PointCloudColorHandlerHSVField.getColor.noOverflow cloud h.field_idx_ := by
  refine ⟨⟨_, hsv_getColor_eq h cloud hcap hcloud, ?_⟩, ?_,
    hsv_noOverflow cloud h.field_idx_ hsize⟩
  · exact length_filter_flatMap _ _ 3 (fun _ => length_sectorTriple _ _ _) _
  · intro h_data s_data v_data j colors hz hlen _
    obtain ⟨f1, _, f3⟩ := fill_zero h_data s_data v_data j colors hz
    refine ⟨f1, f3, ?_⟩
    simp only [PointCloudColorHandlerHSVField.getColor.fill, hz, if_true]
    exact getElem?_set_set_set colors (j * 3) (F32.toUChar v_data) hlen

set_option maxRecDepth 100000 in
/-- C21, on the three-record cloud (0, 0, 200), (0, 1, 255), (0, 0, 100): all three records
pass the gates, only the second has a saturation other than zero, and the returned array is
the single triple (255, 0, 0), which has overwritten the gray triple of the first record. -/
theorem getColor_hsv_count_witness :
    (PointCloudColorHandlerHSVField.PointCloudColorHandlerHSVField
      Example.grayFirstCloud).capable_ = true ∧
    fitsInt Example.grayFirstCloud ∧
    (List.range 3).filter (hsvGate Example.grayFirstCloud 0) = [0, 1, 2] ∧
    hsvEmitting Example.grayFirstCloud 0 = [1] ∧
    PointCloudColorHandlerHSVField.getColor
      (PointCloudColorHandlerHSVField.PointCloudColorHandlerHSVField Example.grayFirstCloud)
      = some { NumberOfComponents := 3, values := [255, 0, 0] } ∧
    ∃ a : vtkUnsignedCharArray,
      PointCloudColorHandlerHSVField.getColor
        (PointCloudColorHandlerHSVField.PointCloudColorHandlerHSVField Example.grayFirstCloud)
        = some a ∧
      a.values.length = 3 * (hsvEmitting Example.grayFirstCloud 0).length :=
  ⟨by decide, by decide, by decide, by decide, by decide,
    (getColor_hsv_count
      (PointCloudColorHandlerHSVField.PointCloudColorHandlerHSVField Example.grayFirstCloud)
      Example.grayFirstCloud (by decide) (by decide) (by decide)).1⟩

/-! ## HSV extraction and the offsets of "s" and "v" -/

theorem scan_map (name : String) (g : PCLPointField → PCLPointField)
    (hname : ∀ f, (g f).name = f.name) (fs : List PCLPointField) (i : Nat) :
    getFieldIndex.scan name (fs.map g) i = getFieldIndex.scan name fs i := by
  induction fs generalizing i with
  | nil => rfl
  | cons f fs ih => simp only [List.map_cons, getFieldIndex.scan, hname, ih]

theorem getFieldIndex_withFields (cloud : PCLPointCloud2) (g : PCLPointField → PCLPointField)
    (hname : ∀ f, (g f).name = f.name) (name : String) :
    getFieldIndex (withFields cloud g) name = getFieldIndex cloud name := by
  simp only [getFieldIndex, withFields, scan_map name g hname]

theorem hasField_withFields (cloud : PCLPointCloud2) (g : PCLPointField → PCLPointField)
    (hname : ∀ f, (g f).name = f.name) (name : String) :
    hasField (withFields cloud g) name ↔ hasField cloud name := by
  rw [← getFieldIndex_ne_neg_one, ← getFieldIndex_ne_neg_one,
    getFieldIndex_withFields cloud g hname]

theorem fieldAt_withFields_offset (cloud : PCLPointCloud2) (g : PCLPointField → PCLPointField)
    (name : String)
    (hoff : ∀ f, f.name = name → (g f).offset = f.offset)
    (h : hasField cloud name) :
    (fieldAt (withFields cloud g) (getFieldIndex cloud name)).offset
      = (fieldAt cloud (getFieldIndex cloud name)).offset := by
  have hne := (getFieldIndex_ne_neg_one cloud name).2 h
  obtain ⟨k, hk, hlt, hn⟩ := getFieldIndex_scan_found name cloud.fields 0 hne
  have hidx : getFieldIndex cloud name = (k : Int) := by
    unfold getFieldIndex; rw [hk]; simp
  rw [hidx]
  simp only [fieldAt, withFields, Int.toNat_ofNat]
  rw [List.getD_eq_getElem _ _ (by simpa using hlt), List.getD_eq_getElem _ _ hlt,
    List.getElem_map]
  apply hoff
  rw [List.getD_eq_getElem _ _ hlt] at hn
  exact hn

theorem positionGate_withFields (cloud : PCLPointCloud2) (g : PCLPointField → PCLPointField)
    (hname : ∀ f, (g f).name = f.name)
    (hoff : ∀ f, f.name = "x" → (g f).offset = f.offset) (cp : Nat) :
    positionGate (withFields cloud g) cp = positionGate cloud cp := by
  unfold positionGate
  by_cases hx : hasField cloud "x"
  · have hx2 := (hasField_withFields cloud g hname "x").2 hx
    simp only [hx, hx2, if_true, getFieldIndex_withFields cloud g hname,
      fieldAt_withFields_offset cloud g "x" hoff hx]
    rfl
  · have hx2 : ¬ hasField (withFields cloud g) "x" :=
      fun e => hx ((hasField_withFields cloud g hname "x").1 e)
    simp only [hx, hx2, if_false]

theorem hsv_ctor_withFields (cloud : PCLPointCloud2) (g : PCLPointField → PCLPointField)
    (hname : ∀ f, (g f).name = f.name) :
    (PointCloudColorHandlerHSVField.PointCloudColorHandlerHSVField (withFields cloud g)).capable_
      = (PointCloudColorHandlerHSVField.PointCloudColorHandlerHSVField cloud).capable_ ∧
    (PointCloudColorHandlerHSVField.PointCloudColorHandlerHSVField
        (withFields cloud g)).field_idx_ = getFieldIndex cloud "h" ∧
    (PointCloudColorHandlerHSVField.PointCloudColorHandlerHSVField cloud).field_idx_
      = getFieldIndex cloud "h" ∧
    (PointCloudColorHandlerHSVField.PointCloudColorHandlerHSVField (withFields cloud g)).cloud_
      = some (withFields cloud g) ∧
    (PointCloudColorHandlerHSVField.PointCloudColorHandlerHSVField cloud).cloud_ = some cloud ∧
    ((PointCloudColorHandlerHSVField.PointCloudColorHandlerHSVField cloud).capable_ = true →
      hasField cloud "h") := by
  simp only [PointCloudColorHandlerHSVField.PointCloudColorHandlerHSVField,
    getFieldIndex_withFields cloud g hname, PointCloudColorHandler.PointCloudColorHandler]
  by_cases h1 : getFieldIndex cloud "h" = -1
  · simp [h1]
  · have p1 := (getFieldIndex_ne_neg_one cloud "h").1 h1
    by_cases h2 : getFieldIndex cloud "s" = -1
    · simp [h1, h2, p1]
    · by_cases h3 : getFieldIndex cloud "v" = -1
      · simp [h1, h2, h3, p1]
      · simp [h1, h2, h3, p1]

theorem hsv_getColor_withFields (cloud : PCLPointCloud2) (g : PCLPointField → PCLPointField)
    (hname : ∀ f, (g f).name = f.name)
    (hoff : ∀ f, f.name ≠ "s" → f.name ≠ "v" → (g f).offset = f.offset) :
    PointCloudColorHandlerHSVField.getColor
        (PointCloudColorHandlerHSVField.PointCloudColorHandlerHSVField (withFields cloud g))
      = PointCloudColorHandlerHSVField.getColor
        (PointCloudColorHandlerHSVField.PointCloudColorHandlerHSVField cloud) := by
  obtain ⟨c1, c2, c3, c4, c5, c6⟩ := hsv_ctor_withFields cloud g hname
  cases hcap : (PointCloudColorHandlerHSVField.PointCloudColorHandlerHSVField cloud).capable_
  · have hcap2 := c1.trans hcap
    simp [PointCloudColorHandlerHSVField.getColor, hcap, hcap2]
  · have hcap2 := c1.trans hcap
    have hh := c6 hcap
    rw [hsv_getColor_eq _ (withFields cloud g) hcap2 c4, hsv_getColor_eq _ cloud hcap c5, c2, c3]
    have hoffh := fieldAt_withFields_offset cloud g "h"
      (fun f hf => hoff f (by rw [hf]; decide) (by rw [hf]; decide)) hh
    have hgate : positionGate (withFields cloud g) = positionGate cloud := by
      funext cp
      exact positionGate_withFields cloud g hname
        (fun f hf => hoff f (by rw [hf]; decide) (by rw [hf]; decide)) cp
    have e1 : hueAt (withFields cloud g) (getFieldIndex cloud "h")
        = hueAt cloud (getFieldIndex cloud "h") := by
      funext cp; simp only [hueAt, hoffh]; rfl
    have e2 : saturationAt (withFields cloud g) (getFieldIndex cloud "h")
        = saturationAt cloud (getFieldIndex cloud "h") := by
      funext cp; simp only [saturationAt, hoffh]; rfl
    have e3 : valueAt (withFields cloud g) (getFieldIndex cloud "h")
        = valueAt cloud (getFieldIndex cloud "h") := by
      funext cp; simp only [valueAt, hoffh]; rfl
    have e4 : hsvEmitting (withFields cloud g) (getFieldIndex cloud "h")
        = hsvEmitting cloud (getFieldIndex cloud "h") := by
      simp only [hsvEmitting, hsvGate, e1, e2, e3, hgate]; rfl
    rw [e4, e1, e2, e3]

theorem moveSV_name (os ov : Nat) (f : PCLPointField) : (moveSV os ov f).name = f.name := by
  unfold moveSV
  split_ifs <;> rfl

theorem moveSV_offset (os ov : Nat) (f : PCLPointField) (hs : f.name ≠ "s")
    (hv : f.name ≠ "v") : (moveSV os ov f).offset = f.offset := by
  simp [moveSV, hs, hv]

/-- C22: the HSV extraction does not use the located "s" and "v" fields. The handler
constructed over a schema changed by `g`, where `g` keeps every field name and keeps the offset
of every field not called "s" or "v" (same records, same data bytes), returns the same array
as the handler over the original schema, in particular when "s" and "v" are moved to arbitrary
offsets `os`, `ov`; and `getColor` does not depend on the stored indices `s_field_idx_` and
`v_field_idx_`. -/
theorem getColor_hsv_ignores_sv (cloud : PCLPointCloud2) (g : PCLPointField → PCLPointField)
    (h : PointCloudColorHandlerHSVField) (s_idx v_idx : Int)
    (hname : ∀ f, (g f).name = f.name)
    (hoff : ∀ f, f.name ≠ "s" → f.name ≠ "v" → (g f).offset = f.offset) :
    PointCloudColorHandlerHSVField.getColor
        (PointCloudColorHandlerHSVField.PointCloudColorHandlerHSVField (withFields cloud g))
      = PointCloudColorHandlerHSVField.getColor
        (PointCloudColorHandlerHSVField.PointCloudColorHandlerHSVField cloud) ∧
    (∀ os ov : Nat, PointCloudColorHandlerHSVField.getColor
        (PointCloudColorHandlerHSVField.PointCloudColorHandlerHSVField
          (withFields cloud (moveSV os ov)))
      = PointCloudColorHandlerHSVField.getColor
        (PointCloudColorHandlerHSVField.PointCloudColorHandlerHSVField cloud)) ∧
    PointCloudColorHandlerHSVField.getColor
        { h with s_field_idx_ := s_idx, v_field_idx_ := v_idx }
      = PointCloudColorHandlerHSVField.getColor h :=
  ⟨hsv_getColor_withFields cloud g hname hoff,
    fun os ov => hsv_getColor_withFields cloud (moveSV os ov) (moveSV_name os ov)
      (moveSV_offset os ov),
    rfl⟩

set_option maxRecDepth 100000 in
/-- C22, on the two-record cloud (0, 1, 255), (120, 1, 255) with "s" declared at offset 100 and
"v" at offset 200: the output is still (255, 0, 0), (0, 255, 0). -/
theorem getColor_hsv_ignores_sv_witness :
    (withFields Example.sectorCloud (moveSV 100 200)).fields.map (fun f => (f.name, f.offset))
      = [("h", 0), ("s", 100), ("v", 200)] ∧
    PointCloudColorHandlerHSVField.getColor
        (PointCloudColorHandlerHSVField.PointCloudColorHandlerHSVField Example.sectorCloud)
      = some { NumberOfComponents := 3, values := [255, 0, 0, 0, 255, 0] } ∧
    PointCloudColorHandlerHSVField.getColor
        (PointCloudColorHandlerHSVField.PointCloudColorHandlerHSVField
          (withFields Example.sectorCloud (moveSV 100 200)))
      = PointCloudColorHandlerHSVField.getColor
        (PointCloudColorHandlerHSVField.PointCloudColorHandlerHSVField Example.sectorCloud) :=
  ⟨by decide, by decide,
    (getColor_hsv_ignores_sv Example.sectorCloud (moveSV 100 200)
      (PointCloudColorHandlerHSVField.PointCloudColorHandlerHSVField Example.sectorCloud) 0 0
      (moveSV_name 100 200) (moveSV_offset 100 200)).1⟩

/-! ## The write position stays inside the block -/

theorem length_passing_le (cloud : PCLPointCloud2) :
    (passing cloud).length ≤ cloud.width * cloud.height := by
  have := List.length_filter_le (positionGate cloud) (List.range (cloud.width * cloud.height))
  rwa [List.length_range] at this

/-- C23: on a cloud within the reach of the `int` variables of the loops (`fitsInt`), in the
loops of the five filtering colour strategies, started with the write position `j` at 0, the
position at the start of iteration `cp` counts at most `cp` tuples, so for
`cp < n ≤ width * height` all writes of the iteration land below `channels * n`, the size of
the block allocated for `n` records (for HSV the three bytes from `3 j`, gray triple
included), and at positions that an `int` holds (at most `INT_MAX`; the RGB loops count in
`std::size_t`); a capable handler over a present cloud returns at most `width * height`
tuples; and in the loops as `getColor` starts them no `int` variable exceeds `INT_MAX`, so the
`int` arithmetic of the source does not wrap. -/
theorem write_position_in_block (cloud : PCLPointCloud2) (lut : GlasbeyLUT)
    (b : PointCloudColorHandler) (s_idx v_idx : Int) (name : String) (field_size : Nat)
    (static_mapping : Bool) (s0 : ColorLoop) (f0 : FieldLoop) (l0 : LabelLoop) (n cp : Nat)
    (hcap : b.capable_ = true) (hcloud : b.cloud_ = some cloud)
    (hs0 : s0.j = 0) (hf0 : f0.j = 0) (hl0 : l0.j = 0) (hcp : cp < n)
    (hn : n ≤ cloud.width * cloud.height) (hsize : fitsInt cloud) :
    (((List.range cp).foldl
        (PointCloudColorHandlerRGBField.getColor.gatedStep cloud) s0).j ≤ 3 * cp ∧
      ((List.range cp).foldl
        (PointCloudColorHandlerRGBField.getColor.gatedStep cloud) s0).j + 3 ≤ 3 * n) ∧
    (((List.range cp).foldl
        (PointCloudColorHandlerRGBField.getColor.plainStep cloud) s0).j ≤ 3 * cp ∧
      ((List.range cp).foldl
        (PointCloudColorHandlerRGBField.getColor.plainStep cloud) s0).j + 3 ≤ 3 * n) ∧
    (((List.range cp).foldl
        (PointCloudColorHandlerRGBAField.getColor.gatedStep cloud) s0).j ≤ 4 * cp ∧
      ((List.range cp).foldl
        (PointCloudColorHandlerRGBAField.getColor.gatedStep cloud) s0).j + 4 ≤ 4 * n ∧
      ((List.range cp).foldl
        (PointCloudColorHandlerRGBAField.getColor.gatedStep cloud) s0).j + 4 ≤ INT_MAX) ∧
    (((List.range cp).foldl
        (PointCloudColorHandlerRGBAField.getColor.plainStep cloud) s0).j ≤ 4 * cp ∧
      ((List.range cp).foldl
        (PointCloudColorHandlerRGBAField.getColor.plainStep cloud) s0).j + 4 ≤ 4 * n ∧
      ((List.range cp).foldl
        (PointCloudColorHandlerRGBAField.getColor.plainStep cloud) s0).j + 4 ≤ INT_MAX) ∧
    (((List.range cp).foldl
        (PointCloudColorHandlerHSVField.getColor.gatedStep cloud) s0).j ≤ cp ∧
      3 * ((List.range cp).foldl
        (PointCloudColorHandlerHSVField.getColor.gatedStep cloud) s0).j + 3 ≤ 3 * n ∧
      3 * ((List.range cp).foldl
        (PointCloudColorHandlerHSVField.getColor.gatedStep cloud) s0).j + 3 ≤ INT_MAX) ∧
    (((List.range cp).foldl
        (PointCloudColorHandlerHSVField.getColor.plainStep cloud) s0).j ≤ cp ∧
      3 * ((List.range cp).foldl
        (PointCloudColorHandlerHSVField.getColor.plainStep cloud) s0).j + 3 ≤ 3 * n ∧
      3 * ((List.range cp).foldl
        (PointCloudColorHandlerHSVField.getColor.plainStep cloud) s0).j + 3 ≤ INT_MAX) ∧
    (((List.range cp).foldl
        (PointCloudColorHandlerGenericField.getColor.gatedStep cloud b.field_idx_) f0).j ≤ cp ∧
      ((List.range cp).foldl
        (PointCloudColorHandlerGenericField.getColor.gatedStep cloud b.field_idx_) f0).j + 1 ≤ n ∧
      ((List.range cp).foldl
        (PointCloudColorHandlerGenericField.getColor.gatedStep cloud b.field_idx_) f0).j + 1 ≤ INT_MAX) ∧
    (((List.range cp).foldl
        (PointCloudColorHandlerGenericField.getColor.plainStep cloud b.field_idx_) f0).j ≤ cp ∧
      ((List.range cp).foldl
        (PointCloudColorHandlerGenericField.getColor.plainStep cloud b.field_idx_) f0).j + 1 ≤ n ∧
      ((List.range cp).foldl
        (PointCloudColorHandlerGenericField.getColor.plainStep cloud b.field_idx_) f0).j + 1 ≤ INT_MAX) ∧
    (((List.range cp).foldl
        (PointCloudColorHandlerLabelField.getColor.gatedStep lut cloud field_size static_mapping) l0).j ≤ 3 * cp ∧
      ((List.range cp).foldl
        (PointCloudColorHandlerLabelField.getColor.gatedStep lut cloud field_size static_mapping) l0).j + 3 ≤ 3 * n ∧
      ((List.range cp).foldl
        (PointCloudColorHandlerLabelField.getColor.gatedStep lut cloud field_size static_mapping) l0).j + 3 ≤ INT_MAX) ∧
    (((List.range cp).foldl
        (PointCloudColorHandlerLabelField.getColor.plainStep lut cloud field_size static_mapping) l0).j ≤ 3 * cp ∧
      ((List.range cp).foldl
        (PointCloudColorHandlerLabelField.getColor.plainStep lut cloud field_size static_mapping) l0).j + 3 ≤ 3 * n ∧
      ((List.range cp).foldl
        (PointCloudColorHandlerLabelField.getColor.plainStep lut cloud field_size static_mapping) l0).j + 3 ≤ INT_MAX) ∧
    (∃ a : vtkUnsignedCharArray, PointCloudColorHandlerRGBField.getColor b = some a ∧
      a.values.length ≤ 3 * (cloud.width * cloud.height)) ∧
    (∃ a : vtkUnsignedCharArray, PointCloudColorHandlerRGBAField.getColor b = some a ∧
      a.values.length ≤ 4 * (cloud.width * cloud.height)) ∧
    (∃ a : vtkUnsignedCharArray, PointCloudColorHandlerHSVField.getColor
        { toPointCloudColorHandler := b, s_field_idx_ := s_idx, v_field_idx_ := v_idx }
        = some a ∧
      a.values.length ≤ 3 * (cloud.width * cloud.height)) ∧
    (∃ a : vtkFloatArray, PointCloudColorHandlerGenericField.getColor
        { toPointCloudColorHandler := b, field_name_ := name } = some a ∧
      a.values.length ≤ cloud.width * cloud.height) ∧
    (∃ a : vtkUnsignedCharArray, PointCloudColorHandlerLabelField.getColor lut
        { toPointCloudColorHandler := b, static_mapping_ := static_mapping } = some a ∧
      a.values.length ≤ 3 * (cloud.width * cloud.height)) ∧
    PointCloudColorHandlerRGBAField.getColor.noOverflow cloud b.field_idx_ ∧
    PointCloudColorHandlerHSVField.getColor.noOverflow cloud b.field_idx_ ∧
    PointCloudColorHandlerGenericField.getColor.noOverflow cloud b.field_idx_ ∧
    PointCloudColorHandlerLabelField.getColor.noOverflow lut cloud b.field_idx_
      static_mapping := by
  have hmax : 4 * (cloud.width * cloud.height) ≤ 2147483647 := hsize.1
  refine ⟨?_, ?_, ?_, ?_, ?_, ?_, ?_, ?_, ?_, ?_,
    ⟨_, rgb_getColor_eq b cloud hcap hcloud, ?_⟩,
    ⟨_, rgba_getColor_eq b cloud hcap hcloud, ?_⟩,
    ⟨_, hsv_getColor_eq _ cloud hcap hcloud, ?_⟩,
    ⟨_, generic_getColor_eq _ cloud hcap hcloud, ?_⟩,
    ⟨_, label_getColor_eq lut _ cloud hcap hcloud
      (fun cp hcp => label_pick_keeps lut cloud _ _ cp hcp), ?_⟩,
    rgba_noOverflow cloud b.field_idx_ hsize, hsv_noOverflow cloud b.field_idx_ hsize,
    generic_noOverflow cloud b.field_idx_ hsize,
    label_noOverflow lut cloud b.field_idx_ static_mapping hsize⟩
  · have hb := fold_bound _ ColorLoop.j 3 (rgb_gatedStep_bound cloud) s0 (List.range cp)
    rw [List.length_range, hs0] at hb
    constructor <;> omega
  · have hb := fold_bound _ ColorLoop.j 3 (rgb_plainStep_bound cloud) s0 (List.range cp)
    rw [List.length_range, hs0] at hb
    constructor <;> omega
  · have hb := fold_bound _ ColorLoop.j 4 (rgba_gatedStep_bound cloud) s0 (List.range cp)
    rw [List.length_range, hs0] at hb
    simp only [INT_MAX]
    refine ⟨?_, ?_, ?_⟩ <;> omega
  · have hb := fold_bound _ ColorLoop.j 4 (rgba_plainStep_bound cloud) s0 (List.range cp)
    rw [List.length_range, hs0] at hb
    simp only [INT_MAX]
    refine ⟨?_, ?_, ?_⟩ <;> omega
  · have hb := fold_bound _ ColorLoop.j 1 (hsv_gatedStep_bound cloud) s0 (List.range cp)
    rw [List.length_range, hs0] at hb
    simp only [INT_MAX]
    refine ⟨?_, ?_, ?_⟩ <;> omega
  · have hb := fold_bound _ ColorLoop.j 1 (hsv_plainStep_bound cloud) s0 (List.range cp)
    rw [List.length_range, hs0] at hb
    simp only [INT_MAX]
    refine ⟨?_, ?_, ?_⟩ <;> omega
  · have hb := fold_bound _ FieldLoop.j 1 (generic_gatedStep_bound cloud b.field_idx_) f0 (List.range cp)
    rw [List.length_range, hf0] at hb
    simp only [INT_MAX]
    refine ⟨?_, ?_, ?_⟩ <;> omega
  · have hb := fold_bound _ FieldLoop.j 1 (generic_plainStep_bound cloud b.field_idx_) f0 (List.range cp)
    rw [List.length_range, hf0] at hb
    simp only [INT_MAX]
    refine ⟨?_, ?_, ?_⟩ <;> omega
  · have hb := fold_bound _ LabelLoop.j 3 (label_gatedStep_bound lut cloud field_size static_mapping) l0 (List.range cp)
    rw [List.length_range, hl0] at hb
    simp only [INT_MAX]
    refine ⟨?_, ?_, ?_⟩ <;> omega
  · have hb := fold_bound _ LabelLoop.j 3 (label_plainStep_bound lut cloud field_size static_mapping) l0 (List.range cp)
    rw [List.length_range, hl0] at hb
    simp only [INT_MAX]
    refine ⟨?_, ?_, ?_⟩ <;> omega
  · rw [length_flatMap_triple]
    exact Nat.mul_le_mul_left 3 (length_passing_le cloud)
  · exact length_filter_flatMap_range_le (positionGate cloud) (fun cp =>
      [(packedAt cloud b.field_idx_ cp).r, (packedAt cloud b.field_idx_ cp).g,
       (packedAt cloud b.field_idx_ cp).b, (packedAt cloud b.field_idx_ cp).a]) 4
      (fun _ => rfl) _
  · exact length_filter_flatMap_range_le _ _ 3 (fun _ => length_sectorTriple _ _ _) _
  · have := length_filter_flatMap_range_le
      (fun cp => positionGate cloud cp && (decide (hasField cloud "x") ||
        F32.isfinite (fieldDataAfter cloud b.field_idx_ (cp + 1))))
      (fun cp => [fieldDataAfter cloud b.field_idx_ (cp + 1)]) 1 (fun _ => rfl)
      (cloud.width * cloud.height)
    rw [Nat.one_mul] at this
    exact this
  · rw [length_flatMap_triple]
    exact Nat.mul_le_mul_left 3 (length_passing_le cloud)

/-- C23, on the three-record cloud x, y, z, rgb: after one iteration of the gated RGB loop the
write position is at most 3 and the next write ends below 9, after one iteration of the gated
RGBA loop it is at most 4 and the next write ends below 12, and the handler returns at most
three tuples. -/
theorem write_position_in_block_witness :
    (1 < 3) ∧ (3 ≤ Example.rgbCloud.width * Example.rgbCloud.height) ∧
    fitsInt Example.rgbCloud ∧
    (((List.range 1).foldl (PointCloudColorHandlerRGBField.getColor.gatedStep Example.rgbCloud)
        { point_offset := 12, x_point_offset := 0, j := 0,
          colors := List.replicate 9 0 }).j ≤ 3 * 1 ∧
      ((List.range 1).foldl (PointCloudColorHandlerRGBField.getColor.gatedStep Example.rgbCloud)
        { point_offset := 12, x_point_offset := 0, j := 0,
          colors := List.replicate 9 0 }).j + 3 ≤ 3 * 3) ∧
    (((List.range 1).foldl (PointCloudColorHandlerRGBAField.getColor.gatedStep Example.rgbCloud)
        { point_offset := 12, x_point_offset := 0, j := 0,
          colors := List.replicate 9 0 }).j ≤ 4 * 1 ∧
      ((List.range 1).foldl (PointCloudColorHandlerRGBAField.getColor.gatedStep Example.rgbCloud)
        { point_offset := 12, x_point_offset := 0, j := 0,
          colors := List.replicate 9 0 }).j + 4 ≤ 4 * 3 ∧
      ((List.range 1).foldl (PointCloudColorHandlerRGBAField.getColor.gatedStep Example.rgbCloud)
        { point_offset := 12, x_point_offset := 0, j := 0,
          colors := List.replicate 9 0 }).j + 4 ≤ INT_MAX) ∧
    (∃ a : vtkUnsignedCharArray,
      PointCloudColorHandlerRGBField.getColor
        (PointCloudColorHandlerRGBField.PointCloudColorHandlerRGBField Example.rgbCloud)
        = some a ∧
      a.values.length ≤ 3 * (Example.rgbCloud.width * Example.rgbCloud.height)) :=
  have w := write_position_in_block Example.rgbCloud Example.palette
    (PointCloudColorHandlerRGBField.PointCloudColorHandlerRGBField Example.rgbCloud) 0 0 "rgb"
    4 false
    { point_offset := 12, x_point_offset := 0, j := 0, colors := List.replicate 9 0 }
    { point_offset := 12, x_point_offset := 0, j := 0, colors := List.replicate 3 0,
      field_data := 0 }
    { point_offset := 12, x_point_offset := 0, j := 0, colors := List.replicate 9 0,
      colormap := [] }
    3 1 (by decide) (by decide) rfl rfl rfl (by decide) (by decide) (by decide)
  ⟨by decide, by decide, by decide, w.1, w.2.2.1, w.2.2.2.2.2.2.2.2.2.2.1⟩

/-! ## Lookups in the dynamic colormap -/

end visualization

end pcl
